import Mathlib

/-!
# Support-chat controller of helpdesk_bot: model and checked properties

The repository ships two copies of the browser-side chat controller:

* `src/helpbot/static/js/chat-bot.js`  (namespace `ChatBot.Helpbot`)
* `src/static/js/chat-bot.js`          (namespace `ChatBot.Static`)

Both are modelled as state transformers over an explicit record that holds
the module-level variables, the four `localStorage` keys, the DOM elements
the controller touches, the registered intervals, and two append-only logs
(scheduled `setTimeout` callbacks and issued `fetch` requests).

Modelling conventions.

* Identifiers (ticket ids, message ids) are texts; `none` stands for the
  JavaScript values `null` and `undefined`.
* A stored JSON text is represented by what `JSON.parse` makes of it
  (`Guardado`): it throws, it yields `null`, or it yields the record.
  `JSON.stringify` of a record is `Guardado.valor`. Every reader tests the
  stored text for truthiness before it parses it, so an empty text behaves
  like an absent key and is covered by `none`.
* An `async` function is cut at its `await fetch(...)`: the part before the
  request is `f_inicio`, the part that runs on the outcome is `f_resposta`.
  The outcome itself (`Fetch`) is an input, and a response body carries every
  field the code reads. Where a whole `async` function is given as one
  definition, it is the run in which no other handler comes in between.
* `Date.now()` is the field `agora` of the state.
* `localStorage.setItem` and `new bootstrap.Modal` are taken to succeed;
  console output, scrolling, focus, CSS, the feedback banner and the HTML
  text inside a bubble are not part of the state.
* A DOM element the code looks up with `getElementById` is an `Option`:
  `none` when the page does not have it.
-/

namespace ChatBot

/-! ## Data shared by the two variants -/

/-- Ticket record kept in `chamadoAtual` (the creation response of the server). -/
structure Chamado where
  chamado_id : String
  chamado_legivel : String
  status : String
  tipo_usuario : Option String
  deriving DecidableEq, Repr

/-- One message as delivered by the server (`mensagens`, `novas_mensagens`). -/
structure Mensagem where
  id : Option String
  mensagem : String
  remetente : String
  hora : String
  deriving DecidableEq, Repr

/-- The record stored under the key `ultimaVisualizacao`. -/
structure EstadoVisualizacao where
  ultimaMensagemId : Option String
  timestamp : Nat
  chamadoId : Option String
  deriving DecidableEq, Repr

/-- A stored JSON text, by the result of `JSON.parse` on it. -/
inductive Guardado (α : Type) where
  | invalido : Guardado α
  | nulo : Guardado α
  | valor (a : α) : Guardado α
  deriving DecidableEq, Repr

/-- The four `localStorage` keys; `none` is an absent key (`getItem` gives `null`). -/
structure Armazenamento where
  chamadoAtual : Option (Guardado Chamado)
  ultimaVisualizacao : Option (Guardado EstadoVisualizacao)
  indicadorNovasMensagens : Option String
  tipoUsuario : Option String
  deriving DecidableEq, Repr

/-- Empty storage. -/
def Armazenamento.vazio : Armazenamento :=
  { chamadoAtual := none, ultimaVisualizacao := none,
    indicadorNovasMensagens := none, tipoUsuario := none }

/-- Outcome of `await fetch(url)` followed by `await response.json()`. -/
inductive Fetch (α : Type) where
  | rejeitado : Fetch α
  | resposta (ok : Bool) (corpo : Option α) : Fetch α
  deriving DecidableEq, Repr

/-- Body of `/chamado/<id>/verificar-mensagens-inteligente/`. -/
structure ResultadoVerificacao where
  success : Bool
  total_novas : Nat
  ultima_visualizada_id : Option String
  novas_mensagens : List Mensagem
  chamado_status : String
  deriving DecidableEq, Repr

/-- Body of `/api/verificar-notificacoes/`. -/
structure ResultadoNotificacoes where
  success : Bool
  total_nao_lidas : Nat
  tipo_usuario : Option String
  deriving DecidableEq, Repr

/-- Body of `/chamado/<id>/carregar-mensagens/`. -/
structure ResultadoHistorico where
  success : Bool
  status : String
  mensagens : List Mensagem
  deriving DecidableEq, Repr

/-- A child of `#chatMessages`. -/
inductive Bolha where
  | mensagem (messageId : String) (texto : String) (remetente : String) (hora : String) : Bolha
  | digitando : Bolha
  | finalizacao : Bolha
  deriving DecidableEq, Repr

/-- The `data-message-id` attribute of a transcript child, when it has one. -/
def Bolha.dataMessageId : Bolha → Option String
  | .mensagem i _ _ _ => some i
  | .digitando => none
  | .finalizacao => none

/-- Requests issued through `fetch`. -/
inductive Pedido where
  | verificarNotificacoes : Pedido
  | verificarMensagensInteligente (chamadoId : String) (ultimaVisualizadaId : String) : Pedido
  | carregarMensagens (chamadoId : String) : Pedido
  | enviarMensagemBot (chamadoId : String) (indice : Nat) : Pedido
  | proximaMensagem (chamadoId : String) : Pedido
  | enviarMensagem (chamadoId : String) (texto : String) : Pedido
  | criarChamado : Pedido
  deriving DecidableEq, Repr

/-- Callbacks handed to `setTimeout`. -/
inductive Tarefa where
  | mostrarIndicadorNovasMensagens : Tarefa
  | verificarNovasMensagensInteligente : Tarefa
  | verificarNotificacoesAutomaticas : Tarefa
  | iniciarSequenciaBot : Tarefa
  | carregarMensagensEVerificar : Tarefa
  | carregarMensagensChamado : Tarefa
  | carregarChamadoSalvo : Tarefa
  | ajustarLayoutChat : Tarefa
  deriving DecidableEq, Repr

/-- The three `setInterval` registrations of the controllers. -/
inductive TipoIntervalo where
  | refreshDados : TipoIntervalo
  | segundoPlano : TipoIntervalo
  | verificacaoMensagens : TipoIntervalo
  | chat25s : TipoIntervalo
  deriving DecidableEq, Repr

/-- JavaScript truthiness of a text that may be `null`: non-null and non-empty. -/
def verdadeiro : Option String → Bool
  | some t => !(t == "")
  | none => false

/-- Whether `agulha` occurs at the head of the character list. -/
def comecaCom : List Char → List Char → Bool
  | _, [] => true
  | [], _ :: _ => false
  | c :: cs, a :: as => (c == a) && comecaCom cs as

/-- Function `String.prototype.includes` on character lists. -/
def includes : List Char → List Char → Bool
  | [], agulha => agulha.isEmpty
  | c :: cs, agulha => comecaCom (c :: cs) agulha || includes cs agulha

/-- The test `status.toLowerCase().includes("resolvido")`. -/
def statusResolvido (status : String) : Bool :=
  includes (status.data.map Char.toLower) "resolvido".data

/-- The fallback id `msg_${Date.now()}`. -/
def idLocal (agora : Nat) : String :=
  "msg_" ++ toString agora

/-- The value of `id || msg_${Date.now()}`. -/
def idOuLocal (id : Option String) (agora : Nat) : String :=
  match id with
  | some t => if t == "" then idLocal agora else t
  | none => idLocal agora

/-- The last `data-message-id` among the children that carry the attribute. -/
def ultimoIdRenderizado (filhos : List Bolha) : Option String :=
  (filhos.filterMap Bolha.dataMessageId).getLast?

/-- Body of the ticket-creation response: the flag `success` and the remaining fields,
which together become `chamadoAtual`. -/
structure ResultadoCriacao where
  success : Bool
  chamado : Chamado
  deriving DecidableEq, Repr

/-- Body of `/chamado/<id>/enviar-mensagem/` as the static variant reads it. -/
structure ResultadoEnvio where
  success : Bool
  intencao_detectada : Option String
  resposta : String
  message_id : Option String
  deriving DecidableEq, Repr

/-- Body of `/chamado/<id>/enviar-mensagem/` as the helpbot variant reads it. -/
structure ResultadoEnvioChat where
  success : Bool
  mensagem_id : Option String
  hora : String
  chamado_resolvido : Bool
  message : Option String
  deriving DecidableEq, Repr

/-- Body of `/chamado/<id>/proxima-mensagem/`. -/
structure ResultadoProxima where
  success : Bool
  completo : Bool
  deriving DecidableEq, Repr

/-- Body of `/chamado/<id>/enviar-mensagem-bot/<n>/`. -/
structure ResultadoMensagemBot where
  success : Bool
  mensagem : String
  hora : String
  mensagem_id : Option String
  message : Option String
  deriving DecidableEq, Repr

/-- What a running `iniciarSequenciaBot` does, call by call: a request, a wait of the
given number of milliseconds, and the two calls for the composing indicator. -/
inductive Passo where
  | pedido (p : Pedido) : Passo
  | espera (ms : Nat) : Passo
  | mostrarIndicadorDigitacao : Passo
  | removerIndicadorDigitacao : Passo
  deriving DecidableEq, Repr

/-- The number `result.mensagens.filter(msg => msg.remetente === "bot").length`. -/
def mensagensBotExistentes (r : ResultadoHistorico) : Nat :=
  (r.mensagens.filter (fun msg => msg.remetente == "bot")).length

/-- Function `String.prototype.trim` on character lists. -/
def trim (texto : String) : String :=
  String.mk ((texto.data.dropWhile Char.isWhitespace).reverse.dropWhile Char.isWhitespace).reverse

/-! ## The variant `src/static/js/chat-bot.js` -/

namespace Static

/-- The element `#messageInput`. -/
structure CampoMensagem where
  value : String
  placeholder : String
  chatDisabled : Bool
  deriving DecidableEq, Repr

/-- Module variables, storage, DOM and environment of the static variant. -/
structure State where
  chamadoAtual : Option Chamado
  sequenciaAtiva : Bool
  chatModalInstance : Bool
  carregandoMensagens : Bool
  ultimaMensagemId : Option String
  intervaloAtualizacao : Option Nat
  indicadorNovasMensagens : Bool
  modalAberto : Bool
  ultimaMensagemVisualizadaId : Option String
  localStorage : Armazenamento
  chatMessages : Option (List Bolha)
  containerIndicador : Bool
  indicador : Bool
  floatingBtn : Bool
  messageInput : Option CampoMensagem
  sendBtnChatDisabled : Option Bool
  chatStatus : Option String
  agora : Nat
  intervalos : List (Nat × TipoIntervalo)
  proximoHandle : Nat
  agendados : List (Nat × Tarefa)
  pedidos : List Pedido
  deriving DecidableEq, Repr

/-- Function `criarContainerIndicador` (lines 316-344): adds the container (and a floating button when there is none). -/
def criarContainerIndicador (s : State) : State :=
  { s with containerIndicador := true, floatingBtn := true }

/-- Function `removerIndicadorNovasMensagens` (lines 389-398): removes the badge element and clears the flag. -/
def removerIndicadorNovasMensagens (s : State) : State :=
  { s with indicador := false, indicadorNovasMensagens := false }

/-- Function `mostrarIndicadorNovasMensagens` of the static variant (lines 347-386): the old
badge is removed; without container one is created and the function returns; otherwise a
new badge is appended and the flag set. The function does not look at `modalAberto`. -/
def mostrarIndicadorNovasMensagens (s : State) : State :=
  let s1 := removerIndicadorNovasMensagens s
  if s1.containerIndicador then
    { s1 with indicador := true, indicadorNovasMensagens := true }
  else
    criarContainerIndicador s1

/-- Function `salvarEstadoVisualizacao` (lines 435-446): writes the key `ultimaVisualizacao`. -/
def salvarEstadoVisualizacao (s : State) : State :=
  let estado : EstadoVisualizacao :=
    { ultimaMensagemId := s.ultimaMensagemVisualizadaId,
      timestamp := s.agora,
      chamadoId := s.chamadoAtual.map Chamado.chamado_id }
  { s with localStorage := { s.localStorage with ultimaVisualizacao := some (Guardado.valor estado) } }

/-- Function `atualizarUltimaVisualizacao` (lines 448-464): the marker follows the last
`.message` child. -/
def atualizarUltimaVisualizacao (s : State) : State :=
  match s.chatMessages, s.chamadoAtual with
  | some filhos, some _ =>
    match filhos.getLast? with
    | some ultima =>
      let novoId := ultima.dataMessageId
      if verdadeiro novoId && decide (novoId ≠ s.ultimaMensagemVisualizadaId) then
        salvarEstadoVisualizacao { s with ultimaMensagemVisualizadaId := novoId }
      else s
    | none => s
  | _, _ => s

/-- Function `adicionarMensagemDOM(mensagem, remetente, hora, messageId)` of the static
variant (lines 1073-1108). -/
def adicionarMensagemDOM (texto remetente hora : String) (messageId : Option String)
    (s : State) : State :=
  match s.chatMessages with
  | none => s
  | some filhos =>
    let nova := Bolha.mensagem (idOuLocal messageId s.agora) texto remetente hora
    { s with chatMessages := some (filhos ++ [nova]) }

/-- The loop `lista.forEach(msg => adicionarMensagemDOM(msg.mensagem, msg.remetente, msg.hora, msg.id))`. -/
def adicionarTodas (lista : List Mensagem) (s : State) : State :=
  lista.foldl (fun acc msg => adicionarMensagemDOM msg.mensagem msg.remetente msg.hora msg.id acc) s

/-- Function `pararAtualizacaoAutomatica` (lines 494-500). -/
def pararAtualizacaoAutomatica (s : State) : State :=
  match s.intervaloAtualizacao with
  | some h =>
    { s with intervalos := s.intervalos.filter (fun p => p.1 != h), intervaloAtualizacao := none }
  | none => s

/-- Function `iniciarAtualizacaoAutomatica` (lines 468-492): one 25 s interval plus a first
check after 2 s. -/
def iniciarAtualizacaoAutomatica (s : State) : State :=
  match s.chamadoAtual with
  | none => s
  | some _ =>
    let vivos := match s.intervaloAtualizacao with
      | some h => s.intervalos.filter (fun p => p.1 != h)
      | none => s.intervalos
    { s with
      intervalos := vivos ++ [(s.proximoHandle, TipoIntervalo.chat25s)],
      intervaloAtualizacao := some s.proximoHandle,
      proximoHandle := s.proximoHandle + 1,
      agendados := s.agendados ++ [(2000, Tarefa.verificarNovasMensagensInteligente)] }

/-- Function `removerChamadoDoStorage` of the static variant (lines 651-659): two keys. -/
def removerChamadoDoStorage (s : State) : State :=
  { s with localStorage := { s.localStorage with chamadoAtual := none, ultimaVisualizacao := none } }

/-- Function `desativarChat` of the static variant (lines 943-960): marks input and button with `chat-disabled`. -/
def desativarChat (s : State) : State :=
  { s with
    messageInput := s.messageInput.map (fun c =>
      { c with placeholder := "Chat encerrado - Chamado resolvido", chatDisabled := true }),
    sendBtnChatDisabled := s.sendBtnChatDisabled.map (fun _ => true),
    chatStatus := s.chatStatus.map (fun _ => "Finalizado") }

/-- Part of `verificarNovasMensagensInteligente` before the request (lines 503-519). -/
def verificarNovasMensagensInteligente_inicio (s : State) : State × Option Pedido :=
  match s.chamadoAtual with
  | none => (s, none)
  | some c =>
    let p := Pedido.verificarMensagensInteligente c.chamado_id
      (if verdadeiro s.ultimaMensagemVisualizadaId
       then s.ultimaMensagemVisualizadaId.getD "" else "")
    ({ s with pedidos := s.pedidos ++ [p] }, some p)

/-- What `verificarNovasMensagensInteligente` does with a body whose `success` is true
(lines 527-569). -/
def aplicarVerificacao (r : ResultadoVerificacao) (s : State) : State :=
  let haMensagensNaoVisualizadas :=
    decide (r.total_novas > 0) && decide (r.ultima_visualizada_id ≠ s.ultimaMensagemVisualizadaId)
  if haMensagensNaoVisualizadas then
    let s1 :=
      if !s.modalAberto then
        salvarEstadoVisualizacao { s with ultimaMensagemVisualizadaId := r.ultima_visualizada_id }
      else s
    let s2 :=
      if s1.modalAberto then atualizarUltimaVisualizacao (adicionarTodas r.novas_mensagens s1)
      else s1
    if !s2.modalAberto && haMensagensNaoVisualizadas then mostrarIndicadorNovasMensagens s2
    else s2
  else
    if verdadeiro r.ultima_visualizada_id
        && decide (r.ultima_visualizada_id ≠ s.ultimaMensagemVisualizadaId) then
      salvarEstadoVisualizacao { s with ultimaMensagemVisualizadaId := r.ultima_visualizada_id }
    else s

/-- Part of `verificarNovasMensagensInteligente` that runs on the outcome of the request
(lines 521-575). -/
def verificarNovasMensagensInteligente_resposta (f : Fetch ResultadoVerificacao)
    (s : State) : State :=
  match f with
  | .rejeitado => s
  | .resposta false _ => s
  | .resposta true none => s
  | .resposta true (some r) => if r.success then aplicarVerificacao r s else s

/-- The whole of `verificarNovasMensagensInteligente` when nothing else runs in between. -/
def verificarNovasMensagensInteligente (f : Fetch ResultadoVerificacao) (s : State) : State :=
  match verificarNovasMensagensInteligente_inicio s with
  | (s1, some _) => verificarNovasMensagensInteligente_resposta f s1
  | (s1, none) => s1

/-- Part of `carregarMensagensChamado(chamadoId)` before the request (lines 746-756). -/
def carregarMensagensChamado_inicio (chamadoId : String) (s : State) : State × Option Pedido :=
  if s.carregandoMensagens then (s, none)
  else
    ({ s with carregandoMensagens := true,
              pedidos := s.pedidos ++ [Pedido.carregarMensagens chamadoId] },
     some (Pedido.carregarMensagens chamadoId))

/-- The rendering loop of `carregarMensagensChamado` (lines 766-770). -/
def renderizarHistorico (lista : List Mensagem) (s : State) : State :=
  lista.foldl (fun acc msg =>
    adicionarMensagemDOM msg.mensagem msg.remetente msg.hora (some (idOuLocal msg.id acc.agora)) acc) s

/-- What `carregarMensagensChamado` does with the messages of a successful body
(lines 760-785): the transcript is replaced and an absent marker is initialised. -/
def aplicarHistorico_mensagens (r : ResultadoHistorico) (s : State) : State :=
  let s1 := { s with chatMessages := s.chatMessages.map (fun _ => []) }
  let s2 := renderizarHistorico r.mensagens s1
  match r.mensagens.getLast? with
  | some ultimaMsg =>
    let ultimaMsgId := idOuLocal ultimaMsg.id s2.agora
    let s2a :=
      if !verdadeiro s2.ultimaMensagemVisualizadaId then
        salvarEstadoVisualizacao { s2 with ultimaMensagemVisualizadaId := some ultimaMsgId }
      else s2
    { s2a with ultimaMensagemId := some ultimaMsgId }
  | none => s2

/-- The branch of `carregarMensagensChamado` for a resolved ticket (lines 787-792). -/
def aplicarHistorico_resolvido (s : State) : State :=
  pararAtualizacaoAutomatica (removerChamadoDoStorage (desativarChat s))

/-- What `carregarMensagensChamado` does with a body whose `success` is true
(lines 759-795). -/
def aplicarHistorico (r : ResultadoHistorico) (s : State) : State :=
  if statusResolvido r.status then aplicarHistorico_resolvido (aplicarHistorico_mensagens r s)
  else aplicarHistorico_mensagens r s

/-- Part of `carregarMensagensChamado` that runs on the outcome, the `finally` included
(lines 757-803). -/
def carregarMensagensChamado_resposta (f : Fetch ResultadoHistorico) (s : State) : State :=
  let s1 :=
    match f with
    | .rejeitado => s
    | .resposta _ none => s
    | .resposta _ (some r) => if r.success then aplicarHistorico r s else s
  { s1 with carregandoMensagens := false }

/-- Whether `enviarMensagemChat` returns before sending (lines 866-875): the input is
missing or carries the class `chat-disabled`. -/
def composicaoBloqueada (s : State) : Bool :=
  match s.messageInput with
  | some c => c.chatDisabled
  | none => true

/-- Function `salvarChamadoNoStorage` of the static variant (lines 642-649). -/
def salvarChamadoNoStorage (chamado : Chamado) (s : State) : State :=
  { s with localStorage := { s.localStorage with chamadoAtual := some (Guardado.valor chamado) } }

/-- Part of `enviarChamado` before the request (lines 663-696); `url` is the `data-url`
attribute of the form, `none` when the button, the form or the attribute is missing. -/
def enviarChamado_inicio (url : Option String) (s : State) : State × Option Pedido :=
  if verdadeiro url then
    ({ s with pedidos := s.pedidos ++ [Pedido.criarChamado] }, some Pedido.criarChamado)
  else (s, none)

/-- The success branch of `enviarChamado` up to the history load (lines 700-719): the new
ticket is adopted and stored, the marker reset and stored, the transcript emptied. -/
def enviarChamado_sucesso (result : Chamado) (s : State) : State :=
  let s1 := salvarChamadoNoStorage result { s with chamadoAtual := some result }
  let s2 := salvarEstadoVisualizacao { s1 with ultimaMensagemVisualizadaId := none }
  { s2 with chatMessages := s2.chatMessages.map (fun _ => []) }

/-- Part of `enviarChamado` on the outcome, up to the request of the history load
(lines 698-721 and 730-741). -/
def enviarChamado_resposta (f : Fetch ResultadoCriacao) (s : State) : State × Option Pedido :=
  match f with
  | .rejeitado => (s, none)
  | .resposta _ none => (s, none)
  | .resposta _ (some result) =>
    if result.success then
      carregarMensagensChamado_inicio result.chamado.chamado_id
        (enviarChamado_sucesso result.chamado s)
    else (s, none)

/-- Rest of the success branch of `enviarChamado` once the history load has returned
(lines 722-729); without modal instance `chatModalInstance.show()` throws. -/
def enviarChamado_continuacao (s : State) : State :=
  if s.chatModalInstance then
    let s1 := iniciarAtualizacaoAutomatica s
    { s1 with agendados := s1.agendados ++ [(1000, Tarefa.iniciarSequenciaBot)] }
  else s

/-- Part of `enviarMensagemChat` before the request (lines 865-904): the text is rendered
at once under the id `temp_user_${Date.now()}`; `horaAtual` is the local time text. -/
def enviarMensagemChat_inicio (horaAtual : String) (s : State) : State × Option Pedido :=
  match s.messageInput with
  | none => (s, none)
  | some campo =>
    if campo.chatDisabled then (s, none)
    else if trim campo.value == "" then (s, none)
    else
      match s.chamadoAtual with
      | none => (s, none)
      | some c =>
        let s1 := adicionarMensagemDOM (trim campo.value) "usuario" horaAtual
          (some ("temp_user_" ++ toString s.agora)) s
        let p := Pedido.enviarMensagem c.chamado_id (trim campo.value)
        ({ s1 with messageInput := some { campo with value := "" },
                   pedidos := s1.pedidos ++ [p] }, some p)

/-- The block of `enviarMensagemChat` for a confirmed resolution (lines 911-916). -/
def enviarMensagemChat_resolucao (result : ResultadoEnvio) (s : State) : State :=
  if result.intencao_detectada == some "resolucao_confirmada"
      || includes result.resposta.data "RESOLVIDO".data then
    pararAtualizacaoAutomatica (removerChamadoDoStorage (desativarChat s))
  else s

/-- Part of `enviarMensagemChat` on the outcome (lines 906-940): on success the reply is
rendered under `result.message_id || bot_${Date.now()}` and the marker follows the last
bubble; a rejected request or an unreadable body ends in the `catch`, which renders an
apology under `error_${Date.now()}`. -/
def enviarMensagemChat_resposta (hora : String) (f : Fetch ResultadoEnvio) (s : State) : State :=
  match f with
  | .resposta _ (some result) =>
    if result.success then
      let s1 := enviarMensagemChat_resolucao result s
      let messageId :=
        if verdadeiro result.message_id then result.message_id
        else some ("bot_" ++ toString s1.agora)
      let s2 := atualizarUltimaVisualizacao
        (adicionarMensagemDOM result.resposta "bot" hora messageId s1)
      { s2 with agendados := s2.agendados ++ [(1000, Tarefa.carregarMensagensChamado)] }
    else s
  | _ =>
    adicionarMensagemDOM "Desculpe, ocorreu um erro. Tente novamente." "bot" hora
      (some ("error_" ++ toString s.agora)) s

/-- The `hidden.bs.modal` listener of the static variant (lines 103-117). -/
def aoFecharModal (s : State) : State :=
  let s1 := atualizarUltimaVisualizacao { s with modalAberto := false }
  if s1.chamadoAtual.isSome then
    { s1 with agendados := s1.agendados ++ [(1000, Tarefa.verificarNovasMensagensInteligente)] }
  else s1

/-- The `scroll` listener of `#chatMessages` (lines 139-144); `pertoDoFim` is the test
`scrollHeight - scrollTop - clientHeight < 100`. -/
def aoRolar (pertoDoFim : Bool) (s : State) : State :=
  if pertoDoFim && s.modalAberto then atualizarUltimaVisualizacao s else s

/-- State of a freshly loaded script of the static variant (lines 11-19) on a given page
and storage. -/
def estadoInicial (ls : Armazenamento) (chatMessages : Option (List Bolha))
    (containerIndicador floatingBtn : Bool) (messageInput : Option CampoMensagem)
    (sendBtnChatDisabled : Option Bool) (chatStatus : Option String) (agora : Nat) : State :=
  { chamadoAtual := none, sequenciaAtiva := false, chatModalInstance := false,
    carregandoMensagens := false, ultimaMensagemId := none, intervaloAtualizacao := none,
    indicadorNovasMensagens := false, modalAberto := false,
    ultimaMensagemVisualizadaId := none, localStorage := ls, chatMessages := chatMessages,
    containerIndicador := containerIndicador, indicador := false, floatingBtn := floatingBtn,
    messageInput := messageInput, sendBtnChatDisabled := sendBtnChatDisabled,
    chatStatus := chatStatus, agora := agora, intervalos := [], proximoHandle := 1,
    agendados := [], pedidos := [] }

/-- The two `removeItem` calls with which `carregarChamadoSalvo` forgets the stored ticket
(lines 592-593, 626-627 and 637-638). -/
def esquecerChamadoGuardado (s : State) : State :=
  { s with localStorage := { s.localStorage with chamadoAtual := none, ultimaVisualizacao := none } }

/-- Part of `carregarChamadoSalvo` of the static variant before the request
(lines 580-587): without stored ticket the marker record is removed; an unparsable stored
ticket, or the stored text `null`, ends in the `catch`. -/
def carregarChamadoSalvo_inicio (s : State) : State × Option Pedido :=
  match s.localStorage.chamadoAtual with
  | none =>
    ({ s with localStorage := { s.localStorage with ultimaVisualizacao := none } }, none)
  | some .invalido => (esquecerChamadoGuardado s, none)
  | some .nulo => (esquecerChamadoGuardado s, none)
  | some (.valor chamadoData) =>
    ({ s with pedidos := s.pedidos ++ [Pedido.carregarMensagens chamadoData.chamado_id] },
     some (Pedido.carregarMensagens chamadoData.chamado_id))

/-- The block of `carregarChamadoSalvo` for a ticket the server accepts (lines 596-610):
the ticket becomes `chamadoAtual` and the stored marker is kept only when it was recorded
against this ticket; `none` when reading the record throws. -/
def carregarChamadoSalvo_visualizacao (chamadoData : Chamado) (s : State) : Option State :=
  match s.localStorage.ultimaVisualizacao with
  | none => some { s with chamadoAtual := some chamadoData }
  | some .invalido => none
  | some .nulo => none
  | some (.valor estado) =>
    if estado.chamadoId = some chamadoData.chamado_id then
      some { s with chamadoAtual := some chamadoData,
                    ultimaMensagemVisualizadaId := estado.ultimaMensagemId }
    else
      some { s with chamadoAtual := some chamadoData, ultimaMensagemVisualizadaId := none }

/-- Part of `carregarChamadoSalvo` on the outcome of its request, up to the request of
the history load (lines 588-620 and 625-639); when `carregarMensagensChamado` returns at
once the update interval is started right away. -/
def carregarChamadoSalvo_resposta (chamadoData : Chamado) (f : Fetch ResultadoHistorico)
    (s : State) : State × Option Pedido :=
  match f with
  | .rejeitado => (esquecerChamadoGuardado s, none)
  | .resposta _ none => (esquecerChamadoGuardado s, none)
  | .resposta _ (some result) =>
    if result.success then
      if statusResolvido result.status then (esquecerChamadoGuardado s, none)
      else
        match carregarChamadoSalvo_visualizacao chamadoData s with
        | none => (esquecerChamadoGuardado { s with chamadoAtual := some chamadoData }, none)
        | some s1 =>
          match (carregarMensagensChamado_inicio chamadoData.chamado_id s1).2 with
          | some p => ((carregarMensagensChamado_inicio chamadoData.chamado_id s1).1, some p)
          | none =>
            (iniciarAtualizacaoAutomatica
              (carregarMensagensChamado_inicio chamadoData.chamado_id s1).1, none)
    else (esquecerChamadoGuardado s, none)

/-- Rest of `carregarChamadoSalvo` once the history load has returned (lines 622-623). -/
def carregarChamadoSalvo_continuacao (s : State) : State :=
  iniciarAtualizacaoAutomatica s

/-- The calls of the static variant that start and stop its interval. -/
inductive OperacaoTemporizador where
  | iniciarAtualizacaoAutomatica : OperacaoTemporizador
  | pararAtualizacaoAutomatica : OperacaoTemporizador
  deriving DecidableEq, Repr

/-- Effect of one start or stop call. -/
def executarTemporizador (op : OperacaoTemporizador) (s : State) : State :=
  match op with
  | .iniciarAtualizacaoAutomatica => iniciarAtualizacaoAutomatica s
  | .pararAtualizacaoAutomatica => pararAtualizacaoAutomatica s

/-- Effect of a sequence of start and stop calls, first to last. -/
def executarTemporizadores (ops : List OperacaoTemporizador) (s : State) : State :=
  ops.foldl (fun acc op => executarTemporizador op acc) s

/-- The cap `maxMensagensBot` of the static variant (line 831). -/
def maxMensagensBot : Nat := 8

/-- Part of `iniciarSequenciaBot` before the first request (lines 806-816). -/
def iniciarSequenciaBot_inicio (s : State) : State × Option Pedido :=
  match s.chamadoAtual with
  | none => (s, none)
  | some c =>
    if s.sequenciaAtiva then (s, none)
    else
      ({ s with sequenciaAtiva := true,
                pedidos := s.pedidos ++ [Pedido.carregarMensagens c.chamado_id] },
       some (Pedido.carregarMensagens c.chamado_id))

/-- What `iniciarSequenciaBot` does with the outcome of its history request
(lines 817-837): `some k` when the loop is entered with `mensagensExistentes = k`;
otherwise the call has ended, the `finally` included. -/
def iniciarSequenciaBot_historico (f : Fetch ResultadoHistorico) (s : State) :
    State × Option Nat :=
  match f with
  | .rejeitado => ({ s with sequenciaAtiva := false }, none)
  | .resposta _ none => ({ s with sequenciaAtiva := false }, none)
  | .resposta _ (some result) =>
    if result.success then
      if statusResolvido result.status then
        ({ desativarChat s with sequenciaAtiva := false }, none)
      else if mensagensBotExistentes result ≥ maxMensagensBot then
        ({ s with sequenciaAtiva := false }, none)
      else (s, some (mensagensBotExistentes result))
    else ({ s with sequenciaAtiva := false }, none)

/-- One turn of the loop up to its request (lines 840-845); without ticket, reading
`chamadoAtual.chamado_id` throws and the call ends. -/
def turnoSequencia_inicio (s : State) : State × Option Pedido :=
  match s.chamadoAtual with
  | none => ({ s with sequenciaAtiva := false }, none)
  | some c =>
    ({ s with pedidos := s.pedidos ++ [Pedido.proximaMensagem c.chamado_id] },
     some (Pedido.proximaMensagem c.chamado_id))

/-- Rest of a turn (lines 846-854): on `success && !completo` the history is loaded anew
(`historico` is the outcome of that request, when one is issued) and the loop goes on
(`true`); otherwise the loop is left and the call ends (`false`). -/
def turnoSequencia_resposta (proxima : Fetch ResultadoProxima)
    (historico : Fetch ResultadoHistorico) (s : State) : State × Bool :=
  match proxima with
  | .rejeitado => ({ s with sequenciaAtiva := false }, false)
  | .resposta _ none => ({ s with sequenciaAtiva := false }, false)
  | .resposta _ (some proximaResult) =>
    if proximaResult.success && !proximaResult.completo then
      match s.chamadoAtual with
      | none => ({ s with sequenciaAtiva := false }, false)
      | some c =>
        match (carregarMensagensChamado_inicio c.chamado_id s).2 with
        | some _ =>
          (carregarMensagensChamado_resposta historico
            (carregarMensagensChamado_inicio c.chamado_id s).1, true)
        | none => ((carregarMensagensChamado_inicio c.chamado_id s).1, true)
    else ({ s with sequenciaAtiva := false }, false)

/-- The loop of `iniciarSequenciaBot` over the remaining values of `i` (lines 839-855)
followed by the `finally` (lines 859-862), when nothing else runs in between. -/
def lacoSequencia (respostas : Nat → Fetch ResultadoProxima × Fetch ResultadoHistorico) :
    List Nat → State → State
  | [], s => { s with sequenciaAtiva := false }
  | i :: resto, s =>
    match (turnoSequencia_inicio s).2 with
    | none => (turnoSequencia_inicio s).1
    | some _ =>
      if (turnoSequencia_resposta (respostas i).1 (respostas i).2 (turnoSequencia_inicio s).1).2
      then lacoSequencia respostas resto
        (turnoSequencia_resposta (respostas i).1 (respostas i).2 (turnoSequencia_inicio s).1).1
      else (turnoSequencia_resposta (respostas i).1 (respostas i).2 (turnoSequencia_inicio s).1).1

/-- The whole of `iniciarSequenciaBot` (lines 806-863) when nothing else runs in between:
`historico` answers the first request, `respostas i` the two requests of turn `i`. -/
def iniciarSequenciaBot (historico : Fetch ResultadoHistorico)
    (respostas : Nat → Fetch ResultadoProxima × Fetch ResultadoHistorico) (s : State) : State :=
  match (iniciarSequenciaBot_inicio s).2 with
  | none => (iniciarSequenciaBot_inicio s).1
  | some _ =>
    match (iniciarSequenciaBot_historico historico (iniciarSequenciaBot_inicio s).1).2 with
    | none => (iniciarSequenciaBot_historico historico (iniciarSequenciaBot_inicio s).1).1
    | some k =>
      lacoSequencia respostas (List.range' k (maxMensagensBot - k))
        (iniciarSequenciaBot_historico historico (iniciarSequenciaBot_inicio s).1).1

end Static

/-! ## The variant `src/helpbot/static/js/chat-bot.js` -/

namespace Helpbot

/-- The badge `#novasMensagensIndicador`: `visivel` is the inline style set by
`mostrarIndicadorNovasMensagens` (display block, visibility visible, opacity 1) as opposed to
`display: none`; `pulso` is the class `pulse-animation`. How a badge without inline style
is rendered depends on the page, so the initial value is a parameter of `estadoInicial`. -/
structure Indicador where
  visivel : Bool
  pulso : Bool
  deriving DecidableEq, Repr

/-- The element `#messageInput`. -/
structure CampoMensagem where
  value : String
  placeholder : String
  disabled : Bool
  deriving DecidableEq, Repr

/-- The element `#sendBtn`. -/
structure BotaoEnviar where
  innerHTML : String
  disabled : Bool
  deriving DecidableEq, Repr

/-- Module variables, storage, DOM and environment of the helpbot variant. -/
structure State where
  chamadoAtual : Option Chamado
  sequenciaAtiva : Bool
  chatModalInstance : Bool
  carregandoMensagens : Bool
  ultimaMensagemId : Option String
  intervaloAtualizacao : Option Nat
  intervaloVerificacaoAutomatica : Option Nat
  indicadorNovasMensagens : Bool
  modalAberto : Bool
  ultimaMensagemVisualizadaId : Option String
  sistemaInicializado : Bool
  tipoUsuario : Option String
  localStorage : Armazenamento
  indicador : Option Indicador
  chatMessages : Option (List Bolha)
  messageInput : Option CampoMensagem
  sendBtn : Option BotaoEnviar
  chatModalEl : Bool
  agora : Nat
  intervalos : List (Nat × TipoIntervalo)
  proximoHandle : Nat
  agendados : List (Nat × Tarefa)
  pedidos : List Pedido
  deriving DecidableEq, Repr

/-- State of a freshly loaded script (lines 17-28) on a given page and storage. -/
def estadoInicial (ls : Armazenamento) (indicador : Option Indicador)
    (chatMessages : Option (List Bolha)) (messageInput : Option CampoMensagem)
    (sendBtn : Option BotaoEnviar) (chatModalEl : Bool) (agora : Nat) : State :=
  { chamadoAtual := none, sequenciaAtiva := false, chatModalInstance := false,
    carregandoMensagens := false, ultimaMensagemId := none, intervaloAtualizacao := none,
    intervaloVerificacaoAutomatica := none, indicadorNovasMensagens := false,
    modalAberto := false, ultimaMensagemVisualizadaId := none, sistemaInicializado := false,
    tipoUsuario := none, localStorage := ls, indicador := indicador,
    chatMessages := chatMessages, messageInput := messageInput, sendBtn := sendBtn,
    chatModalEl := chatModalEl, agora := agora, intervalos := [], proximoHandle := 1,
    agendados := [], pedidos := [] }

/-- Whether the badge is on screen. -/
def indicadorVisivel (s : State) : Bool :=
  match s.indicador with
  | some i => i.visivel
  | none => false

/-- The call `setTimeout(tarefa, ms)`. -/
def setTimeout (ms : Nat) (tarefa : Tarefa) (s : State) : State :=
  { s with agendados := s.agendados ++ [(ms, tarefa)] }

/-- The call `fetch(url)`: the request is recorded. -/
def fetch (p : Pedido) (s : State) : State :=
  { s with pedidos := s.pedidos ++ [p] }

/-- The call `setInterval(f, periodo)`: a fresh handle is registered. -/
def setInterval (tipo : TipoIntervalo) (s : State) : State × Nat :=
  ({ s with intervalos := s.intervalos ++ [(s.proximoHandle, tipo)],
            proximoHandle := s.proximoHandle + 1 }, s.proximoHandle)

/-- The call `clearInterval(h)`. -/
def clearInterval (h : Nat) (s : State) : State :=
  { s with intervalos := s.intervalos.filter (fun p => p.1 != h) }

/-- Function `mostrarIndicadorNovasMensagens` (lines 31-54). -/
def mostrarIndicadorNovasMensagens (s : State) : State :=
  match s.indicador with
  | some _ =>
    if !s.modalAberto then
      { s with indicador := some { visivel := true, pulso := true },
               indicadorNovasMensagens := true }
    else s
  | none => s

/-- Function `mostrarIndicadorDigitacao` (lines 57-79). -/
def mostrarIndicadorDigitacao (s : State) : State :=
  match s.chatMessages with
  | some filhos => { s with chatMessages := some (filhos ++ [Bolha.digitando]) }
  | none => s

/-- Function `removerIndicadorDigitacao` (lines 82-87): removes the first `#typingIndicator`. -/
def removerIndicadorDigitacao (s : State) : State :=
  match s.chatMessages with
  | some filhos => { s with chatMessages := some (filhos.erase Bolha.digitando) }
  | none => s

/-- The block `if (indicador && indicador.style.display !== "none")` that hides the
badge on the resolved paths (lines 640-645, 903-908, 1069-1074). -/
def ocultarIndicadorResolvido (s : State) : State :=
  match s.indicador with
  | some i => if i.visivel then { s with indicador := some { visivel := false, pulso := false } } else s
  | none => s

/-- Function `pararVerificacoesAutomaticas` (lines 143-149). -/
def pararVerificacoesAutomaticas (s : State) : State :=
  match s.intervaloVerificacaoAutomatica with
  | some h => { clearInterval h s with intervaloVerificacaoAutomatica := none }
  | none => s

/-- Function `iniciarVerificacoesAutomaticas` (lines 126-140). -/
def iniciarVerificacoesAutomaticas (s : State) : State :=
  let r := setInterval TipoIntervalo.segundoPlano (pararVerificacoesAutomaticas s)
  { r.1 with intervaloVerificacaoAutomatica := some r.2 }

/-- Function `pararAtualizacaoAutomatica` (lines 359-365). -/
def pararAtualizacaoAutomatica (s : State) : State :=
  match s.intervaloAtualizacao with
  | some h => { clearInterval h s with intervaloAtualizacao := none }
  | none => s

/-- Function `iniciarAtualizacaoAutomatica` (lines 342-356). -/
def iniciarAtualizacaoAutomatica (s : State) : State :=
  let r := setInterval TipoIntervalo.refreshDados (pararAtualizacaoAutomatica s)
  { r.1 with intervaloAtualizacao := some r.2 }

/-- Function `resetarEstadoSistema` (lines 276-292); the badge is left as it is. -/
def resetarEstadoSistema (s : State) : State :=
  pararVerificacoesAutomaticas (pararAtualizacaoAutomatica
    { s with chamadoAtual := none, ultimaMensagemVisualizadaId := none,
             indicadorNovasMensagens := false, tipoUsuario := none,
             localStorage := Armazenamento.vazio })

/-- Function `salvarEstadoSistema` (lines 295-323). -/
def salvarEstadoSistema (s : State) : State :=
  let estado : EstadoVisualizacao :=
    { ultimaMensagemId := s.ultimaMensagemVisualizadaId,
      timestamp := s.agora,
      chamadoId := s.chamadoAtual.map Chamado.chamado_id }
  let ls : Armazenamento :=
    { chamadoAtual :=
        match s.chamadoAtual with
        | some c => some (Guardado.valor c)
        | none => s.localStorage.chamadoAtual,
      ultimaVisualizacao := some (Guardado.valor estado),
      indicadorNovasMensagens := some (if s.indicadorNovasMensagens then "true" else "false"),
      tipoUsuario := if verdadeiro s.tipoUsuario then s.tipoUsuario else s.localStorage.tipoUsuario }
  { s with localStorage := ls }

/-- First block of the `try` in `carregarEstadoAtual` (lines 235-239): the stored ticket;
`none` when `JSON.parse` throws. -/
def carregarEstadoAtual_chamado (s : State) : Option State :=
  match s.localStorage.chamadoAtual with
  | none => some s
  | some .invalido => none
  | some .nulo => some { s with chamadoAtual := none }
  | some (.valor c) => some { s with chamadoAtual := some c }

/-- Second block of the `try` (lines 242-247): the stored marker; `none` when `JSON.parse`
throws or the parsed value is `null` (reading `estado.ultimaMensagemId` throws). -/
def carregarEstadoAtual_visualizacao (s : State) : Option State :=
  match s.localStorage.ultimaVisualizacao with
  | none => some s
  | some .invalido => none
  | some .nulo => none
  | some (.valor e) => some { s with ultimaMensagemVisualizadaId := e.ultimaMensagemId }

/-- Rest of the `try` (lines 250-267): unread flag, user type, and the delayed badge. -/
def carregarEstadoAtual_indicador (s : State) : State :=
  let s3 := { s with indicadorNovasMensagens :=
                decide (s.localStorage.indicadorNovasMensagens = some "true") }
  let s4 := if verdadeiro s3.localStorage.tipoUsuario
            then { s3 with tipoUsuario := s3.localStorage.tipoUsuario } else s3
  if s4.indicadorNovasMensagens && !s4.modalAberto then
    setTimeout 500 Tarefa.mostrarIndicadorNovasMensagens s4
  else s4

/-- Function `carregarEstadoAtual` (lines 230-273): the `catch` runs `resetarEstadoSistema` on the
state reached when the exception was thrown. -/
def carregarEstadoAtual (s : State) : State :=
  match carregarEstadoAtual_chamado s with
  | none => resetarEstadoSistema s
  | some s1 =>
    match carregarEstadoAtual_visualizacao s1 with
    | none => resetarEstadoSistema s1
    | some s2 => carregarEstadoAtual_indicador s2

/-- Function `atualizarUltimaVisualizacao` (lines 368-386). -/
def atualizarUltimaVisualizacao (s : State) : State :=
  match s.chamadoAtual, s.chatMessages with
  | some _, some filhos =>
    match ultimoIdRenderizado filhos with
    | some messageId =>
      if verdadeiro (some messageId)
          && decide (some messageId ≠ s.ultimaMensagemVisualizadaId) then
        salvarEstadoSistema { s with ultimaMensagemVisualizadaId := some messageId }
      else s
    | none => s
  | _, _ => s

/-- Function `reiniciarSistemaAtualizacao` (lines 207-227). -/
def reiniciarSistemaAtualizacao (s : State) : State :=
  let s1 := carregarEstadoAtual (pararVerificacoesAutomaticas (pararAtualizacaoAutomatica s))
  if s1.chamadoAtual.isSome then
    setTimeout 1000 Tarefa.verificarNovasMensagensInteligente
      (iniciarVerificacoesAutomaticas (iniciarAtualizacaoAutomatica s1))
  else s1

/-- Function `desativarChat` (lines 1153-1170). -/
def desativarChat (s : State) : State :=
  pararVerificacoesAutomaticas (pararAtualizacaoAutomatica
    { s with
      messageInput := s.messageInput.map (fun c =>
        { c with disabled := true, placeholder := "Chat finalizado - chamado resolvido" }),
      sendBtn := s.sendBtn.map (fun _ =>
        { innerHTML := "bi-check-circle", disabled := true }) })

/-- Function `removerChamadoDoStorage` (lines 762-772): the four keys. -/
def removerChamadoDoStorage (s : State) : State :=
  { s with localStorage := Armazenamento.vazio }

/-- Function `adicionarMensagemDOM(mensagem, remetente, hora, messageId)` (lines 1093-1123);
`setAttribute` stores the text of `messageId`. -/
def adicionarMensagemDOM (texto remetente hora : String) (messageId : Option String)
    (s : State) : State :=
  match s.chatMessages with
  | none => s
  | some filhos =>
    let nova := Bolha.mensagem (messageId.getD "undefined") texto remetente hora
    { s with chatMessages := some (filhos ++ [nova]) }

/-- The loop `result.novas_mensagens.forEach(...)` (lines 667-669). -/
def adicionarTodas (lista : List Mensagem) (s : State) : State :=
  lista.foldl (fun acc msg => adicionarMensagemDOM msg.mensagem msg.remetente msg.hora msg.id acc) s

/-- Part of `verificarNotificacoesAutomaticas` before the request (lines 90-102). -/
def verificarNotificacoesAutomaticas_inicio (s : State) : State × Option Pedido :=
  match s.chamadoAtual with
  | none => (s, none)
  | some _ => (fetch Pedido.verificarNotificacoes s, some Pedido.verificarNotificacoes)

/-- Part of `verificarNotificacoesAutomaticas` on the outcome (lines 104-122). -/
def verificarNotificacoesAutomaticas_resposta (f : Fetch ResultadoNotificacoes)
    (s : State) : State :=
  match f with
  | .resposta true (some r) =>
    if r.success then
      if decide (r.total_nao_lidas > 0) && !s.modalAberto then mostrarIndicadorNovasMensagens s
      else s
    else s
  | _ => s

/-- Part of `verificarNovasMensagensInteligente` before the request (lines 609-626). -/
def verificarNovasMensagensInteligente_inicio (s : State) : State × Option Pedido :=
  let s1 := carregarEstadoAtual s
  match s1.chamadoAtual with
  | none => (s1, none)
  | some c =>
    let p := Pedido.verificarMensagensInteligente c.chamado_id
      (if verdadeiro s1.ultimaMensagemVisualizadaId
       then s1.ultimaMensagemVisualizadaId.getD "" else "")
    (fetch p s1, some p)

/-- The branch for a resolved ticket (lines 637-649): the badge is hidden, the chat
disabled and the system reset. -/
def aplicarVerificacao_resolvido (s : State) : State :=
  resetarEstadoSistema (desativarChat (ocultarIndicadorResolvido s))

/-- The block `if (!modalAberto)` for new messages (lines 656-664). -/
def aplicarVerificacao_fechado (r : ResultadoVerificacao) (s : State) : State :=
  mostrarIndicadorNovasMensagens (salvarEstadoSistema
    { s with ultimaMensagemVisualizadaId := r.ultima_visualizada_id,
             indicadorNovasMensagens := true })

/-- The block `if (modalAberto)` for new messages (lines 666-672). -/
def aplicarVerificacao_aberto (r : ResultadoVerificacao) (s : State) : State :=
  atualizarUltimaVisualizacao (adicionarTodas r.novas_mensagens s)

/-- The branch for new messages (lines 653-672): first the block for a closed modal,
then the block for an open one. -/
def aplicarVerificacao_novas (r : ResultadoVerificacao) (s : State) : State :=
  let s1 := if !s.modalAberto then aplicarVerificacao_fechado r s else s
  if s1.modalAberto then aplicarVerificacao_aberto r s1 else s1

/-- The branch without new messages (lines 673-681). -/
def aplicarVerificacao_semNovas (r : ResultadoVerificacao) (s : State) : State :=
  if verdadeiro r.ultima_visualizada_id
      && decide (r.ultima_visualizada_id ≠ s.ultimaMensagemVisualizadaId) then
    salvarEstadoSistema { s with ultimaMensagemVisualizadaId := r.ultima_visualizada_id }
  else s

/-- What `verificarNovasMensagensInteligente` does with a body whose `success` is true
(lines 635-681). -/
def aplicarVerificacao (r : ResultadoVerificacao) (s : State) : State :=
  if r.chamado_status == "resolvido" then aplicarVerificacao_resolvido s
  else if r.total_novas > 0 then aplicarVerificacao_novas r s
  else aplicarVerificacao_semNovas r s

/-- Part of `verificarNovasMensagensInteligente` on the outcome (lines 628-687): a
rejected request, a non-OK status and an unreadable body end in the `catch`. -/
def verificarNovasMensagensInteligente_resposta (f : Fetch ResultadoVerificacao)
    (s : State) : State :=
  match f with
  | .rejeitado => s
  | .resposta false _ => s
  | .resposta true none => s
  | .resposta true (some r) => if r.success then aplicarVerificacao r s else s

/-- A `storage` event: the key another tab changed and the new value (`none` when the
key was removed). -/
inductive EventoStorage where
  | chamadoAtual (novo : Option (Guardado Chamado)) : EventoStorage
  | ultimaVisualizacao (novo : Option (Guardado EstadoVisualizacao)) : EventoStorage
  | indicadorNovasMensagens (novo : Option String) : EventoStorage
  | tipoUsuario (novo : Option String) : EventoStorage
  deriving DecidableEq, Repr

/-- The write of another tab that the event reports. -/
def outraAbaEscreve (e : EventoStorage) (s : State) : State :=
  match e with
  | .chamadoAtual v => { s with localStorage := { s.localStorage with chamadoAtual := v } }
  | .ultimaVisualizacao v => { s with localStorage := { s.localStorage with ultimaVisualizacao := v } }
  | .indicadorNovasMensagens v =>
    { s with localStorage := { s.localStorage with indicadorNovasMensagens := v } }
  | .tipoUsuario v => { s with localStorage := { s.localStorage with tipoUsuario := v } }

/-- The listener installed by `inicializarSincronizacaoEntreAbas` (lines 156-203). -/
def aoEventoStorage (e : EventoStorage) (s : State) : State :=
  match e with
  | .chamadoAtual (some (.valor novoChamado)) =>
    if some novoChamado.chamado_id ≠ s.chamadoAtual.map Chamado.chamado_id then
      reiniciarSistemaAtualizacao { s with chamadoAtual := some novoChamado }
    else s
  | .chamadoAtual _ => s
  | .ultimaVisualizacao (some (.valor novoEstado)) =>
    if novoEstado.ultimaMensagemId ≠ s.ultimaMensagemVisualizadaId then
      { s with ultimaMensagemVisualizadaId := novoEstado.ultimaMensagemId }
    else s
  | .ultimaVisualizacao _ => s
  | .indicadorNovasMensagens v =>
    if decide (v = some "true") && !s.indicadorNovasMensagens && !s.modalAberto then
      mostrarIndicadorNovasMensagens s
    else s
  | .tipoUsuario v => if verdadeiro v then { s with tipoUsuario := v } else s

/-- The `DOMContentLoaded` handler (lines 411-606); `new bootstrap.Modal` is taken to
succeed when `#chatModal` exists. -/
def aoCarregarPagina (s : State) : State :=
  if s.sistemaInicializado then s
  else
    let s1 := carregarEstadoAtual { s with sistemaInicializado := true }
    if s1.chatModalEl then
      (setInterval TipoIntervalo.verificacaoMensagens
        (setTimeout 100 Tarefa.carregarChamadoSalvo { s1 with chatModalInstance := true })).1
    else s1

/-- The block of the `shown.bs.modal` listener that removes the badge (lines 496-503):
inside `if (indicador)` the badge is hidden, the unread flag cleared and the state saved. -/
def aoAbrirModal_indicador (s : State) : State :=
  match s.indicador with
  | some _ =>
    salvarEstadoSistema
      { s with indicador := some { visivel := false, pulso := false },
               indicadorNovasMensagens := false }
  | none => s

/-- The three delayed calls that close the `shown.bs.modal` listener (lines 507-524). -/
def aoAbrirModal_agendar (s : State) : State :=
  let s4 := if s.chamadoAtual.isSome
            then setTimeout 1000 Tarefa.verificarNotificacoesAutomaticas s else s
  let s5 := if s4.chamadoAtual.isSome && !s4.sequenciaAtiva
            then setTimeout 1500 Tarefa.iniciarSequenciaBot s4 else s4
  if s5.chamadoAtual.isSome then setTimeout 500 Tarefa.carregarMensagensEVerificar s5 else s5

/-- The `shown.bs.modal` listener (lines 480-525). -/
def aoAbrirModal (s : State) : State :=
  aoAbrirModal_agendar (atualizarUltimaVisualizacao
    (aoAbrirModal_indicador (carregarEstadoAtual { s with modalAberto := true })))

/-- The `hidden.bs.modal` listener (lines 527-541). -/
def aoFecharModal (s : State) : State :=
  let s1 := salvarEstadoSistema (atualizarUltimaVisualizacao { s with modalAberto := false })
  if s1.chamadoAtual.isSome then setTimeout 1000 Tarefa.verificarNovasMensagensInteligente s1
  else s1

/-- The callback of the 30 s interval (lines 594-598), up to its request. -/
def tickVerificacaoMensagens (s : State) : State × Option Pedido :=
  if s.chamadoAtual.isSome && !s.modalAberto then verificarNovasMensagensInteligente_inicio s
  else (s, none)

/-- The callback of the 2 min interval (lines 132-137), up to its first request. -/
def tickSegundoPlano (s : State) : State × Option Pedido :=
  if s.chamadoAtual.isSome && !s.modalAberto then verificarNotificacoesAutomaticas_inicio s
  else (s, none)

/-- The rest of the 2 min callback once the notification request has an outcome:
`verificarNotificacoesAutomaticas` finishes and `verificarNovasMensagensInteligente` starts. -/
def tickSegundoPlano_continuacao (f : Fetch ResultadoNotificacoes) (s : State) :
    State × Option Pedido :=
  verificarNovasMensagensInteligente_inicio (verificarNotificacoesAutomaticas_resposta f s)

/-- The callback of the 5 min interval (lines 349-353): it only logs. -/
def tickRefreshDados (s : State) : State × Option Pedido :=
  (s, none)

/-- Part of `carregarMensagensChamado(chamadoId)` before the request (lines 862-872). -/
def carregarMensagensChamado_inicio (chamadoId : String) (s : State) : State × Option Pedido :=
  if s.carregandoMensagens then (s, none)
  else
    (fetch (Pedido.carregarMensagens chamadoId) { s with carregandoMensagens := true },
     some (Pedido.carregarMensagens chamadoId))

/-- The rendering loop of `carregarMensagensChamado` (lines 881-884). -/
def renderizarHistorico (lista : List Mensagem) (s : State) : State :=
  lista.foldl (fun acc msg =>
    adicionarMensagemDOM msg.mensagem msg.remetente msg.hora (some (idOuLocal msg.id acc.agora)) acc) s

/-- What `carregarMensagensChamado` does with the messages of a successful body
(lines 876-897): the transcript is replaced and an absent marker is initialised. -/
def aplicarHistorico_mensagens (r : ResultadoHistorico) (s : State) : State :=
  let s1 := { s with chatMessages := s.chatMessages.map (fun _ => []) }
  let s2 := renderizarHistorico r.mensagens s1
  match r.mensagens.getLast? with
  | some ultimaMsg =>
    let ultimaMsgId := idOuLocal ultimaMsg.id s2.agora
    let s2a :=
      if !verdadeiro s2.ultimaMensagemVisualizadaId then
        salvarEstadoSistema { s2 with ultimaMensagemVisualizadaId := some ultimaMsgId }
      else s2
    { s2a with ultimaMensagemId := some ultimaMsgId }
  | none => s2

/-- The branch of `carregarMensagensChamado` for a resolved ticket (lines 899-927). -/
def aplicarHistorico_resolvido (s : State) : State :=
  let s4 := pararVerificacoesAutomaticas (pararAtualizacaoAutomatica
    (removerChamadoDoStorage (ocultarIndicadorResolvido (desativarChat s))))
  match s4.chatMessages with
  | some filhos => { s4 with chatMessages := some (filhos ++ [Bolha.finalizacao]) }
  | none => s4

/-- What `carregarMensagensChamado` does with a body whose `success` is true
(lines 875-930). -/
def aplicarHistorico (r : ResultadoHistorico) (s : State) : State :=
  if statusResolvido r.status then aplicarHistorico_resolvido (aplicarHistorico_mensagens r s)
  else aplicarHistorico_mensagens r s

/-- Part of `carregarMensagensChamado` on the outcome, the `finally` included
(lines 873-938). -/
def carregarMensagensChamado_resposta (f : Fetch ResultadoHistorico) (s : State) : State :=
  let s1 :=
    match f with
    | .rejeitado => s
    | .resposta _ none => s
    | .resposta _ (some r) => if r.success then aplicarHistorico r s else s
  { s1 with carregandoMensagens := false }

/-- Part of `carregarChamadoSalvo` before the request (lines 692-699): an unparsable
stored ticket, or the stored text `null`, ends in the `catch`, which resets the system. -/
def carregarChamadoSalvo_inicio (s : State) : State × Option Pedido :=
  match s.localStorage.chamadoAtual with
  | none => (s, none)
  | some .invalido => (resetarEstadoSistema s, none)
  | some .nulo => (resetarEstadoSistema s, none)
  | some (.valor chamadoData) =>
    (fetch (Pedido.carregarMensagens chamadoData.chamado_id) s,
     some (Pedido.carregarMensagens chamadoData.chamado_id))

/-- The block of `carregarChamadoSalvo` for a ticket the server accepts (lines 713-727):
the ticket read before the request becomes `chamadoAtual` and the stored marker is kept
only when it was recorded against this ticket; `none` when reading the record throws. -/
def carregarChamadoSalvo_visualizacao (chamadoData : Chamado) (s : State) : Option State :=
  match s.localStorage.ultimaVisualizacao with
  | none => some { s with chamadoAtual := some chamadoData }
  | some .invalido => none
  | some .nulo => none
  | some (.valor estado) =>
    if estado.chamadoId = some chamadoData.chamado_id then
      some { s with chamadoAtual := some chamadoData,
                    ultimaMensagemVisualizadaId := estado.ultimaMensagemId }
    else
      some (salvarEstadoSistema
        { s with chamadoAtual := some chamadoData, ultimaMensagemVisualizadaId := none })

/-- Part of `carregarChamadoSalvo` on the outcome (lines 701-750); `chamadoData` is the
ticket that was read from storage before the request. -/
def carregarChamadoSalvo_resposta (chamadoData : Chamado) (f : Fetch ResultadoHistorico)
    (s : State) : State :=
  match f with
  | .rejeitado => resetarEstadoSistema s
  | .resposta false _ => resetarEstadoSistema s
  | .resposta true none => resetarEstadoSistema s
  | .resposta true (some r) =>
    if r.success then
      if statusResolvido r.status then resetarEstadoSistema s
      else
        match carregarChamadoSalvo_visualizacao chamadoData s with
        | none => resetarEstadoSistema { s with chamadoAtual := some chamadoData }
        | some s1 => setTimeout 2000 Tarefa.verificarNovasMensagensInteligente s1
    else resetarEstadoSistema s

/-- The callback `carregarChamadoSalvo().then(...)` of the page handler (lines 446-460). -/
def aposCarregarChamadoSalvo (s : State) : State :=
  if s.chamadoAtual.isSome then
    setTimeout 2000 Tarefa.verificarNovasMensagensInteligente
      (iniciarVerificacoesAutomaticas (iniciarAtualizacaoAutomatica s))
  else s

/-- The delayed call of `carregarChamadoSalvo` by the page handler (lines 445-461), up to
its request; without request the `then` callback runs at once. -/
def tarefaCarregarChamadoSalvo (s : State) : State × Option Pedido :=
  match (carregarChamadoSalvo_inicio s).2 with
  | some p => ((carregarChamadoSalvo_inicio s).1, some p)
  | none => (aposCarregarChamadoSalvo (carregarChamadoSalvo_inicio s).1, none)

/-- The whole of `carregarChamadoSalvo` (lines 692-751) when nothing else runs in
between; `f` is the outcome of its request, when one is issued. -/
def carregarChamadoSalvo (f : Fetch ResultadoHistorico) (s : State) : State :=
  match s.localStorage.chamadoAtual with
  | some (.valor chamadoData) =>
    carregarChamadoSalvo_resposta chamadoData f (carregarChamadoSalvo_inicio s).1
  | _ => (carregarChamadoSalvo_inicio s).1

/-- Function `salvarChamadoNoStorage` (lines 753-760). -/
def salvarChamadoNoStorage (chamado : Chamado) (s : State) : State :=
  { s with localStorage := { s.localStorage with chamadoAtual := some (Guardado.valor chamado) } }

/-- Part of `enviarChamado` before the request (lines 776-807); `url` is the `data-url`
attribute of the form, `none` when the button, the form or the attribute is missing. -/
def enviarChamado_inicio (url : Option String) (s : State) : State × Option Pedido :=
  if verdadeiro url then (fetch Pedido.criarChamado s, some Pedido.criarChamado)
  else (s, none)

/-- The block of `enviarChamado` that stores the user type of the new ticket
(lines 819-823). -/
def enviarChamado_tipoUsuario (result : Chamado) (s : State) : State :=
  if verdadeiro result.tipo_usuario then
    { s with tipoUsuario := result.tipo_usuario,
             localStorage := { s.localStorage with tipoUsuario := result.tipo_usuario } }
  else s

/-- The success branch of `enviarChamado` up to the history load (lines 811-835): the new
ticket is adopted and stored, the marker reset, the state saved, the transcript emptied. -/
def enviarChamado_sucesso (result : Chamado) (s : State) : State :=
  let s1 := enviarChamado_tipoUsuario result
    (salvarChamadoNoStorage result { s with chamadoAtual := some result })
  let s2 := salvarEstadoSistema { s1 with ultimaMensagemVisualizadaId := none }
  { s2 with chatMessages := s2.chatMessages.map (fun _ => []) }

/-- Part of `enviarChamado` on the outcome, up to the request of the history load
(lines 809-837 and 846-857). -/
def enviarChamado_resposta (f : Fetch ResultadoCriacao) (s : State) : State × Option Pedido :=
  match f with
  | .rejeitado => (s, none)
  | .resposta _ none => (s, none)
  | .resposta _ (some result) =>
    if result.success then
      carregarMensagensChamado_inicio result.chamado.chamado_id
        (enviarChamado_sucesso result.chamado s)
    else (s, none)

/-- Rest of the success branch of `enviarChamado` once the history load has returned
(lines 838-845); without modal instance `chatModalInstance.show()` throws. -/
def enviarChamado_continuacao (s : State) : State :=
  if s.chatModalInstance then
    setTimeout 1500 Tarefa.iniciarSequenciaBot
      (iniciarVerificacoesAutomaticas (iniciarAtualizacaoAutomatica s))
  else s

/-- The cap `maxMensagensBot` of the helpbot variant (line 966). -/
def maxMensagensBot : Nat := 7

/-- Part of `iniciarSequenciaBot` before the first request (lines 941-951). -/
def iniciarSequenciaBot_inicio (s : State) : State × Option Pedido :=
  match s.chamadoAtual with
  | none => (s, none)
  | some c =>
    if s.sequenciaAtiva then (s, none)
    else
      (fetch (Pedido.carregarMensagens c.chamado_id) { s with sequenciaAtiva := true },
       some (Pedido.carregarMensagens c.chamado_id))

/-- What `iniciarSequenciaBot` does with the outcome of its history request
(lines 952-972): `some k` when the loop is entered with `mensagensExistentes = k`;
otherwise the call has ended, the `finally` included. -/
def iniciarSequenciaBot_historico (f : Fetch ResultadoHistorico) (s : State) :
    State × Option Nat :=
  match f with
  | .rejeitado => ({ s with sequenciaAtiva := false }, none)
  | .resposta _ none => ({ s with sequenciaAtiva := false }, none)
  | .resposta _ (some result) =>
    if result.success then
      if statusResolvido result.status then
        ({ desativarChat s with sequenciaAtiva := false }, none)
      else if mensagensBotExistentes result ≥ maxMensagensBot then
        ({ s with sequenciaAtiva := false }, none)
      else (s, some (mensagensBotExistentes result))
    else ({ s with sequenciaAtiva := false }, none)

/-- One turn of the loop from the composing indicator to the request for scripted
message `i + 1` (lines 980-984); without ticket, reading `chamadoAtual.chamado_id` throws
and the call ends. -/
def turnoSequencia_inicio (i : Nat) (s : State) : State × Option Pedido :=
  let s1 := removerIndicadorDigitacao (mostrarIndicadorDigitacao s)
  match s1.chamadoAtual with
  | none => ({ s1 with sequenciaAtiva := false }, none)
  | some c =>
    (fetch (Pedido.enviarMensagemBot c.chamado_id (i + 1)) s1,
     some (Pedido.enviarMensagemBot c.chamado_id (i + 1)))

/-- Rest of a turn on the outcome (lines 986-1000): a non-OK response and a body without
`success` are passed over and the loop goes on (`true`); a rejected request or an
unreadable body ends the call (`false`). -/
def turnoSequencia_resposta (f : Fetch ResultadoMensagemBot) (s : State) : State × Bool :=
  match f with
  | .rejeitado => ({ s with sequenciaAtiva := false }, false)
  | .resposta false _ => (s, true)
  | .resposta true none => ({ s with sequenciaAtiva := false }, false)
  | .resposta true (some resultMsg) =>
    if resultMsg.success then
      (adicionarMensagemDOM resultMsg.mensagem "bot" resultMsg.hora
        (some (idOuLocal resultMsg.mensagem_id s.agora)) s, true)
    else (s, true)

/-- The calls of one turn before its request (lines 975-982): the wait of 1.5 s from the
second turn on, then the composing indicator shown for 0.8 s. -/
def turnoSequencia_passos (mensagensExistentes i : Nat) : List Passo :=
  (if i > mensagensExistentes then [Passo.espera 1500] else [])
    ++ [Passo.mostrarIndicadorDigitacao, Passo.espera 800, Passo.removerIndicadorDigitacao]

/-- The loop of `iniciarSequenciaBot` over the remaining values of `i` (lines 974-1001)
followed by the `finally` (lines 1007-1010), when nothing else runs in between;
`respostas n` is the outcome of the request for scripted message `n`. The second
component lists the calls in the order they are made. -/
def lacoSequencia (respostas : Nat → Fetch ResultadoMensagemBot) (mensagensExistentes : Nat) :
    List Nat → State → State × List Passo
  | [], s => ({ s with sequenciaAtiva := false }, [])
  | i :: resto, s =>
    match (turnoSequencia_inicio i s).2 with
    | none => ((turnoSequencia_inicio i s).1, turnoSequencia_passos mensagensExistentes i)
    | some p =>
      if (turnoSequencia_resposta (respostas (i + 1)) (turnoSequencia_inicio i s).1).2 then
        ((lacoSequencia respostas mensagensExistentes resto
            (turnoSequencia_resposta (respostas (i + 1)) (turnoSequencia_inicio i s).1).1).1,
         turnoSequencia_passos mensagensExistentes i ++ Passo.pedido p ::
           (lacoSequencia respostas mensagensExistentes resto
            (turnoSequencia_resposta (respostas (i + 1)) (turnoSequencia_inicio i s).1).1).2)
      else
        ((turnoSequencia_resposta (respostas (i + 1)) (turnoSequencia_inicio i s).1).1,
         turnoSequencia_passos mensagensExistentes i ++ [Passo.pedido p])

/-- The whole of `iniciarSequenciaBot` (lines 941-1011) when nothing else runs in between:
`historico` answers the first request, `respostas n` the request for scripted message
`n`. The second component lists the calls in the order they are made. -/
def iniciarSequenciaBot (historico : Fetch ResultadoHistorico)
    (respostas : Nat → Fetch ResultadoMensagemBot) (s : State) : State × List Passo :=
  match (iniciarSequenciaBot_inicio s).2 with
  | none => ((iniciarSequenciaBot_inicio s).1, [])
  | some p =>
    match (iniciarSequenciaBot_historico historico (iniciarSequenciaBot_inicio s).1).2 with
    | none =>
      ((iniciarSequenciaBot_historico historico (iniciarSequenciaBot_inicio s).1).1,
       [Passo.pedido p])
    | some k =>
      ((lacoSequencia respostas k (List.range' k (maxMensagensBot - k))
          (iniciarSequenciaBot_historico historico (iniciarSequenciaBot_inicio s).1).1).1,
       Passo.pedido p ::
        (lacoSequencia respostas k (List.range' k (maxMensagensBot - k))
          (iniciarSequenciaBot_historico historico (iniciarSequenciaBot_inicio s).1).1).2)

/-- The whole of `verificarNovasMensagensInteligente` (lines 609-688) when nothing else
runs in between; `f` is the outcome of its request, when one is issued. -/
def verificarNovasMensagensInteligente (f : Fetch ResultadoVerificacao) (s : State) : State :=
  match (verificarNovasMensagensInteligente_inicio s).2 with
  | some _ =>
    verificarNovasMensagensInteligente_resposta f (verificarNovasMensagensInteligente_inicio s).1
  | none => (verificarNovasMensagensInteligente_inicio s).1

/-- Function `garantirChamadoAtual` (lines 326-339): without ticket in memory the stored
one is taken over; a text that cannot be parsed is caught and logged. -/
def garantirChamadoAtual (s : State) : State :=
  match s.chamadoAtual with
  | some _ => s
  | none =>
    match s.localStorage.chamadoAtual with
    | some (.valor c) => { s with chamadoAtual := some c }
    | _ => s

/-- Part of `enviarMensagemChat` before the request (lines 1013-1051): input and button
are disabled while the request is pending. -/
def enviarMensagemChat_inicio (s : State) : State × Option Pedido :=
  match (garantirChamadoAtual s).chamadoAtual, (garantirChamadoAtual s).messageInput,
      (garantirChamadoAtual s).sendBtn with
  | some c, some campo, some _ =>
    if trim campo.value == "" then (garantirChamadoAtual s, none)
    else
      (fetch (Pedido.enviarMensagem c.chamado_id (trim campo.value))
        { garantirChamadoAtual s with
          sendBtn := some { innerHTML := "bi-hourglass-split", disabled := true },
          messageInput := some { campo with disabled := true } },
       some (Pedido.enviarMensagem c.chamado_id (trim campo.value)))
  | _, _, _ => (garantirChamadoAtual s, none)

/-- The success branch of `enviarMensagemChat` (lines 1055-1075): the text is rendered,
the marker follows it, and for a ticket that the send resolved the chat is disabled and the
badge hidden. -/
def enviarMensagemChat_sucesso (mensagem : String) (result : ResultadoEnvioChat)
    (s : State) : State :=
  let s1 := { s with messageInput := s.messageInput.map (fun c => { c with value := "" }) }
  let s2 := atualizarUltimaVisualizacao
    (adicionarMensagemDOM mensagem "usuario" result.hora
      (some (idOuLocal result.mensagem_id s1.agora)) s1)
  if result.chamado_resolvido then ocultarIndicadorResolvido (desativarChat s2) else s2

/-- The `finally` of `enviarMensagemChat` (lines 1084-1089): the button gets its former
content back and button and input are enabled. -/
def enviarMensagemChat_finally (originalText : String) (s : State) : State :=
  { s with
    sendBtn := s.sendBtn.map (fun _ => { innerHTML := originalText, disabled := false }),
    messageInput := s.messageInput.map (fun c => { c with disabled := false }) }

/-- Part of `enviarMensagemChat` on the outcome of its request (lines 1053-1089);
`originalText` and `mensagem` are the values read before the request. -/
def enviarMensagemChat_resposta (originalText mensagem : String)
    (f : Fetch ResultadoEnvioChat) (s : State) : State :=
  enviarMensagemChat_finally originalText
    (match f with
     | .resposta _ (some result) =>
       if result.success then enviarMensagemChat_sucesso mensagem result s else s
     | _ => s)

/-- The whole of `enviarMensagemChat` (lines 1013-1090) when nothing else runs in
between; `f` is the outcome of its request, when one is issued. -/
def enviarMensagemChat (f : Fetch ResultadoEnvioChat) (s : State) : State :=
  match (enviarMensagemChat_inicio s).2, (garantirChamadoAtual s).messageInput,
      (garantirChamadoAtual s).sendBtn with
  | some _, some campo, some botao =>
    enviarMensagemChat_resposta botao.innerHTML (trim campo.value) f
      (enviarMensagemChat_inicio s).1
  | _, _, _ => (enviarMensagemChat_inicio s).1

/-- The calls of the helpbot variant that start and stop its two held intervals. -/
inductive OperacaoTemporizador where
  | iniciarAtualizacaoAutomatica : OperacaoTemporizador
  | pararAtualizacaoAutomatica : OperacaoTemporizador
  | iniciarVerificacoesAutomaticas : OperacaoTemporizador
  | pararVerificacoesAutomaticas : OperacaoTemporizador
  | reiniciarSistemaAtualizacao : OperacaoTemporizador
  deriving DecidableEq, Repr

/-- Effect of one start or stop call. -/
def executarTemporizador (op : OperacaoTemporizador) (s : State) : State :=
  match op with
  | .iniciarAtualizacaoAutomatica => iniciarAtualizacaoAutomatica s
  | .pararAtualizacaoAutomatica => pararAtualizacaoAutomatica s
  | .iniciarVerificacoesAutomaticas => iniciarVerificacoesAutomaticas s
  | .pararVerificacoesAutomaticas => pararVerificacoesAutomaticas s
  | .reiniciarSistemaAtualizacao => reiniciarSistemaAtualizacao s

/-- Effect of a sequence of start and stop calls, first to last. -/
def executarTemporizadores (ops : List OperacaoTemporizador) (s : State) : State :=
  ops.foldl (fun acc op => executarTemporizador op acc) s

/-- The operations by which the helpbot controller moves from one state to the next:
listeners, functions exported on `window` (lines 1238-1247), timer callbacks, the two
halves of each poll and of the page-load validation, and the passing of time. Ticket
creation (`enviarChamado`), sending and the bot sequence are not among them. -/
inductive Operacao where
  | carregarPagina : Operacao
  | carregarEstadoAtual : Operacao
  | salvarEstadoSistema : Operacao
  | resetarEstadoSistema : Operacao
  | mostrarIndicadorNovasMensagens : Operacao
  | verificarNovasMensagensInteligente : Operacao
  | respostaVerificacao (f : Fetch ResultadoVerificacao) : Operacao
  | verificarNotificacoesAutomaticas : Operacao
  | respostaNotificacoes (f : Fetch ResultadoNotificacoes) : Operacao
  | eventoStorage (e : EventoStorage) : Operacao
  | abrirModal : Operacao
  | fecharModal : Operacao
  | tickVerificacaoMensagens : Operacao
  | tickSegundoPlano : Operacao
  | continuacaoSegundoPlano (f : Fetch ResultadoNotificacoes) : Operacao
  | tickRefreshDados : Operacao
  | reiniciarSistemaAtualizacao : Operacao
  | iniciarAtualizacaoAutomatica : Operacao
  | carregarChamadoSalvo : Operacao
  | respostaChamadoSalvo (chamadoData : Chamado) (f : Fetch ResultadoHistorico) : Operacao
  | relogio (agora : Nat) : Operacao
  deriving DecidableEq, Repr

/-- Effect of one operation. The modal listeners exist only once the page handler has
created the modal instance; the storage listener only once the page handler has run. -/
def executar (op : Operacao) (s : State) : State :=
  match op with
  | .carregarPagina => aoCarregarPagina s
  | .carregarEstadoAtual => carregarEstadoAtual s
  | .salvarEstadoSistema => salvarEstadoSistema s
  | .resetarEstadoSistema => resetarEstadoSistema s
  | .mostrarIndicadorNovasMensagens => mostrarIndicadorNovasMensagens s
  | .verificarNovasMensagensInteligente => (verificarNovasMensagensInteligente_inicio s).1
  | .respostaVerificacao f => verificarNovasMensagensInteligente_resposta f s
  | .verificarNotificacoesAutomaticas => (verificarNotificacoesAutomaticas_inicio s).1
  | .respostaNotificacoes f => verificarNotificacoesAutomaticas_resposta f s
  | .eventoStorage e =>
    if s.sistemaInicializado then aoEventoStorage e (outraAbaEscreve e s)
    else outraAbaEscreve e s
  | .abrirModal => if s.chatModalInstance then aoAbrirModal s else s
  | .fecharModal => if s.chatModalInstance then aoFecharModal s else s
  | .tickVerificacaoMensagens => (tickVerificacaoMensagens s).1
  | .tickSegundoPlano => (tickSegundoPlano s).1
  | .continuacaoSegundoPlano f => (tickSegundoPlano_continuacao f s).1
  | .tickRefreshDados => (tickRefreshDados s).1
  | .reiniciarSistemaAtualizacao => reiniciarSistemaAtualizacao s
  | .iniciarAtualizacaoAutomatica => iniciarAtualizacaoAutomatica s
  | .carregarChamadoSalvo => (tarefaCarregarChamadoSalvo s).1
  | .respostaChamadoSalvo chamadoData f =>
    aposCarregarChamadoSalvo (carregarChamadoSalvo_resposta chamadoData f s)
  | .relogio agora => { s with agora := agora }

/-- Effect of a sequence of operations, first to last. -/
def executarTodas (ops : List Operacao) (s : State) : State :=
  ops.foldl (fun acc op => executar op acc) s

/-- States the controller can reach from a freshly loaded script. -/
def Alcancavel (s : State) : Prop :=
  ∃ ls indicador chatMessages messageInput sendBtn chatModalEl agora ops,
    s = executarTodas ops
      (estadoInicial ls indicador chatMessages messageInput sendBtn chatModalEl agora)

/-- The operations that cannot bring a ticket back: every operation except the storage
event, which reports a write of another tab, and the late outcome of a page-load
validation, which installs the ticket it had read before its request. -/
def Operacao.local : Operacao → Bool
  | .eventoStorage _ => false
  | .respostaChamadoSalvo _ _ => false
  | _ => true

end Helpbot

/-! ## Vocabulary of the statements -/

/-- The request was answered and, when the status is OK, the body can be read: awaiting
the outcome throws no exception. -/
def Fetch.legivel {α : Type} : Fetch α → Bool
  | .rejeitado => false
  | .resposta true none => false
  | .resposta _ _ => true

/-- The bubble that renders a server message whose id is a non-empty text. -/
def Mensagem.bolha (m : Mensagem) : Bolha :=
  Bolha.mensagem (m.id.getD "") m.mensagem m.remetente m.hora

namespace Helpbot

/-- The fields that only the listeners, the polls and the badge code write: every timer
and storage routine leaves them alone. -/
structure MesmaTela (s t : State) : Prop where
  modalAberto : t.modalAberto = s.modalAberto
  indicador : t.indicador = s.indicador
  pedidos : t.pedidos = s.pedidos
  chatMessages : t.chatMessages = s.chatMessages
  messageInput : t.messageInput = s.messageInput
  sendBtn : t.sendBtn = s.sendBtn
  sistemaInicializado : t.sistemaInicializado = s.sistemaInicializado
  chatModalInstance : t.chatModalInstance = s.chatModalInstance

/-- The unread flag is false in memory and stored as the text `false`. -/
def FlagLimpa (s : State) : Prop :=
  s.indicadorNovasMensagens = false ∧ s.localStorage.indicadorNovasMensagens = some "false"

/-- The live intervals once the two held handles have been cleared. -/
def intervalosSemOsGuardados (s : State) : List (Nat × TipoIntervalo) :=
  let l1 := match s.intervaloAtualizacao with
    | some h => s.intervalos.filter (fun p => p.1 != h)
    | none => s.intervalos
  match s.intervaloVerificacaoAutomatica with
  | some h => l1.filter (fun p => p.1 != h)
  | none => l1

/-- No ticket in memory and none in storage. -/
def SemChamado (s : State) : Prop :=
  s.chamadoAtual = none ∧ s.localStorage.chamadoAtual = none

/-- From a state without ticket, `t` is again without ticket and no request was issued. -/
def Quieto (s t : State) : Prop :=
  SemChamado s → SemChamado t ∧ t.pedidos = s.pedidos

/-- The ticket, the marker, the storage and the request log are the same. -/
structure MesmaSessao (s t : State) : Prop where
  chamadoAtual : t.chamadoAtual = s.chamadoAtual
  ultimaMensagemVisualizadaId : t.ultimaMensagemVisualizadaId = s.ultimaMensagemVisualizadaId
  localStorage : t.localStorage = s.localStorage
  pedidos : t.pedidos = s.pedidos

/-- Storage once another tab has written the ticket `chamado` and the marker record
`registo`. -/
def outraAbaGuarda (chamado : Chamado) (registo : EstadoVisualizacao) (s : State) : State :=
  outraAbaEscreve (EventoStorage.ultimaVisualizacao (some (Guardado.valor registo)))
    (outraAbaEscreve (EventoStorage.chamadoAtual (some (Guardado.valor chamado))) s)

/-- The badge may be on screen only while the modal is closed. -/
def IndicadorSoComModalFechado (s : State) : Prop :=
  indicadorVisivel s = true → s.modalAberto = false

/-- A step that keeps `modalAberto` and either keeps the badge, or leaves it hidden, or
happens with the modal closed. -/
def Discreto (s t : State) : Prop :=
  t.modalAberto = s.modalAberto
  ∧ (t.indicador = s.indicador ∨ indicadorVisivel t = false ∨ t.modalAberto = false)

end Helpbot

/-- Handles of the live intervals of one kind, in order of registration. -/
def handlesDoTipo (tipo : TipoIntervalo) (intervalos : List (Nat × TipoIntervalo)) : List Nat :=
  (intervalos.filter (fun p => p.2 == tipo)).map Prod.fst

/-- Every live handle was handed out before and no handle is live twice. -/
def HandlesFrescos (intervalos : List (Nat × TipoIntervalo)) (proximoHandle : Nat) : Prop :=
  (∀ p ∈ intervalos, p.1 < proximoHandle) ∧ (intervalos.map Prod.fst).Nodup

/-- The live intervals of one kind are exactly the held handle: none when the variable is
null, the one interval with that handle otherwise. -/
def TemporizadorCoerente (tipo : TipoIntervalo) (intervalos : List (Nat × TipoIntervalo))
    (guardado : Option Nat) : Prop :=
  handlesDoTipo tipo intervalos = guardado.toList

/-- The two held handles of the helpbot variant account for the live 5 min and 2 min
intervals. -/
structure Helpbot.TemporizadoresCoerentes (s : Helpbot.State) : Prop where
  frescos : HandlesFrescos s.intervalos s.proximoHandle
  refreshDados :
    TemporizadorCoerente TipoIntervalo.refreshDados s.intervalos s.intervaloAtualizacao
  segundoPlano :
    TemporizadorCoerente TipoIntervalo.segundoPlano s.intervalos
      s.intervaloVerificacaoAutomatica

/-- The held handle of the static variant accounts for the live 25 s intervals. -/
structure Static.TemporizadoresCoerentes (s : Static.State) : Prop where
  frescos : HandlesFrescos s.intervalos s.proximoHandle
  chat25s : TemporizadorCoerente TipoIntervalo.chat25s s.intervalos s.intervaloAtualizacao

/-! ## Concrete pages and responses used as test inputs -/

/-- A ticket. -/
def chamadoA : Chamado :=
  { chamado_id := "17", chamado_legivel := "CH-0017", status := "Aberto",
    tipo_usuario := some "colaborador" }

/-- A static-variant page with an open ticket, three rendered messages and the marker on
the last of them; the modal is closed. -/
def Static.paginaComChamado : Static.State :=
  { chamadoAtual := some chamadoA, sequenciaAtiva := false, chatModalInstance := true,
    carregandoMensagens := false, ultimaMensagemId := some "m3", intervaloAtualizacao := some 1,
    indicadorNovasMensagens := false, modalAberto := false,
    ultimaMensagemVisualizadaId := some "m3",
    localStorage :=
      { chamadoAtual := some (Guardado.valor chamadoA),
        ultimaVisualizacao := some (Guardado.valor
          { ultimaMensagemId := some "m3", timestamp := 1000, chamadoId := some "17" }),
        indicadorNovasMensagens := none, tipoUsuario := none },
    chatMessages := some [Bolha.mensagem "m1" "Ola" "bot" "10:00",
                          Bolha.mensagem "m2" "Preciso de ajuda" "usuario" "10:01",
                          Bolha.mensagem "m3" "Certo" "bot" "10:02"],
    containerIndicador := true, indicador := false, floatingBtn := true,
    messageInput := some { value := "", placeholder := "Digite...", chatDisabled := false },
    sendBtnChatDisabled := some false, chatStatus := some "Ativo",
    agora := 2000, intervalos := [(1, TipoIntervalo.chat25s)], proximoHandle := 2,
    agendados := [], pedidos := [] }

/-- The static page of `paginaComChamado` with the modal open. -/
def Static.paginaModalAberto : Static.State :=
  { Static.paginaComChamado with modalAberto := true }

/-- A helpbot page with an open ticket, three rendered messages and the marker on the last
of them; the modal is closed and the badge element is hidden. -/
def Helpbot.paginaComChamado : Helpbot.State :=
  { chamadoAtual := some chamadoA, sequenciaAtiva := false, chatModalInstance := true,
    carregandoMensagens := false, ultimaMensagemId := some "m3", intervaloAtualizacao := some 2,
    intervaloVerificacaoAutomatica := some 3, indicadorNovasMensagens := false,
    modalAberto := false, ultimaMensagemVisualizadaId := some "m3", sistemaInicializado := true,
    tipoUsuario := some "colaborador",
    localStorage :=
      { chamadoAtual := some (Guardado.valor chamadoA),
        ultimaVisualizacao := some (Guardado.valor
          { ultimaMensagemId := some "m3", timestamp := 1000, chamadoId := some "17" }),
        indicadorNovasMensagens := some "false", tipoUsuario := some "colaborador" },
    indicador := some { visivel := false, pulso := false },
    chatMessages := some [Bolha.mensagem "m1" "Ola" "bot" "10:00",
                          Bolha.mensagem "m2" "Preciso de ajuda" "usuario" "10:01",
                          Bolha.mensagem "m3" "Certo" "bot" "10:02"],
    messageInput := some { value := "", placeholder := "Digite...", disabled := false },
    sendBtn := some { innerHTML := "bi-send", disabled := false },
    chatModalEl := true, agora := 2000,
    intervalos := [(1, TipoIntervalo.verificacaoMensagens), (2, TipoIntervalo.refreshDados),
                   (3, TipoIntervalo.segundoPlano)],
    proximoHandle := 4, agendados := [], pedidos := [] }

/-- The helpbot page of `paginaComChamado` with the modal open. -/
def Helpbot.paginaModalAberto : Helpbot.State :=
  { Helpbot.paginaComChamado with modalAberto := true }

/-- The helpbot page of `paginaComChamado` with the unread flag set and the badge shown. -/
def Helpbot.paginaComIndicador : Helpbot.State :=
  { Helpbot.paginaComChamado with
    indicadorNovasMensagens := true,
    indicador := some { visivel := true, pulso := true } }

/-- A helpbot page without badge element whose storage holds the unread flag `true`. -/
def Helpbot.paginaSemIndicador : Helpbot.State :=
  { Helpbot.paginaComChamado with
    indicador := none,
    localStorage := { Helpbot.paginaComChamado.localStorage with
                      indicadorNovasMensagens := some "true" } }

/-- The helpbot page of `paginaComChamado` on a template without the badge element
`#novasMensagensIndicador`: ticket 17 active, modal closed, flag false. -/
def Helpbot.paginaSemElementoIndicador : Helpbot.State :=
  { Helpbot.paginaComChamado with indicador := none }

/-- A freshly loaded helpbot script on a page with every element and an empty storage. -/
def Helpbot.paginaNova : Helpbot.State :=
  Helpbot.estadoInicial Armazenamento.vazio (some { visivel := false, pulso := false })
    (some []) (some { value := "", placeholder := "Digite...", disabled := false })
    (some { innerHTML := "bi-send", disabled := false }) true 0

/-- The page handler has run on `paginaNova` and another tab has then stored the unread
flag `true`. -/
def Helpbot.aposAvisoDeOutraAba : Helpbot.State :=
  Helpbot.executarTodas
    [Helpbot.Operacao.carregarPagina,
     Helpbot.Operacao.eventoStorage (Helpbot.EventoStorage.indicadorNovasMensagens (some "true"))]
    Helpbot.paginaNova

/-- A freshly loaded helpbot script whose storage holds a ticket and the unread flag. -/
def Helpbot.paginaComFlagGuardada : Helpbot.State :=
  Helpbot.estadoInicial
    { chamadoAtual := some (Guardado.valor chamadoA), ultimaVisualizacao := none,
      indicadorNovasMensagens := some "true", tipoUsuario := none }
    (some { visivel := false, pulso := false })
    (some []) (some { value := "", placeholder := "Digite...", disabled := false })
    (some { innerHTML := "bi-send", disabled := false }) true 0

/-- The page handler has run on `paginaComFlagGuardada`. -/
def Helpbot.aposCarregarComFlag : Helpbot.State :=
  Helpbot.executarTodas [Helpbot.Operacao.carregarPagina] Helpbot.paginaComFlagGuardada

/-- A poll body that reports one new message but repeats the marker `m3`. -/
def respostaRepetida : ResultadoVerificacao :=
  { success := true, total_novas := 1, ultima_visualizada_id := some "m3",
    novas_mensagens := [Mensagem.mk (some "m3") "Certo" "bot" "10:02"],
    chamado_status := "aberto" }

/-- A poll body with two new messages and the tip `m5`. -/
def respostaDuasNovas : ResultadoVerificacao :=
  { success := true, total_novas := 2, ultima_visualizada_id := some "m5",
    novas_mensagens := [Mensagem.mk (some "m4") "Um momento" "bot" "10:05",
                        Mensagem.mk (some "m5") "Resolvemos" "bot" "10:06"],
    chamado_status := "aberto" }

/-- A poll body without new messages whose tip `m5` differs from the marker `m3`. -/
def respostaSemNovas : ResultadoVerificacao :=
  { success := true, total_novas := 0, ultima_visualizada_id := some "m5",
    novas_mensagens := [], chamado_status := "aberto" }

/-- A poll body that reports the ticket resolved together with its last two messages. -/
def respostaResolvidaComNovas : ResultadoVerificacao :=
  { success := true, total_novas := 2, ultima_visualizada_id := some "m5",
    novas_mensagens := [Mensagem.mk (some "m4") "Um momento" "bot" "10:05",
                        Mensagem.mk (some "m5") "Resolvemos" "bot" "10:06"],
    chamado_status := "resolvido" }

/-- A poll body without new messages that reports the ticket resolved. -/
def respostaResolvidaSemNovas : ResultadoVerificacao :=
  { success := true, total_novas := 0, ultima_visualizada_id := some "m5",
    novas_mensagens := [], chamado_status := "resolvido" }

/-- A history body for a ticket the server reports as resolved. -/
def historicoResolvido : ResultadoHistorico :=
  { success := true, status := "Resolvido",
    mensagens := [Mensagem.mk (some "m1") "Ola" "bot" "10:00",
                  Mensagem.mk (some "m2") "Preciso de ajuda" "usuario" "10:01",
                  Mensagem.mk (some "m3") "Certo" "bot" "10:02"] }

/-- A history body for a ticket the server reports as open. -/
def historicoAberto : ResultadoHistorico :=
  { success := true, status := "Em andamento",
    mensagens := [Mensagem.mk (some "m1") "Ola" "bot" "10:00"] }

/-- A freshly loaded helpbot script whose storage holds a ticket. -/
def Helpbot.paginaComChamadoGuardado : Helpbot.State :=
  Helpbot.estadoInicial
    { chamadoAtual := some (Guardado.valor chamadoA), ultimaVisualizacao := none,
      indicadorNovasMensagens := none, tipoUsuario := none }
    (some { visivel := false, pulso := false })
    (some []) (some { value := "", placeholder := "Digite...", disabled := false })
    (some { innerHTML := "bi-send", disabled := false }) true 0

/-- On `paginaComChamadoGuardado` the page handler has run, the delayed validation of the
stored ticket has sent its request, and the 30 s interval has ticked and sent a poll; both
requests are in flight. -/
def Helpbot.comValidacaoPendente : Helpbot.State :=
  Helpbot.executarTodas
    [Helpbot.Operacao.carregarPagina, Helpbot.Operacao.carregarChamadoSalvo,
     Helpbot.Operacao.tickVerificacaoMensagens]
    Helpbot.paginaComChamadoGuardado

/-- The poll of `comValidacaoPendente` is answered first, with the resolved body. -/
def Helpbot.resolvidoComValidacaoPendente : Helpbot.State :=
  Helpbot.verificarNovasMensagensInteligente_resposta
    (Fetch.resposta true (some respostaResolvidaSemNovas)) Helpbot.comValidacaoPendente

/-- The outcome of the validation request arrives after that: the server had answered it
while the ticket was still open. -/
def Helpbot.validacaoTardia : Helpbot.Operacao :=
  Helpbot.Operacao.respostaChamadoSalvo chamadoA (Fetch.resposta true (some historicoAberto))

/-- Later events on a helpbot page: both timers fire, both polls are called, the modal
is opened and closed, a late poll body arrives, the update system is restarted and the
stored ticket is validated anew. -/
def Helpbot.eventosPosteriores : List Helpbot.Operacao :=
  [Helpbot.Operacao.tickSegundoPlano, Helpbot.Operacao.tickVerificacaoMensagens,
   Helpbot.Operacao.verificarNovasMensagensInteligente,
   Helpbot.Operacao.verificarNotificacoesAutomaticas,
   Helpbot.Operacao.abrirModal, Helpbot.Operacao.fecharModal,
   Helpbot.Operacao.respostaVerificacao (Fetch.resposta true (some respostaDuasNovas)),
   Helpbot.Operacao.reiniciarSistemaAtualizacao, Helpbot.Operacao.carregarChamadoSalvo,
   Helpbot.Operacao.tickVerificacaoMensagens, Helpbot.Operacao.tickSegundoPlano]

/-- A second ticket. -/
def chamadoB : Chamado :=
  { chamado_id := "18", chamado_legivel := "CH-0018", status := "Aberto",
    tipo_usuario := some "colaborador" }

/-- The storage event by which another tab announces ticket `chamadoB`. -/
def Helpbot.eventoChamadoB : Helpbot.EventoStorage :=
  Helpbot.EventoStorage.chamadoAtual (some (Guardado.valor chamadoB))

/-- The tab of `paginaComChamado` (ticket 17, marker `m3`, stored record of ticket 17) once
another tab has stored ticket 18 and the storage event has been handled. -/
def Helpbot.aposTrocaDeChamado : Helpbot.State :=
  Helpbot.executar (Helpbot.Operacao.eventoStorage Helpbot.eventoChamadoB)
    Helpbot.paginaComChamado

/-- A marker record that was written for ticket 18. -/
def registoDoChamadoB : EstadoVisualizacao :=
  { ultimaMensagemId := some "m9", timestamp := 500, chamadoId := some "18" }

/-- A marker record that was written for ticket 17. -/
def registoDoChamadoA : EstadoVisualizacao :=
  { ultimaMensagemId := some "m3", timestamp := 1000, chamadoId := some "17" }

/-- A freshly loaded helpbot script whose storage holds ticket 17 together with a marker
record of ticket 18. -/
def Helpbot.paginaComRegistoAlheio : Helpbot.State :=
  Helpbot.estadoInicial
    { chamadoAtual := some (Guardado.valor chamadoA),
      ultimaVisualizacao := some (Guardado.valor registoDoChamadoB),
      indicadorNovasMensagens := none, tipoUsuario := none }
    (some { visivel := false, pulso := false })
    (some []) (some { value := "", placeholder := "Digite...", disabled := false })
    (some { innerHTML := "bi-send", disabled := false }) true 700

/-- A creation body for ticket 18. -/
def criacaoDoChamadoB : ResultadoCriacao :=
  { success := true, chamado := chamadoB }

/-- The helpbot page of `paginaComIndicador` whose stored ticket has become unreadable. -/
def Helpbot.paginaComArmazenamentoIlegivel : Helpbot.State :=
  { Helpbot.paginaComIndicador with
    localStorage := { Helpbot.paginaComIndicador.localStorage with
                      chamadoAtual := some Guardado.invalido } }

/-- The static page of `paginaModalAberto` with a text typed into the input. -/
def Static.paginaComTexto : Static.State :=
  { Static.paginaModalAberto with
    messageInput := some { value := " Oi ", placeholder := "Digite...", chatDisabled := false } }

/-- On `paginaComTexto` the text is sent and the request fails. -/
def Static.aposEnvioFalhado : Static.State :=
  Static.enviarMensagemChat_resposta "10:08" Fetch.rejeitado
    (Static.enviarMensagemChat_inicio "10:07" Static.paginaComTexto).1

/-- A history body of an open ticket with three messages of the bot and one of the user. -/
def historicoTresDoBot : ResultadoHistorico :=
  { success := true, status := "Em andamento",
    mensagens := [Mensagem.mk (some "m1") "Ola" "bot" "10:00",
                  Mensagem.mk (some "m2") "Preciso de ajuda" "usuario" "10:01",
                  Mensagem.mk (some "m3") "Certo" "bot" "10:02",
                  Mensagem.mk (some "m4") "Um momento" "bot" "10:03"] }

/-- The body that delivers scripted message `n`. -/
def mensagemRoteiro (n : Nat) : ResultadoMensagemBot :=
  { success := true, mensagem := "Passo", hora := "10:10",
    mensagem_id := some ("b" ++ toString n), message := none }

/-- A body without `success` whose message says that the ticket is resolved. -/
def avisoResolvido : ResultadoMensagemBot :=
  { success := false, mensagem := "", hora := "", mensagem_id := none,
    message := some "Chamado resolvido" }

/-- Every scripted message is available. -/
def respostasDisponiveis : Nat → Fetch ResultadoMensagemBot :=
  fun n => Fetch.resposta true (some (mensagemRoteiro n))

/-- The request for scripted message 4 is answered with `avisoResolvido`. -/
def respostasComAvisoNa4 : Nat → Fetch ResultadoMensagemBot :=
  fun n => if n = 4 then Fetch.resposta true (some avisoResolvido)
           else Fetch.resposta true (some (mensagemRoteiro n))

/-- The request for scripted message 4 is answered with a non-OK status. -/
def respostasComRecusaNa4 : Nat → Fetch ResultadoMensagemBot :=
  fun n => if n = 4 then Fetch.resposta false (some avisoResolvido)
           else Fetch.resposta true (some (mensagemRoteiro n))

/-- The request for scripted message 5 is rejected. -/
def respostasComFalhaNa5 : Nat → Fetch ResultadoMensagemBot :=
  fun n => if n = 5 then Fetch.rejeitado
           else Fetch.resposta true (some (mensagemRoteiro n))

/-- The static turns all deliver a next message and reload the history. -/
def Static.respostasProxima : Nat → Fetch ResultadoProxima × Fetch ResultadoHistorico :=
  fun _ => (Fetch.resposta true (some { success := true, completo := false }),
            Fetch.resposta true (some historicoTresDoBot))

/-- The helpbot page of `paginaModalAberto` while a bot sequence is running. -/
def Helpbot.paginaComSequenciaAtiva : Helpbot.State :=
  { Helpbot.paginaModalAberto with sequenciaAtiva := true }

/-- The static page of `paginaModalAberto` while a bot sequence is running. -/
def Static.paginaComSequenciaAtiva : Static.State :=
  { Static.paginaModalAberto with sequenciaAtiva := true }

/-- The helpbot page of `paginaModalAberto` with a text typed into the input. -/
def Helpbot.paginaComTexto : Helpbot.State :=
  { Helpbot.paginaModalAberto with
    messageInput := some { value := " Resolvido, obrigado ", placeholder := "Digite...",
                           disabled := false } }

/-- The body that answers a send which resolved the ticket. -/
def envioQueResolve : ResultadoEnvioChat :=
  { success := true, mensagem_id := some "m4", hora := "10:07", chamado_resolvido := true,
    message := none }

/-- A freshly loaded script of the static variant whose storage holds ticket 17, its
marker record, and entries for the unread flag and the user type. -/
def Static.paginaComChamadoGuardado : Static.State :=
  Static.estadoInicial
    { chamadoAtual := some (Guardado.valor chamadoA),
      ultimaVisualizacao := some (Guardado.valor registoDoChamadoA),
      indicadorNovasMensagens := some "true", tipoUsuario := some "colaborador" }
    (some []) true true
    (some { value := "", placeholder := "Digite...", chatDisabled := false })
    (some false) (some "Ativo") 0

/-- A freshly loaded helpbot script whose storage holds ticket 17, its marker record, the
unread flag and the user type. -/
def Helpbot.paginaComSessaoGuardada : Helpbot.State :=
  Helpbot.estadoInicial
    { chamadoAtual := some (Guardado.valor chamadoA),
      ultimaVisualizacao := some (Guardado.valor registoDoChamadoA),
      indicadorNovasMensagens := some "true", tipoUsuario := some "colaborador" }
    (some { visivel := false, pulso := false })
    (some []) (some { value := "", placeholder := "Digite...", disabled := false })
    (some { innerHTML := "bi-send", disabled := false }) true 0

/-- On the helpbot page of ticket 17 a poll is sent; before its outcome arrives the user
creates ticket 18. -/
def Helpbot.chamadoTrocadoEmVoo : Helpbot.State :=
  Helpbot.enviarChamado_sucesso chamadoB
    (Helpbot.verificarNovasMensagensInteligente_inicio Helpbot.paginaComChamado).1

/-- On the static page of ticket 17 a poll is sent; before its outcome arrives the user
creates ticket 18. -/
def Static.chamadoTrocadoEmVoo : Static.State :=
  Static.enviarChamado_sucesso chamadoB
    (Static.verificarNovasMensagensInteligente_inicio Static.paginaComChamado).1

/-- A notification body with three unread items. -/
def notificacoesTresNaoLidas : ResultadoNotificacoes :=
  { success := true, total_nao_lidas := 3, tipo_usuario := some "colaborador" }

/-- A sequence of start and stop calls of the helpbot variant. -/
def Helpbot.chamadasDeTemporizador : List Helpbot.OperacaoTemporizador :=
  [Helpbot.OperacaoTemporizador.iniciarAtualizacaoAutomatica,
   Helpbot.OperacaoTemporizador.iniciarAtualizacaoAutomatica,
   Helpbot.OperacaoTemporizador.iniciarVerificacoesAutomaticas,
   Helpbot.OperacaoTemporizador.reiniciarSistemaAtualizacao,
   Helpbot.OperacaoTemporizador.pararVerificacoesAutomaticas,
   Helpbot.OperacaoTemporizador.iniciarVerificacoesAutomaticas,
   Helpbot.OperacaoTemporizador.iniciarAtualizacaoAutomatica]

/-- A sequence of start and stop calls of the static variant. -/
def Static.chamadasDeTemporizador : List Static.OperacaoTemporizador :=
  [Static.OperacaoTemporizador.iniciarAtualizacaoAutomatica,
   Static.OperacaoTemporizador.iniciarAtualizacaoAutomatica,
   Static.OperacaoTemporizador.pararAtualizacaoAutomatica,
   Static.OperacaoTemporizador.iniciarAtualizacaoAutomatica]

/-! ## Auxiliary lemmas -/

namespace Helpbot

/-! ### Frame lemmas of the helpbot variant -/

theorem pararAtualizacaoAutomatica_eq (s : State) :
    pararAtualizacaoAutomatica s
      = { s with
          intervalos := (match s.intervaloAtualizacao with
            | some h => s.intervalos.filter (fun p => p.1 != h)
            | none => s.intervalos),
          intervaloAtualizacao := none } := by
  unfold pararAtualizacaoAutomatica
  cases h : s.intervaloAtualizacao with
  | none =>
    cases s
    simp_all
  | some a => simp [clearInterval, h]

theorem pararVerificacoesAutomaticas_eq (s : State) :
    pararVerificacoesAutomaticas s
      = { s with
          intervalos := (match s.intervaloVerificacaoAutomatica with
            | some h => s.intervalos.filter (fun p => p.1 != h)
            | none => s.intervalos),
          intervaloVerificacaoAutomatica := none } := by
  unfold pararVerificacoesAutomaticas
  cases h : s.intervaloVerificacaoAutomatica with
  | none =>
    cases s
    simp_all
  | some a => simp [clearInterval, h]

theorem MesmaTela.reflTela (s : State) : MesmaTela s s :=
  ⟨rfl, rfl, rfl, rfl, rfl, rfl, rfl, rfl⟩

theorem MesmaTela.transTela {a b c : State} (h1 : MesmaTela a b) (h2 : MesmaTela b c) :
    MesmaTela a c :=
  ⟨h2.modalAberto.trans h1.modalAberto, h2.indicador.trans h1.indicador,
   h2.pedidos.trans h1.pedidos, h2.chatMessages.trans h1.chatMessages,
   h2.messageInput.trans h1.messageInput, h2.sendBtn.trans h1.sendBtn,
   h2.sistemaInicializado.trans h1.sistemaInicializado,
   h2.chatModalInstance.trans h1.chatModalInstance⟩

theorem mesmaTela_pararAtualizacaoAutomatica (s : State) :
    MesmaTela s (pararAtualizacaoAutomatica s) := by
  rw [pararAtualizacaoAutomatica_eq]; exact ⟨rfl, rfl, rfl, rfl, rfl, rfl, rfl, rfl⟩

theorem mesmaTela_pararVerificacoesAutomaticas (s : State) :
    MesmaTela s (pararVerificacoesAutomaticas s) := by
  rw [pararVerificacoesAutomaticas_eq]; exact ⟨rfl, rfl, rfl, rfl, rfl, rfl, rfl, rfl⟩

theorem mesmaTela_iniciarAtualizacaoAutomatica (s : State) :
    MesmaTela s (iniciarAtualizacaoAutomatica s) := by
  unfold iniciarAtualizacaoAutomatica setInterval
  rw [pararAtualizacaoAutomatica_eq]; exact ⟨rfl, rfl, rfl, rfl, rfl, rfl, rfl, rfl⟩

theorem mesmaTela_iniciarVerificacoesAutomaticas (s : State) :
    MesmaTela s (iniciarVerificacoesAutomaticas s) := by
  unfold iniciarVerificacoesAutomaticas setInterval
  rw [pararVerificacoesAutomaticas_eq]; exact ⟨rfl, rfl, rfl, rfl, rfl, rfl, rfl, rfl⟩

theorem mesmaTela_resetarEstadoSistema (s : State) :
    MesmaTela s (resetarEstadoSistema s) := by
  unfold resetarEstadoSistema
  rw [pararVerificacoesAutomaticas_eq, pararAtualizacaoAutomatica_eq]
  exact ⟨rfl, rfl, rfl, rfl, rfl, rfl, rfl, rfl⟩

theorem mesmaTela_salvarEstadoSistema (s : State) :
    MesmaTela s (salvarEstadoSistema s) :=
  ⟨rfl, rfl, rfl, rfl, rfl, rfl, rfl, rfl⟩

theorem mesmaTela_setTimeout (ms : Nat) (t : Tarefa) (s : State) :
    MesmaTela s (setTimeout ms t s) :=
  ⟨rfl, rfl, rfl, rfl, rfl, rfl, rfl, rfl⟩

theorem mesmaTela_carregarEstadoAtual_chamado {s t : State}
    (h : carregarEstadoAtual_chamado s = some t) : MesmaTela s t := by
  unfold carregarEstadoAtual_chamado at h
  split at h <;> first
    | (cases h; exact ⟨rfl, rfl, rfl, rfl, rfl, rfl, rfl, rfl⟩)
    | cases h

theorem mesmaTela_carregarEstadoAtual_visualizacao {s t : State}
    (h : carregarEstadoAtual_visualizacao s = some t) : MesmaTela s t := by
  unfold carregarEstadoAtual_visualizacao at h
  split at h <;> first
    | (cases h; exact ⟨rfl, rfl, rfl, rfl, rfl, rfl, rfl, rfl⟩)
    | cases h

theorem mesmaTela_carregarEstadoAtual_indicador (s : State) :
    MesmaTela s (carregarEstadoAtual_indicador s) := by
  unfold carregarEstadoAtual_indicador
  simp only
  split <;> split <;> exact ⟨rfl, rfl, rfl, rfl, rfl, rfl, rfl, rfl⟩

theorem carregarEstadoAtual_cases (s : State) :
    (carregarEstadoAtual_chamado s = none ∧ carregarEstadoAtual s = resetarEstadoSistema s)
    ∨ (∃ s1, carregarEstadoAtual_chamado s = some s1
        ∧ carregarEstadoAtual_visualizacao s1 = none
        ∧ carregarEstadoAtual s = resetarEstadoSistema s1)
    ∨ (∃ s1 s2, carregarEstadoAtual_chamado s = some s1
        ∧ carregarEstadoAtual_visualizacao s1 = some s2
        ∧ carregarEstadoAtual s = carregarEstadoAtual_indicador s2) := by
  cases h1 : carregarEstadoAtual_chamado s with
  | none => left; simp [carregarEstadoAtual, h1]
  | some s1 =>
    right
    cases h2 : carregarEstadoAtual_visualizacao s1 with
    | none => left; exact ⟨s1, rfl, h2, by simp [carregarEstadoAtual, h1, h2]⟩
    | some s2 => right; exact ⟨s1, s2, rfl, h2, by simp [carregarEstadoAtual, h1, h2]⟩

theorem mesmaTela_carregarEstadoAtual (s : State) :
    MesmaTela s (carregarEstadoAtual s) := by
  rcases carregarEstadoAtual_cases s with ⟨_, h⟩ | ⟨s1, h1, _, h⟩ | ⟨s1, s2, h1, h2, h⟩
  · rw [h]; exact mesmaTela_resetarEstadoSistema s
  · rw [h]
    exact (mesmaTela_carregarEstadoAtual_chamado h1).transTela (mesmaTela_resetarEstadoSistema s1)
  · rw [h]
    exact ((mesmaTela_carregarEstadoAtual_chamado h1).transTela
      (mesmaTela_carregarEstadoAtual_visualizacao h2)).transTela
      (mesmaTela_carregarEstadoAtual_indicador s2)

end Helpbot

theorem verdadeiro_some {o : Option String} (h : verdadeiro o = true) :
    ∃ t, o = some t ∧ t ≠ "" := by
  cases o with
  | none => simp [verdadeiro] at h
  | some t => exact ⟨t, rfl, by simpa [verdadeiro] using h⟩

theorem idOuLocal_verdadeiro {o : Option String} (agora : Nat) (h : verdadeiro o = true) :
    idOuLocal o agora = o.getD "" := by
  obtain ⟨t, rfl, ht⟩ := verdadeiro_some h
  simp [idOuLocal, ht]

theorem getD_undefined_verdadeiro {o : Option String} (h : verdadeiro o = true) :
    o.getD "undefined" = o.getD "" := by
  obtain ⟨t, rfl, _⟩ := verdadeiro_some h
  rfl

theorem ultimoIdRenderizado_append_bolhas (filhos : List Bolha) (lista : List Mensagem)
    (hne : lista ≠ []) :
    ultimoIdRenderizado (filhos ++ lista.map Mensagem.bolha)
      = some ((lista.getLast hne).id.getD "") := by
  have h1 : List.filterMap Bolha.dataMessageId (lista.map Mensagem.bolha)
      = lista.map (fun m => m.id.getD "") := by
    induction lista with
    | nil => rfl
    | cons m ms ih =>
      cases ms with
      | nil => rfl
      | cons m2 ms2 =>
        have := ih (by simp)
        simp [List.filterMap_cons, Mensagem.bolha, Bolha.dataMessageId] at this ⊢
        exact this
  simp [ultimoIdRenderizado, h1, List.getLast?_eq_getLast _ hne]

theorem Helpbot.adicionarTodas_eq (lista : List Mensagem) :
    ∀ (s : Helpbot.State) (filhos : List Bolha), s.chatMessages = some filhos →
      (∀ m ∈ lista, verdadeiro m.id = true) →
      Helpbot.adicionarTodas lista s
        = { s with chatMessages := some (filhos ++ lista.map Mensagem.bolha) } := by
  induction lista with
  | nil => intro s filhos h _; simp [Helpbot.adicionarTodas, ← h]
  | cons m ms ih =>
    intro s filhos h hid
    have hm := hid m (by simp)
    have := ih (Helpbot.adicionarMensagemDOM m.mensagem m.remetente m.hora m.id s)
      (filhos ++ [m.bolha])
      (by simp [Helpbot.adicionarMensagemDOM, h, Mensagem.bolha, getD_undefined_verdadeiro hm])
      (fun x hx => hid x (by simp [hx]))
    simp only [Helpbot.adicionarTodas, List.foldl_cons] at this ⊢
    rw [this]
    simp [Helpbot.adicionarMensagemDOM, h]

theorem Static.adicionarTodas_static_eq (lista : List Mensagem) :
    ∀ (s : Static.State) (filhos : List Bolha), s.chatMessages = some filhos →
      (∀ m ∈ lista, verdadeiro m.id = true) →
      Static.adicionarTodas lista s
        = { s with chatMessages := some (filhos ++ lista.map Mensagem.bolha) } := by
  induction lista with
  | nil => intro s filhos h _; simp [Static.adicionarTodas, ← h]
  | cons m ms ih =>
    intro s filhos h hid
    have hm := hid m (by simp)
    have := ih (Static.adicionarMensagemDOM m.mensagem m.remetente m.hora m.id s)
      (filhos ++ [m.bolha])
      (by simp [Static.adicionarMensagemDOM, h, Mensagem.bolha, idOuLocal_verdadeiro _ hm])
      (fun x hx => hid x (by simp [hx]))
    simp only [Static.adicionarTodas, List.foldl_cons] at this ⊢
    rw [this]
    simp [Static.adicionarMensagemDOM, h]

namespace Helpbot

theorem atualizarUltimaVisualizacao_cases (s : State) :
    atualizarUltimaVisualizacao s = s
    ∨ ∃ messageId, s.chamadoAtual.isSome = true
        ∧ atualizarUltimaVisualizacao s
          = salvarEstadoSistema { s with ultimaMensagemVisualizadaId := some messageId } := by
  unfold atualizarUltimaVisualizacao
  split
  · rename_i c filhos hc hf
    split
    · split
      · right; exact ⟨_, by simp [hc], rfl⟩
      · left; rfl
    · left; rfl
  · left; rfl

theorem mesmaTela_atualizarUltimaVisualizacao (s : State) :
    MesmaTela s (atualizarUltimaVisualizacao s) := by
  rcases atualizarUltimaVisualizacao_cases s with h | ⟨i, _, h⟩ <;> rw [h]
  · exact MesmaTela.reflTela s
  · exact ⟨rfl, rfl, rfl, rfl, rfl, rfl, rfl, rfl⟩

theorem mesmaTela_aoAbrirModal_agendar (s : State) :
    MesmaTela s (aoAbrirModal_agendar s) := by
  unfold aoAbrirModal_agendar
  simp only
  repeat' split
  all_goals exact ⟨rfl, rfl, rfl, rfl, rfl, rfl, rfl, rfl⟩

theorem flagLimpa_atualizarUltimaVisualizacao {s : State} (h : FlagLimpa s) :
    FlagLimpa (atualizarUltimaVisualizacao s) := by
  rcases atualizarUltimaVisualizacao_cases s with h2 | ⟨i, _, h2⟩ <;> rw [h2]
  · exact h
  · exact ⟨h.1, by simp [salvarEstadoSistema, h.1]⟩

theorem flagLimpa_aoAbrirModal_agendar {s : State} (h : FlagLimpa s) :
    FlagLimpa (aoAbrirModal_agendar s) := by
  unfold aoAbrirModal_agendar
  simp only
  repeat' split
  all_goals exact h

theorem aoAbrirModal_indicador_some {s : State} {b : Indicador} (h : s.indicador = some b) :
    (aoAbrirModal_indicador s).modalAberto = s.modalAberto
    ∧ (aoAbrirModal_indicador s).indicador = some { visivel := false, pulso := false }
    ∧ FlagLimpa (aoAbrirModal_indicador s) := by
  simp [aoAbrirModal_indicador, h, salvarEstadoSistema, FlagLimpa]

theorem aoAbrirModal_indicador_none {s : State} (h : s.indicador = none) :
    aoAbrirModal_indicador s = s := by
  simp [aoAbrirModal_indicador, h]

end Helpbot

namespace Static

theorem renderizarHistorico_static_eq (lista : List Mensagem) :
    ∀ s : State, ∃ cm, renderizarHistorico lista s = { s with chatMessages := cm } := by
  induction lista with
  | nil => intro s; exact ⟨s.chatMessages, rfl⟩
  | cons m ms ih =>
    intro s
    obtain ⟨cm, h⟩ := ih
      (adicionarMensagemDOM m.mensagem m.remetente m.hora (some (idOuLocal m.id s.agora)) s)
    refine ⟨cm, ?_⟩
    simp only [renderizarHistorico, List.foldl_cons] at h ⊢
    rw [h]
    unfold adicionarMensagemDOM
    split <;> rfl

theorem aplicarHistorico_mensagens_static_eq (r : ResultadoHistorico) (s : State) :
    ∃ cm m ls u, aplicarHistorico_mensagens r s
      = { s with chatMessages := cm, ultimaMensagemVisualizadaId := m,
                 localStorage := ls, ultimaMensagemId := u } := by
  unfold aplicarHistorico_mensagens
  obtain ⟨cm, h⟩ := renderizarHistorico_static_eq r.mensagens
    { s with chatMessages := s.chatMessages.map (fun _ => []) }
  simp only [h]
  split
  · split
    · exact ⟨_, _, _, _, rfl⟩
    · exact ⟨_, _, _, _, rfl⟩
  · exact ⟨_, _, _, _, rfl⟩

theorem aplicarHistorico_resolvido_static_spec (s : State) :
    composicaoBloqueada (aplicarHistorico_resolvido s) = true
    ∧ (aplicarHistorico_resolvido s).intervaloAtualizacao = none
    ∧ (∀ h, s.intervaloAtualizacao = some h →
        ∀ p ∈ (aplicarHistorico_resolvido s).intervalos, p.1 ≠ h)
    ∧ (aplicarHistorico_resolvido s).localStorage.chamadoAtual = none
    ∧ (aplicarHistorico_resolvido s).chamadoAtual = s.chamadoAtual := by
  rcases hm : s.messageInput with _ | m <;>
  rcases ha : s.intervaloAtualizacao with _ | a <;>
  simp [aplicarHistorico_resolvido, pararAtualizacaoAutomatica, removerChamadoDoStorage,
    desativarChat, composicaoBloqueada, hm, ha, List.mem_filter]

end Static

namespace Helpbot

theorem renderizarHistorico_eq (lista : List Mensagem) :
    ∀ s : State, ∃ cm, renderizarHistorico lista s = { s with chatMessages := cm } := by
  induction lista with
  | nil => intro s; exact ⟨s.chatMessages, rfl⟩
  | cons m ms ih =>
    intro s
    obtain ⟨cm, h⟩ := ih
      (adicionarMensagemDOM m.mensagem m.remetente m.hora (some (idOuLocal m.id s.agora)) s)
    refine ⟨cm, ?_⟩
    simp only [renderizarHistorico, List.foldl_cons] at h ⊢
    rw [h]
    unfold adicionarMensagemDOM
    split <;> rfl

theorem aplicarHistorico_mensagens_eq (r : ResultadoHistorico) (s : State) :
    ∃ cm m ls u, aplicarHistorico_mensagens r s
      = { s with chatMessages := cm, ultimaMensagemVisualizadaId := m,
                 localStorage := ls, ultimaMensagemId := u } := by
  unfold aplicarHistorico_mensagens
  obtain ⟨cm, h⟩ := renderizarHistorico_eq r.mensagens
    { s with chatMessages := s.chatMessages.map (fun _ => []) }
  simp only [h]
  split
  · split
    · exact ⟨_, _, _, _, rfl⟩
    · exact ⟨_, _, _, _, rfl⟩
  · exact ⟨_, _, _, _, rfl⟩

theorem ocultarIndicadorResolvido_eq (s : State) :
    ∃ i, ocultarIndicadorResolvido s = { s with indicador := i } := by
  unfold ocultarIndicadorResolvido
  split
  · split
    · exact ⟨_, rfl⟩
    · exact ⟨s.indicador, rfl⟩
  · exact ⟨s.indicador, rfl⟩

theorem intervalosSemOsGuardados_ne (s : State) (h : Nat)
    (hh : s.intervaloAtualizacao = some h ∨ s.intervaloVerificacaoAutomatica = some h) :
    ∀ p ∈ intervalosSemOsGuardados s, p.1 ≠ h := by
  intro p hp
  unfold intervalosSemOsGuardados at hp
  rcases ha : s.intervaloAtualizacao with _ | a <;>
  rcases hv : s.intervaloVerificacaoAutomatica with _ | b <;>
  simp [ha, hv, List.mem_filter] at hp hh <;> aesop

theorem desativarChat_eq (s : State) :
    desativarChat s
      = { s with
          messageInput := s.messageInput.map (fun c =>
            { c with disabled := true, placeholder := "Chat finalizado - chamado resolvido" }),
          sendBtn := s.sendBtn.map (fun _ =>
            { innerHTML := "bi-check-circle", disabled := true }),
          intervalos := intervalosSemOsGuardados s,
          intervaloAtualizacao := none,
          intervaloVerificacaoAutomatica := none } := by
  unfold desativarChat
  rw [pararVerificacoesAutomaticas_eq, pararAtualizacaoAutomatica_eq]
  rfl

theorem aplicarHistorico_resolvido_eq (s : State) :
    ∃ i cm, aplicarHistorico_resolvido s
      = { s with
          messageInput := s.messageInput.map (fun c =>
            { c with disabled := true, placeholder := "Chat finalizado - chamado resolvido" }),
          sendBtn := s.sendBtn.map (fun _ =>
            { innerHTML := "bi-check-circle", disabled := true }),
          intervalos := intervalosSemOsGuardados s,
          intervaloAtualizacao := none,
          intervaloVerificacaoAutomatica := none,
          localStorage := Armazenamento.vazio,
          indicador := i,
          chatMessages := cm } := by
  unfold aplicarHistorico_resolvido
  obtain ⟨i, hi⟩ := ocultarIndicadorResolvido_eq (desativarChat s)
  rw [hi, pararVerificacoesAutomaticas_eq, pararAtualizacaoAutomatica_eq, desativarChat_eq]
  simp only [removerChamadoDoStorage]
  split
  · exact ⟨i, _, rfl⟩
  · exact ⟨i, s.chatMessages, rfl⟩

theorem aplicarHistorico_resolvido_spec (s : State) :
    (aplicarHistorico_resolvido s).messageInput.map CampoMensagem.disabled
        = s.messageInput.map (fun _ => true)
    ∧ (aplicarHistorico_resolvido s).sendBtn.map BotaoEnviar.disabled
        = s.sendBtn.map (fun _ => true)
    ∧ (aplicarHistorico_resolvido s).intervaloAtualizacao = none
    ∧ (aplicarHistorico_resolvido s).intervaloVerificacaoAutomatica = none
    ∧ (∀ h, s.intervaloAtualizacao = some h ∨ s.intervaloVerificacaoAutomatica = some h →
        ∀ p ∈ (aplicarHistorico_resolvido s).intervalos, p.1 ≠ h)
    ∧ (aplicarHistorico_resolvido s).localStorage = Armazenamento.vazio := by
  obtain ⟨i, cm, h⟩ := aplicarHistorico_resolvido_eq s
  rw [h]
  refine ⟨?_, ?_, rfl, rfl, ?_, rfl⟩
  · cases s.messageInput <;> rfl
  · cases s.sendBtn <;> rfl
  · intro a ha
    exact intervalosSemOsGuardados_ne s a ha

end Helpbot


namespace Helpbot

theorem Quieto.reflQuieto (s : State) : Quieto s s := fun h => ⟨h, rfl⟩

theorem Quieto.transQuieto {a b c : State} (h1 : Quieto a b) (h2 : Quieto b c) : Quieto a c :=
  fun h => ⟨(h2 (h1 h).1).1, (h2 (h1 h).1).2.trans (h1 h).2⟩

theorem quieto_of_fields {s t : State} (h1 : t.chamadoAtual = s.chamadoAtual)
    (h2 : t.localStorage.chamadoAtual = s.localStorage.chamadoAtual)
    (h3 : t.pedidos = s.pedidos) : Quieto s t :=
  fun h => ⟨⟨h1.trans h.1, h2.trans h.2⟩, h3⟩

theorem quieto_setTimeout (ms : Nat) (t : Tarefa) (s : State) : Quieto s (setTimeout ms t s) :=
  quieto_of_fields rfl rfl rfl

theorem quieto_pararAtualizacaoAutomatica (s : State) :
    Quieto s (pararAtualizacaoAutomatica s) := by
  rw [pararAtualizacaoAutomatica_eq]; exact quieto_of_fields rfl rfl rfl

theorem quieto_pararVerificacoesAutomaticas (s : State) :
    Quieto s (pararVerificacoesAutomaticas s) := by
  rw [pararVerificacoesAutomaticas_eq]; exact quieto_of_fields rfl rfl rfl

theorem quieto_iniciarAtualizacaoAutomatica (s : State) :
    Quieto s (iniciarAtualizacaoAutomatica s) := by
  unfold iniciarAtualizacaoAutomatica setInterval
  rw [pararAtualizacaoAutomatica_eq]; exact quieto_of_fields rfl rfl rfl

theorem quieto_iniciarVerificacoesAutomaticas (s : State) :
    Quieto s (iniciarVerificacoesAutomaticas s) := by
  unfold iniciarVerificacoesAutomaticas setInterval
  rw [pararVerificacoesAutomaticas_eq]; exact quieto_of_fields rfl rfl rfl

theorem semChamado_resetarEstadoSistema (s : State) : SemChamado (resetarEstadoSistema s) := by
  unfold resetarEstadoSistema
  rw [pararVerificacoesAutomaticas_eq, pararAtualizacaoAutomatica_eq]
  exact ⟨rfl, rfl⟩

theorem quieto_resetarEstadoSistema (s : State) : Quieto s (resetarEstadoSistema s) :=
  fun _ => ⟨semChamado_resetarEstadoSistema s, (mesmaTela_resetarEstadoSistema s).pedidos⟩

theorem quieto_salvarEstadoSistema (s : State) : Quieto s (salvarEstadoSistema s) := by
  intro h
  refine ⟨⟨h.1, ?_⟩, rfl⟩
  simp [salvarEstadoSistema, h.1, h.2]

theorem quieto_salvarEstadoSistema_de (s x : State) (h1 : x.chamadoAtual = s.chamadoAtual)
    (h2 : x.localStorage.chamadoAtual = s.localStorage.chamadoAtual)
    (h3 : x.pedidos = s.pedidos) : Quieto s (salvarEstadoSistema x) :=
  (quieto_of_fields h1 h2 h3).transQuieto (quieto_salvarEstadoSistema x)

theorem quieto_mostrarIndicadorNovasMensagens (s : State) :
    Quieto s (mostrarIndicadorNovasMensagens s) := by
  unfold mostrarIndicadorNovasMensagens
  split
  · split
    · exact quieto_of_fields rfl rfl rfl
    · exact Quieto.reflQuieto s
  · exact Quieto.reflQuieto s

theorem quieto_carregarEstadoAtual_chamado {s t : State}
    (h : carregarEstadoAtual_chamado s = some t) : Quieto s t := by
  intro hs
  unfold carregarEstadoAtual_chamado at h
  rw [hs.2] at h
  cases h
  exact ⟨hs, rfl⟩

theorem quieto_carregarEstadoAtual_visualizacao {s t : State}
    (h : carregarEstadoAtual_visualizacao s = some t) : Quieto s t := by
  unfold carregarEstadoAtual_visualizacao at h
  split at h <;> first
    | (cases h; exact quieto_of_fields rfl rfl rfl)
    | cases h

theorem quieto_carregarEstadoAtual_indicador (s : State) :
    Quieto s (carregarEstadoAtual_indicador s) := by
  unfold carregarEstadoAtual_indicador
  simp only
  repeat' split
  all_goals exact quieto_of_fields rfl rfl rfl

theorem quieto_carregarEstadoAtual (s : State) : Quieto s (carregarEstadoAtual s) := by
  rcases carregarEstadoAtual_cases s with ⟨_, h⟩ | ⟨s1, h1, _, h⟩ | ⟨s1, s2, h1, h2, h⟩
  · rw [h]; exact quieto_resetarEstadoSistema s
  · rw [h]
    exact (quieto_carregarEstadoAtual_chamado h1).transQuieto (quieto_resetarEstadoSistema s1)
  · rw [h]
    exact ((quieto_carregarEstadoAtual_chamado h1).transQuieto
      (quieto_carregarEstadoAtual_visualizacao h2)).transQuieto
      (quieto_carregarEstadoAtual_indicador s2)

theorem quieto_atualizarUltimaVisualizacao (s : State) :
    Quieto s (atualizarUltimaVisualizacao s) := by
  intro hs
  rcases atualizarUltimaVisualizacao_cases s with h | ⟨i, hc, _⟩
  · rw [h]; exact ⟨hs, rfl⟩
  · rw [hs.1] at hc; cases hc

theorem adicionarTodas_eq_chatMessages (lista : List Mensagem) :
    ∀ s : State, ∃ cm, adicionarTodas lista s = { s with chatMessages := cm } := by
  induction lista with
  | nil => intro s; exact ⟨s.chatMessages, rfl⟩
  | cons m ms ih =>
    intro s
    obtain ⟨cm, h⟩ := ih (adicionarMensagemDOM m.mensagem m.remetente m.hora m.id s)
    refine ⟨cm, ?_⟩
    simp only [adicionarTodas, List.foldl_cons] at h ⊢
    rw [h]
    unfold adicionarMensagemDOM
    split <;> rfl

theorem quieto_adicionarTodas (lista : List Mensagem) (s : State) :
    Quieto s (adicionarTodas lista s) := by
  obtain ⟨cm, h⟩ := adicionarTodas_eq_chatMessages lista s
  rw [h]; exact quieto_of_fields rfl rfl rfl

theorem quieto_ocultarIndicadorResolvido (s : State) :
    Quieto s (ocultarIndicadorResolvido s) := by
  obtain ⟨i, h⟩ := ocultarIndicadorResolvido_eq s
  rw [h]; exact quieto_of_fields rfl rfl rfl

theorem quieto_desativarChat (s : State) : Quieto s (desativarChat s) := by
  rw [desativarChat_eq]; exact quieto_of_fields rfl rfl rfl

theorem quieto_aplicarVerificacao_fechado (r : ResultadoVerificacao) (s : State) :
    Quieto s (aplicarVerificacao_fechado r s) := by
  unfold aplicarVerificacao_fechado
  refine Quieto.transQuieto ?_ (quieto_mostrarIndicadorNovasMensagens _)
  exact quieto_salvarEstadoSistema_de s _ rfl rfl rfl

theorem quieto_aplicarVerificacao_aberto (r : ResultadoVerificacao) (s : State) :
    Quieto s (aplicarVerificacao_aberto r s) := by
  unfold aplicarVerificacao_aberto
  exact (quieto_adicionarTodas _ _).transQuieto (quieto_atualizarUltimaVisualizacao _)

theorem quieto_aplicarVerificacao_novas (r : ResultadoVerificacao) (s : State) :
    Quieto s (aplicarVerificacao_novas r s) := by
  unfold aplicarVerificacao_novas
  cases hm : s.modalAberto with
  | true =>
    simp only [hm, Bool.not_true, Bool.false_eq_true, if_false, if_true]
    exact quieto_aplicarVerificacao_aberto r s
  | false =>
    simp only [Bool.not_false, if_true]
    split
    · exact (quieto_aplicarVerificacao_fechado r s).transQuieto (quieto_aplicarVerificacao_aberto r _)
    · exact quieto_aplicarVerificacao_fechado r s

theorem quieto_aplicarVerificacao_resolvido (s : State) :
    Quieto s (aplicarVerificacao_resolvido s) := by
  unfold aplicarVerificacao_resolvido
  exact ((quieto_ocultarIndicadorResolvido s).transQuieto (quieto_desativarChat _)).transQuieto
    (quieto_resetarEstadoSistema _)

theorem quieto_aplicarVerificacao_semNovas (r : ResultadoVerificacao) (s : State) :
    Quieto s (aplicarVerificacao_semNovas r s) := by
  unfold aplicarVerificacao_semNovas
  split
  · exact quieto_salvarEstadoSistema_de s _ rfl rfl rfl
  · exact Quieto.reflQuieto s

theorem quieto_aplicarVerificacao (r : ResultadoVerificacao) (s : State) :
    Quieto s (aplicarVerificacao r s) := by
  unfold aplicarVerificacao
  split
  · exact quieto_aplicarVerificacao_resolvido s
  · split
    · exact quieto_aplicarVerificacao_novas r s
    · exact quieto_aplicarVerificacao_semNovas r s

theorem quieto_verificarNovasMensagensInteligente_resposta (f : Fetch ResultadoVerificacao)
    (s : State) : Quieto s (verificarNovasMensagensInteligente_resposta f s) := by
  unfold verificarNovasMensagensInteligente_resposta
  split
  · exact Quieto.reflQuieto s
  · exact Quieto.reflQuieto s
  · exact Quieto.reflQuieto s
  · split
    · exact quieto_aplicarVerificacao _ s
    · exact Quieto.reflQuieto s

theorem verificarNovasMensagensInteligente_inicio_semChamado {s : State} (h : SemChamado s) :
    verificarNovasMensagensInteligente_inicio s = (carregarEstadoAtual s, none) := by
  have hc := (quieto_carregarEstadoAtual s h).1.1
  unfold verificarNovasMensagensInteligente_inicio
  simp only [hc]

theorem quieto_verificarNovasMensagensInteligente_inicio (s : State) :
    Quieto s (verificarNovasMensagensInteligente_inicio s).1 := by
  intro h
  rw [verificarNovasMensagensInteligente_inicio_semChamado h]
  exact quieto_carregarEstadoAtual s h

theorem verificarNotificacoesAutomaticas_inicio_semChamado {s : State} (h : SemChamado s) :
    verificarNotificacoesAutomaticas_inicio s = (s, none) := by
  unfold verificarNotificacoesAutomaticas_inicio
  simp only [h.1]

theorem quieto_verificarNotificacoesAutomaticas_inicio (s : State) :
    Quieto s (verificarNotificacoesAutomaticas_inicio s).1 := by
  intro h
  rw [verificarNotificacoesAutomaticas_inicio_semChamado h]
  exact ⟨h, rfl⟩

theorem quieto_verificarNotificacoesAutomaticas_resposta (f : Fetch ResultadoNotificacoes)
    (s : State) : Quieto s (verificarNotificacoesAutomaticas_resposta f s) := by
  unfold verificarNotificacoesAutomaticas_resposta
  repeat' split
  all_goals first
    | exact quieto_mostrarIndicadorNovasMensagens s
    | exact Quieto.reflQuieto s

theorem quieto_aoAbrirModal (s : State) : Quieto s (aoAbrirModal s) := by
  unfold aoAbrirModal
  have h0 : Quieto s { s with modalAberto := true } := quieto_of_fields rfl rfl rfl
  have h1 := quieto_carregarEstadoAtual { s with modalAberto := true }
  have h2 : ∀ x : State, Quieto x (aoAbrirModal_indicador x) := by
    intro x
    unfold aoAbrirModal_indicador
    split
    · exact quieto_salvarEstadoSistema_de x _ rfl rfl rfl
    · exact Quieto.reflQuieto x
  have h4 : ∀ x : State, Quieto x (aoAbrirModal_agendar x) := by
    intro x
    unfold aoAbrirModal_agendar
    simp only
    repeat' split
    all_goals exact quieto_of_fields rfl rfl rfl
  exact (((h0.transQuieto h1).transQuieto (h2 _)).transQuieto (quieto_atualizarUltimaVisualizacao _)).transQuieto (h4 _)

theorem quieto_aoFecharModal (s : State) : Quieto s (aoFecharModal s) := by
  unfold aoFecharModal
  have h0 : Quieto s { s with modalAberto := false } := quieto_of_fields rfl rfl rfl
  have h1 := (h0.transQuieto (quieto_atualizarUltimaVisualizacao _)).transQuieto
    (quieto_salvarEstadoSistema _)
  simp only
  split
  · exact h1.transQuieto (quieto_setTimeout _ _ _)
  · exact h1

theorem quieto_aoCarregarPagina (s : State) : Quieto s (aoCarregarPagina s) := by
  unfold aoCarregarPagina
  split
  · exact Quieto.reflQuieto s
  · have h0 : Quieto s { s with sistemaInicializado := true } := quieto_of_fields rfl rfl rfl
    have h1 := h0.transQuieto (quieto_carregarEstadoAtual _)
    simp only
    split
    · exact h1.transQuieto (quieto_of_fields rfl rfl rfl)
    · exact h1

theorem quieto_reiniciarSistemaAtualizacao (s : State) :
    Quieto s (reiniciarSistemaAtualizacao s) := by
  have h1 := ((quieto_pararAtualizacaoAutomatica s).transQuieto
    (quieto_pararVerificacoesAutomaticas _)).transQuieto (quieto_carregarEstadoAtual _)
  unfold reiniciarSistemaAtualizacao
  simp only
  split
  · exact ((h1.transQuieto (quieto_iniciarAtualizacaoAutomatica _)).transQuieto
      (quieto_iniciarVerificacoesAutomaticas _)).transQuieto (quieto_setTimeout _ _ _)
  · exact h1

theorem quieto_tarefaCarregarChamadoSalvo (s : State) :
    Quieto s (tarefaCarregarChamadoSalvo s).1 := by
  intro h
  have e : carregarChamadoSalvo_inicio s = (s, none) := by
    unfold carregarChamadoSalvo_inicio
    rw [h.2]
  have e2 : aposCarregarChamadoSalvo s = s := by
    unfold aposCarregarChamadoSalvo
    simp [h.1]
  have e3 : (tarefaCarregarChamadoSalvo s).1 = s := by
    simp only [tarefaCarregarChamadoSalvo, e, e2]
  rw [e3]
  exact ⟨h, rfl⟩

theorem quieto_executar (op : Operacao) (hop : op.local = true) (s : State) :
    Quieto s (executar op s) := by
  cases op with
  | eventoStorage e => cases hop
  | respostaChamadoSalvo c f => cases hop
  | carregarChamadoSalvo => exact quieto_tarefaCarregarChamadoSalvo s
  | carregarPagina => exact quieto_aoCarregarPagina s
  | carregarEstadoAtual => exact quieto_carregarEstadoAtual s
  | salvarEstadoSistema => exact quieto_salvarEstadoSistema s
  | resetarEstadoSistema => exact quieto_resetarEstadoSistema s
  | mostrarIndicadorNovasMensagens => exact quieto_mostrarIndicadorNovasMensagens s
  | verificarNovasMensagensInteligente => exact quieto_verificarNovasMensagensInteligente_inicio s
  | respostaVerificacao f => exact quieto_verificarNovasMensagensInteligente_resposta f s
  | verificarNotificacoesAutomaticas => exact quieto_verificarNotificacoesAutomaticas_inicio s
  | respostaNotificacoes f => exact quieto_verificarNotificacoesAutomaticas_resposta f s
  | abrirModal =>
    show Quieto s (if s.chatModalInstance = true then aoAbrirModal s else s)
    split
    · exact quieto_aoAbrirModal s
    · exact Quieto.reflQuieto s
  | fecharModal =>
    show Quieto s (if s.chatModalInstance = true then aoFecharModal s else s)
    split
    · exact quieto_aoFecharModal s
    · exact Quieto.reflQuieto s
  | tickVerificacaoMensagens =>
    show Quieto s (tickVerificacaoMensagens s).1
    unfold tickVerificacaoMensagens
    split
    · exact quieto_verificarNovasMensagensInteligente_inicio s
    · exact Quieto.reflQuieto s
  | tickSegundoPlano =>
    show Quieto s (tickSegundoPlano s).1
    unfold tickSegundoPlano
    split
    · exact quieto_verificarNotificacoesAutomaticas_inicio s
    · exact Quieto.reflQuieto s
  | continuacaoSegundoPlano f =>
    exact (quieto_verificarNotificacoesAutomaticas_resposta f s).transQuieto
      (quieto_verificarNovasMensagensInteligente_inicio _)
  | tickRefreshDados => exact Quieto.reflQuieto s
  | reiniciarSistemaAtualizacao => exact quieto_reiniciarSistemaAtualizacao s
  | iniciarAtualizacaoAutomatica => exact quieto_iniciarAtualizacaoAutomatica s
  | relogio n => exact quieto_of_fields rfl rfl rfl

theorem quieto_executarTodas (ops : List Operacao) :
    ∀ s : State, (∀ op ∈ ops, op.local = true) → Quieto s (executarTodas ops s) := by
  induction ops with
  | nil => intro s _; exact Quieto.reflQuieto s
  | cons op rest ih =>
    intro s h
    have h1 := quieto_executar op (h op (by simp)) s
    have h2 := ih (executar op s) (fun o ho => h o (by simp [ho]))
    simpa [executarTodas] using h1.transQuieto h2

end Helpbot

namespace Helpbot

theorem Discreto.reflDiscreto (s : State) : Discreto s s := ⟨rfl, Or.inl rfl⟩

theorem Discreto.transDiscreto {a b c : State} (h1 : Discreto a b) (h2 : Discreto b c) :
    Discreto a c := by
  refine ⟨h2.1.trans h1.1, ?_⟩
  rcases h2.2 with h | h | h
  · rcases h1.2 with g | g | g
    · exact Or.inl (h.trans g)
    · right; left
      simpa [indicadorVisivel, h] using g
    · right; right
      exact h2.1.trans g
  · exact Or.inr (Or.inl h)
  · exact Or.inr (Or.inr h)

theorem Discreto.preserva {s t : State} (h : Discreto s t)
    (hs : IndicadorSoComModalFechado s) : IndicadorSoComModalFechado t := by
  intro hv
  rcases h.2 with g | g | g
  · rw [h.1]
    apply hs
    simpa [indicadorVisivel, g] using hv
  · rw [g] at hv; cases hv
  · exact g

theorem discreto_of_fields {s t : State} (h1 : t.modalAberto = s.modalAberto)
    (h2 : t.indicador = s.indicador) : Discreto s t := ⟨h1, Or.inl h2⟩

theorem MesmaTela.discreto {s t : State} (h : MesmaTela s t) : Discreto s t :=
  discreto_of_fields h.modalAberto h.indicador

theorem discreto_mostrarIndicadorNovasMensagens (s : State) :
    Discreto s (mostrarIndicadorNovasMensagens s) := by
  unfold mostrarIndicadorNovasMensagens
  split
  · split
    · rename_i h
      exact ⟨rfl, Or.inr (Or.inr (by simpa using h))⟩
    · exact Discreto.reflDiscreto s
  · exact Discreto.reflDiscreto s

theorem discreto_ocultarIndicadorResolvido (s : State) :
    Discreto s (ocultarIndicadorResolvido s) := by
  unfold ocultarIndicadorResolvido
  split
  · split
    · exact ⟨rfl, Or.inr (Or.inl rfl)⟩
    · exact Discreto.reflDiscreto s
  · exact Discreto.reflDiscreto s

theorem discreto_desativarChat (s : State) : Discreto s (desativarChat s) := by
  rw [desativarChat_eq]; exact discreto_of_fields rfl rfl

theorem discreto_adicionarTodas (lista : List Mensagem) (s : State) :
    Discreto s (adicionarTodas lista s) := by
  obtain ⟨cm, h⟩ := adicionarTodas_eq_chatMessages lista s
  rw [h]; exact discreto_of_fields rfl rfl

theorem discreto_aplicarVerificacao_fechado (r : ResultadoVerificacao) (s : State) :
    Discreto s (aplicarVerificacao_fechado r s) := by
  unfold aplicarVerificacao_fechado
  refine Discreto.transDiscreto ?_ (discreto_mostrarIndicadorNovasMensagens _)
  exact discreto_of_fields rfl rfl

theorem discreto_aplicarVerificacao_aberto (r : ResultadoVerificacao) (s : State) :
    Discreto s (aplicarVerificacao_aberto r s) := by
  unfold aplicarVerificacao_aberto
  exact (discreto_adicionarTodas _ _).transDiscreto (mesmaTela_atualizarUltimaVisualizacao _).discreto

theorem discreto_aplicarVerificacao_novas (r : ResultadoVerificacao) (s : State) :
    Discreto s (aplicarVerificacao_novas r s) := by
  unfold aplicarVerificacao_novas
  cases hm : s.modalAberto with
  | true =>
    simp only [hm, Bool.not_true, Bool.false_eq_true, if_false, if_true]
    exact discreto_aplicarVerificacao_aberto r s
  | false =>
    simp only [Bool.not_false, if_true]
    split
    · exact (discreto_aplicarVerificacao_fechado r s).transDiscreto
        (discreto_aplicarVerificacao_aberto r _)
    · exact discreto_aplicarVerificacao_fechado r s

theorem discreto_aplicarVerificacao (r : ResultadoVerificacao) (s : State) :
    Discreto s (aplicarVerificacao r s) := by
  unfold aplicarVerificacao
  split
  · unfold aplicarVerificacao_resolvido
    exact ((discreto_ocultarIndicadorResolvido s).transDiscreto (discreto_desativarChat _)).transDiscreto
      (mesmaTela_resetarEstadoSistema _).discreto
  · split
    · exact discreto_aplicarVerificacao_novas r s
    · unfold aplicarVerificacao_semNovas
      split
      · exact discreto_of_fields rfl rfl
      · exact Discreto.reflDiscreto s

theorem discreto_verificarNovasMensagensInteligente_resposta
    (f : Fetch ResultadoVerificacao) (s : State) :
    Discreto s (verificarNovasMensagensInteligente_resposta f s) := by
  unfold verificarNovasMensagensInteligente_resposta
  split
  · exact Discreto.reflDiscreto s
  · exact Discreto.reflDiscreto s
  · exact Discreto.reflDiscreto s
  · split
    · exact discreto_aplicarVerificacao _ s
    · exact Discreto.reflDiscreto s

theorem discreto_verificarNovasMensagensInteligente_inicio (s : State) :
    Discreto s (verificarNovasMensagensInteligente_inicio s).1 := by
  have h := (mesmaTela_carregarEstadoAtual s).discreto
  unfold verificarNovasMensagensInteligente_inicio
  simp only
  split
  · exact h
  · exact h.transDiscreto (discreto_of_fields rfl rfl)

theorem discreto_verificarNotificacoesAutomaticas_inicio (s : State) :
    Discreto s (verificarNotificacoesAutomaticas_inicio s).1 := by
  unfold verificarNotificacoesAutomaticas_inicio
  split
  · exact Discreto.reflDiscreto s
  · exact discreto_of_fields rfl rfl

theorem discreto_verificarNotificacoesAutomaticas_resposta (f : Fetch ResultadoNotificacoes)
    (s : State) : Discreto s (verificarNotificacoesAutomaticas_resposta f s) := by
  unfold verificarNotificacoesAutomaticas_resposta
  repeat' split
  all_goals first
    | exact discreto_mostrarIndicadorNovasMensagens s
    | exact Discreto.reflDiscreto s

theorem discreto_reiniciarSistemaAtualizacao (s : State) :
    Discreto s (reiniciarSistemaAtualizacao s) := by
  have h1 := ((mesmaTela_pararAtualizacaoAutomatica s).transTela
    (mesmaTela_pararVerificacoesAutomaticas _)).transTela (mesmaTela_carregarEstadoAtual _)
  unfold reiniciarSistemaAtualizacao
  simp only
  split
  · exact (((h1.transTela (mesmaTela_iniciarAtualizacaoAutomatica _)).transTela
      (mesmaTela_iniciarVerificacoesAutomaticas _)).transTela (mesmaTela_setTimeout _ _ _)).discreto
  · exact h1.discreto

theorem discreto_outraAbaEscreve (e : EventoStorage) (s : State) :
    Discreto s (outraAbaEscreve e s) := by
  cases e <;> exact discreto_of_fields rfl rfl

theorem discreto_aoEventoStorage (e : EventoStorage) (s : State) :
    Discreto s (aoEventoStorage e s) := by
  unfold aoEventoStorage
  repeat' split
  all_goals first
    | exact Discreto.reflDiscreto s
    | exact discreto_mostrarIndicadorNovasMensagens s
    | exact discreto_of_fields rfl rfl
    | (refine Discreto.transDiscreto ?_ (discreto_reiniciarSistemaAtualizacao _)
       exact discreto_of_fields rfl rfl)

theorem discreto_aoCarregarPagina (s : State) : Discreto s (aoCarregarPagina s) := by
  unfold aoCarregarPagina
  split
  · exact Discreto.reflDiscreto s
  · have h1 : Discreto s (carregarEstadoAtual { s with sistemaInicializado := true }) := by
      refine Discreto.transDiscreto ?_ (mesmaTela_carregarEstadoAtual _).discreto
      exact discreto_of_fields rfl rfl
    simp only
    split
    · exact h1.transDiscreto (discreto_of_fields rfl rfl)
    · exact h1

theorem mesmaTela_aposCarregarChamadoSalvo (s : State) :
    MesmaTela s (aposCarregarChamadoSalvo s) := by
  unfold aposCarregarChamadoSalvo
  split
  · exact ((mesmaTela_iniciarAtualizacaoAutomatica s).transTela
      (mesmaTela_iniciarVerificacoesAutomaticas _)).transTela (mesmaTela_setTimeout _ _ _)
  · exact MesmaTela.reflTela s

theorem discreto_carregarChamadoSalvo_inicio (s : State) :
    Discreto s (carregarChamadoSalvo_inicio s).1 := by
  unfold carregarChamadoSalvo_inicio
  split
  · exact Discreto.reflDiscreto s
  · exact (mesmaTela_resetarEstadoSistema s).discreto
  · exact (mesmaTela_resetarEstadoSistema s).discreto
  · exact discreto_of_fields rfl rfl

theorem discreto_tarefaCarregarChamadoSalvo (s : State) :
    Discreto s (tarefaCarregarChamadoSalvo s).1 := by
  have h := discreto_carregarChamadoSalvo_inicio s
  unfold tarefaCarregarChamadoSalvo
  split
  · exact h
  · exact h.transDiscreto (mesmaTela_aposCarregarChamadoSalvo _).discreto

theorem discreto_carregarChamadoSalvo_visualizacao {c : Chamado} {s t : State}
    (h : carregarChamadoSalvo_visualizacao c s = some t) : Discreto s t := by
  unfold carregarChamadoSalvo_visualizacao at h
  split at h
  · cases h; exact discreto_of_fields rfl rfl
  · cases h
  · cases h
  · split at h <;> (cases h; exact discreto_of_fields rfl rfl)

theorem discreto_carregarChamadoSalvo_resposta (c : Chamado) (f : Fetch ResultadoHistorico)
    (s : State) : Discreto s (carregarChamadoSalvo_resposta c f s) := by
  have hr := (mesmaTela_resetarEstadoSistema s).discreto
  unfold carregarChamadoSalvo_resposta
  split
  · exact hr
  · exact hr
  · exact hr
  · split
    · split
      · exact hr
      · split
        · refine Discreto.transDiscreto ?_ (mesmaTela_resetarEstadoSistema _).discreto
          exact discreto_of_fields rfl rfl
        · rename_i s1 h1
          exact (discreto_carregarChamadoSalvo_visualizacao h1).transDiscreto
            (mesmaTela_setTimeout _ _ _).discreto
    · exact hr

/-- After the `shown.bs.modal` listener the modal counts as open, the badge is hidden, and
on a page with the badge element the unread flag is cleared in memory and in storage. -/
theorem aoAbrirModal_spec (s : State) :
    (aoAbrirModal s).modalAberto = true
    ∧ indicadorVisivel (aoAbrirModal s) = false
    ∧ (s.indicador.isSome = true → FlagLimpa (aoAbrirModal s)) := by
  have m1 := mesmaTela_carregarEstadoAtual { s with modalAberto := true }
  have m3 := (mesmaTela_atualizarUltimaVisualizacao _).transTela
    (mesmaTela_aoAbrirModal_agendar (atualizarUltimaVisualizacao
      (aoAbrirModal_indicador (carregarEstadoAtual { s with modalAberto := true }))))
  change MesmaTela _ (aoAbrirModal s) at m3
  have hfl : FlagLimpa (aoAbrirModal_indicador
      (carregarEstadoAtual { s with modalAberto := true })) →
      FlagLimpa (aoAbrirModal s) := fun h3 =>
    flagLimpa_aoAbrirModal_agendar (flagLimpa_atualizarUltimaVisualizacao h3)
  generalize carregarEstadoAtual { s with modalAberto := true } = s1 at m1 m3 hfl
  have hmod : s1.modalAberto = true := m1.modalAberto
  have hind : s1.indicador = s.indicador := m1.indicador
  cases hi : s1.indicador with
  | none =>
    rw [aoAbrirModal_indicador_none hi] at m3
    refine ⟨m3.modalAberto.trans hmod, ?_, ?_⟩
    · simp [indicadorVisivel, m3.indicador, hi]
    · intro hs
      rw [← hind, hi] at hs
      cases hs
  | some b =>
    obtain ⟨h1, h2, h3⟩ := aoAbrirModal_indicador_some hi
    refine ⟨(m3.modalAberto.trans h1).trans hmod, ?_, ?_⟩
    · simp [indicadorVisivel, m3.indicador, h2]
    · intro _
      exact hfl h3

theorem aoFecharModal_modalAberto (s : State) : (aoFecharModal s).modalAberto = false := by
  have h1 := (mesmaTela_atualizarUltimaVisualizacao { s with modalAberto := false }).transTela
    (mesmaTela_salvarEstadoSistema _)
  unfold aoFecharModal
  simp only
  split
  · exact (h1.transTela (mesmaTela_setTimeout _ _ _)).modalAberto
  · exact h1.modalAberto

theorem indicadorSoComModalFechado_executar (op : Operacao) (s : State)
    (hs : IndicadorSoComModalFechado s) : IndicadorSoComModalFechado (executar op s) := by
  cases op with
  | carregarPagina => exact (discreto_aoCarregarPagina s).preserva hs
  | carregarEstadoAtual => exact (mesmaTela_carregarEstadoAtual s).discreto.preserva hs
  | salvarEstadoSistema => exact (mesmaTela_salvarEstadoSistema s).discreto.preserva hs
  | resetarEstadoSistema => exact (mesmaTela_resetarEstadoSistema s).discreto.preserva hs
  | mostrarIndicadorNovasMensagens => exact (discreto_mostrarIndicadorNovasMensagens s).preserva hs
  | verificarNovasMensagensInteligente =>
    exact (discreto_verificarNovasMensagensInteligente_inicio s).preserva hs
  | respostaVerificacao f =>
    exact (discreto_verificarNovasMensagensInteligente_resposta f s).preserva hs
  | verificarNotificacoesAutomaticas =>
    exact (discreto_verificarNotificacoesAutomaticas_inicio s).preserva hs
  | respostaNotificacoes f =>
    exact (discreto_verificarNotificacoesAutomaticas_resposta f s).preserva hs
  | eventoStorage e =>
    show IndicadorSoComModalFechado
      (if s.sistemaInicializado = true then aoEventoStorage e (outraAbaEscreve e s)
       else outraAbaEscreve e s)
    split
    · exact ((discreto_outraAbaEscreve e s).transDiscreto (discreto_aoEventoStorage e _)).preserva hs
    · exact (discreto_outraAbaEscreve e s).preserva hs
  | abrirModal =>
    show IndicadorSoComModalFechado (if s.chatModalInstance = true then aoAbrirModal s else s)
    split
    · intro hv
      rw [(aoAbrirModal_spec s).2.1] at hv
      cases hv
    · exact hs
  | fecharModal =>
    show IndicadorSoComModalFechado (if s.chatModalInstance = true then aoFecharModal s else s)
    split
    · intro _
      exact aoFecharModal_modalAberto s
    · exact hs
  | tickVerificacaoMensagens =>
    show IndicadorSoComModalFechado (tickVerificacaoMensagens s).1
    unfold tickVerificacaoMensagens
    split
    · exact (discreto_verificarNovasMensagensInteligente_inicio s).preserva hs
    · exact hs
  | tickSegundoPlano =>
    show IndicadorSoComModalFechado (tickSegundoPlano s).1
    unfold tickSegundoPlano
    split
    · exact (discreto_verificarNotificacoesAutomaticas_inicio s).preserva hs
    · exact hs
  | continuacaoSegundoPlano f =>
    exact ((discreto_verificarNotificacoesAutomaticas_resposta f s).transDiscreto
      (discreto_verificarNovasMensagensInteligente_inicio _)).preserva hs
  | tickRefreshDados => exact hs
  | reiniciarSistemaAtualizacao => exact (discreto_reiniciarSistemaAtualizacao s).preserva hs
  | carregarChamadoSalvo => exact (discreto_tarefaCarregarChamadoSalvo s).preserva hs
  | respostaChamadoSalvo c f =>
    exact ((discreto_carregarChamadoSalvo_resposta c f s).transDiscreto
      (mesmaTela_aposCarregarChamadoSalvo _).discreto).preserva hs
  | iniciarAtualizacaoAutomatica =>
    exact (mesmaTela_iniciarAtualizacaoAutomatica s).discreto.preserva hs
  | relogio n =>
    have h : Discreto s { s with agora := n } := discreto_of_fields rfl rfl
    exact h.preserva hs

theorem indicadorSoComModalFechado_executarTodas (ops : List Operacao) :
    ∀ s : State, IndicadorSoComModalFechado s →
      IndicadorSoComModalFechado (executarTodas ops s) := by
  induction ops with
  | nil => intro s h; exact h
  | cons op rest ih =>
    intro s h
    exact ih (executar op s) (indicadorSoComModalFechado_executar op s h)

end Helpbot

namespace Helpbot

/-! ### The session fields under the timer routines -/

theorem MesmaSessao.reflSessao (s : State) : MesmaSessao s s := ⟨rfl, rfl, rfl, rfl⟩

theorem MesmaSessao.transSessao {a b c : State} (h1 : MesmaSessao a b) (h2 : MesmaSessao b c) :
    MesmaSessao a c :=
  ⟨h2.chamadoAtual.trans h1.chamadoAtual,
   h2.ultimaMensagemVisualizadaId.trans h1.ultimaMensagemVisualizadaId,
   h2.localStorage.trans h1.localStorage, h2.pedidos.trans h1.pedidos⟩

theorem mesmaSessao_pararAtualizacaoAutomatica (s : State) :
    MesmaSessao s (pararAtualizacaoAutomatica s) := by
  rw [pararAtualizacaoAutomatica_eq]; exact ⟨rfl, rfl, rfl, rfl⟩

theorem mesmaSessao_pararVerificacoesAutomaticas (s : State) :
    MesmaSessao s (pararVerificacoesAutomaticas s) := by
  rw [pararVerificacoesAutomaticas_eq]; exact ⟨rfl, rfl, rfl, rfl⟩

theorem mesmaSessao_iniciarAtualizacaoAutomatica (s : State) :
    MesmaSessao s (iniciarAtualizacaoAutomatica s) := by
  unfold iniciarAtualizacaoAutomatica setInterval
  rw [pararAtualizacaoAutomatica_eq]; exact ⟨rfl, rfl, rfl, rfl⟩

theorem mesmaSessao_iniciarVerificacoesAutomaticas (s : State) :
    MesmaSessao s (iniciarVerificacoesAutomaticas s) := by
  unfold iniciarVerificacoesAutomaticas setInterval
  rw [pararVerificacoesAutomaticas_eq]; exact ⟨rfl, rfl, rfl, rfl⟩

theorem mesmaSessao_carregarEstadoAtual_indicador (s : State) :
    MesmaSessao s (carregarEstadoAtual_indicador s) := by
  unfold carregarEstadoAtual_indicador
  simp only
  split <;> split <;> exact ⟨rfl, rfl, rfl, rfl⟩

/-- With a readable ticket and a readable record in storage, `carregarEstadoAtual` takes
both over. -/
theorem carregarEstadoAtual_guardado {s : State} {c : Chamado} {e : EstadoVisualizacao}
    (hc : s.localStorage.chamadoAtual = some (Guardado.valor c))
    (he : s.localStorage.ultimaVisualizacao = some (Guardado.valor e)) :
    (carregarEstadoAtual s).chamadoAtual = some c
    ∧ (carregarEstadoAtual s).ultimaMensagemVisualizadaId = e.ultimaMensagemId
    ∧ (carregarEstadoAtual s).localStorage = s.localStorage
    ∧ (carregarEstadoAtual s).pedidos = s.pedidos := by
  have e1 : carregarEstadoAtual s
      = carregarEstadoAtual_indicador
          { s with chamadoAtual := some c, ultimaMensagemVisualizadaId := e.ultimaMensagemId } := by
    simp [carregarEstadoAtual, carregarEstadoAtual_chamado, carregarEstadoAtual_visualizacao,
      hc, he]
  rw [e1]
  have h := mesmaSessao_carregarEstadoAtual_indicador
    { s with chamadoAtual := some c, ultimaMensagemVisualizadaId := e.ultimaMensagemId }
  exact ⟨h.chamadoAtual, h.ultimaMensagemVisualizadaId, h.localStorage, h.pedidos⟩

/-- With a readable ticket and a readable record in storage, `reiniciarSistemaAtualizacao`
ends with that ticket and the marker of that record, and issues no request. -/
theorem reiniciarSistemaAtualizacao_guardado {s : State} {c : Chamado}
    {e : EstadoVisualizacao}
    (hc : s.localStorage.chamadoAtual = some (Guardado.valor c))
    (he : s.localStorage.ultimaVisualizacao = some (Guardado.valor e)) :
    (reiniciarSistemaAtualizacao s).chamadoAtual = some c
    ∧ (reiniciarSistemaAtualizacao s).ultimaMensagemVisualizadaId = e.ultimaMensagemId
    ∧ (reiniciarSistemaAtualizacao s).localStorage = s.localStorage
    ∧ (reiniciarSistemaAtualizacao s).pedidos = s.pedidos := by
  have hp := (mesmaSessao_pararAtualizacaoAutomatica s).transSessao
    (mesmaSessao_pararVerificacoesAutomaticas (pararAtualizacaoAutomatica s))
  have hc1 : (pararVerificacoesAutomaticas (pararAtualizacaoAutomatica s)).localStorage.chamadoAtual
      = some (Guardado.valor c) := by rw [hp.localStorage]; exact hc
  have he1 : (pararVerificacoesAutomaticas
      (pararAtualizacaoAutomatica s)).localStorage.ultimaVisualizacao
      = some (Guardado.valor e) := by rw [hp.localStorage]; exact he
  have hl := carregarEstadoAtual_guardado hc1 he1
  unfold reiniciarSistemaAtualizacao
  simp only [hl.1, Option.isSome_some, if_true]
  generalize carregarEstadoAtual (pararVerificacoesAutomaticas (pararAtualizacaoAutomatica s))
    = x at hl
  have hi := (mesmaSessao_iniciarAtualizacaoAutomatica x).transSessao
    (mesmaSessao_iniciarVerificacoesAutomaticas (iniciarAtualizacaoAutomatica x))
  refine ⟨?_, ?_, ?_, ?_⟩
  · exact hi.chamadoAtual.trans hl.1
  · exact hi.ultimaMensagemVisualizadaId.trans hl.2.1
  · exact hi.localStorage.trans (hl.2.2.1.trans hp.localStorage)
  · exact hi.pedidos.trans (hl.2.2.2.trans hp.pedidos)

end Helpbot

namespace Helpbot

/-! ### The loop of the bot sequence -/

theorem digitacao_sessao (s : State) :
    (removerIndicadorDigitacao (mostrarIndicadorDigitacao s)).chamadoAtual = s.chamadoAtual
    ∧ (removerIndicadorDigitacao (mostrarIndicadorDigitacao s)).pedidos = s.pedidos
    ∧ (removerIndicadorDigitacao (mostrarIndicadorDigitacao s)).sequenciaAtiva
        = s.sequenciaAtiva := by
  cases h : s.chatMessages <;>
    simp [mostrarIndicadorDigitacao, removerIndicadorDigitacao, h]

theorem turnoSequencia_inicio_some {s : State} {c : Chamado} (hc : s.chamadoAtual = some c)
    (i : Nat) :
    (turnoSequencia_inicio i s).2 = some (Pedido.enviarMensagemBot c.chamado_id (i + 1))
    ∧ (turnoSequencia_inicio i s).1.chamadoAtual = some c
    ∧ (turnoSequencia_inicio i s).1.pedidos
        = s.pedidos ++ [Pedido.enviarMensagemBot c.chamado_id (i + 1)] := by
  have h := digitacao_sessao s
  have h1 : (removerIndicadorDigitacao (mostrarIndicadorDigitacao s)).chamadoAtual = some c :=
    h.1.trans hc
  have e : turnoSequencia_inicio i s
      = (fetch (Pedido.enviarMensagemBot c.chamado_id (i + 1))
          (removerIndicadorDigitacao (mostrarIndicadorDigitacao s)),
         some (Pedido.enviarMensagemBot c.chamado_id (i + 1))) := by
    simp only [turnoSequencia_inicio, h1]
  rw [e]
  exact ⟨rfl, h1, by simp [fetch, h.2.1]⟩

theorem turnoSequencia_inicio_none {s : State} (hc : s.chamadoAtual = none) (i : Nat) :
    (turnoSequencia_inicio i s).2 = none
    ∧ (turnoSequencia_inicio i s).1.sequenciaAtiva = false
    ∧ (turnoSequencia_inicio i s).1.pedidos = s.pedidos := by
  have h := digitacao_sessao s
  have h1 : (removerIndicadorDigitacao (mostrarIndicadorDigitacao s)).chamadoAtual = none :=
    h.1.trans hc
  have e : turnoSequencia_inicio i s
      = ({ removerIndicadorDigitacao (mostrarIndicadorDigitacao s) with
           sequenciaAtiva := false }, none) := by
    simp only [turnoSequencia_inicio, h1]
  rw [e]
  exact ⟨rfl, rfl, h.2.1⟩

theorem turnoSequencia_resposta_sessao (f : Fetch ResultadoMensagemBot) (s : State) :
    (turnoSequencia_resposta f s).1.chamadoAtual = s.chamadoAtual
    ∧ (turnoSequencia_resposta f s).1.pedidos = s.pedidos := by
  unfold turnoSequencia_resposta
  split
  · exact ⟨rfl, rfl⟩
  · exact ⟨rfl, rfl⟩
  · exact ⟨rfl, rfl⟩
  · split
    · cases h : s.chatMessages <;> simp [adicionarMensagemDOM, h]
    · exact ⟨rfl, rfl⟩

theorem turnoSequencia_resposta_legivel {f : Fetch ResultadoMensagemBot}
    (hf : f.legivel = true) (s : State) : (turnoSequencia_resposta f s).2 = true := by
  unfold turnoSequencia_resposta
  split
  · simp [Fetch.legivel] at hf
  · rfl
  · simp [Fetch.legivel] at hf
  · split <;> rfl

theorem turnoSequencia_resposta_excecao {f : Fetch ResultadoMensagemBot}
    (hf : f.legivel = false) (s : State) : (turnoSequencia_resposta f s).2 = false := by
  unfold turnoSequencia_resposta
  split
  · rfl
  · simp [Fetch.legivel] at hf
  · rfl
  · simp [Fetch.legivel] at hf

theorem pedido_nao_em_passos (k i : Nat) (p : Pedido) :
    Passo.pedido p ∉ turnoSequencia_passos k i := by
  unfold turnoSequencia_passos
  split <;> simp

/-- With a ticket and without exception the loop runs through the whole list. -/
theorem lacoSequencia_legivel (respostas : Nat → Fetch ResultadoMensagemBot) (k : Nat)
    (c : Chamado) (hleg : ∀ n, (respostas n).legivel = true) :
    ∀ (l : List Nat) (s : State), s.chamadoAtual = some c →
      (lacoSequencia respostas k l s).2
          = l.flatMap (fun i => turnoSequencia_passos k i
              ++ [Passo.pedido (Pedido.enviarMensagemBot c.chamado_id (i + 1))])
      ∧ (lacoSequencia respostas k l s).1.pedidos
          = s.pedidos ++ l.map (fun i => Pedido.enviarMensagemBot c.chamado_id (i + 1)) := by
  intro l
  induction l with
  | nil => intro s _; simp [lacoSequencia]
  | cons i resto ih =>
    intro s hc
    obtain ⟨h1, h2, h3⟩ := turnoSequencia_inicio_some hc i
    have h4 := turnoSequencia_resposta_legivel (hleg (i + 1)) (turnoSequencia_inicio i s).1
    have h5 := turnoSequencia_resposta_sessao (respostas (i + 1)) (turnoSequencia_inicio i s).1
    have hrec := ih (turnoSequencia_resposta (respostas (i + 1)) (turnoSequencia_inicio i s).1).1
      (h5.1.trans h2)
    simp only [lacoSequencia, h1, h4, if_true]
    refine ⟨?_, ?_⟩
    · rw [hrec.1]; simp
    · rw [hrec.2, h5.2, h3]; simp

/-- After an exception at scripted message `j` the loop requests no higher index. -/
theorem lacoSequencia_para (respostas : Nat → Fetch ResultadoMensagemBot) (k j : Nat)
    (hj : (respostas j).legivel = false) :
    ∀ (n a : Nat) (s : State), a < j →
      ∀ (id : String) (m : Nat),
        Passo.pedido (Pedido.enviarMensagemBot id m)
          ∈ (lacoSequencia respostas k (List.range' a n) s).2 → m ≤ j := by
  intro n
  induction n with
  | zero => intro a s _ id m hm; simp [lacoSequencia] at hm
  | succ n ih =>
    intro a s ha id m hm
    rw [List.range'_succ] at hm
    cases hini : s.chamadoAtual with
    | none =>
      have h0 := turnoSequencia_inicio_none hini a
      simp only [lacoSequencia, h0.1] at hm
      exact absurd hm (pedido_nao_em_passos k a _)
    | some c =>
      obtain ⟨h1, _, _⟩ := turnoSequencia_inicio_some hini a
      simp only [lacoSequencia, h1] at hm
      split at hm
      · simp only [List.mem_append, List.mem_cons] at hm
        rcases hm with hm | hm | hm
        · exact absurd hm (pedido_nao_em_passos k a _)
        · cases hm; omega
        · by_cases haj : a + 1 = j
          · rename_i hcont
            rw [haj, turnoSequencia_resposta_excecao hj] at hcont
            cases hcont
          · exact ih (a + 1) _ (by omega) id m hm
      · simp only [List.mem_append, List.mem_singleton] at hm
        rcases hm with hm | hm
        · exact absurd hm (pedido_nao_em_passos k a _)
        · cases hm; omega

theorem lacoSequencia_sequenciaAtiva (respostas : Nat → Fetch ResultadoMensagemBot) (k : Nat) :
    ∀ (l : List Nat) (s : State), (lacoSequencia respostas k l s).1.sequenciaAtiva = false := by
  intro l
  induction l with
  | nil => intro s; rfl
  | cons i resto ih =>
    intro s
    simp only [lacoSequencia]
    split
    · rename_i hnone
      simp only [turnoSequencia_inicio] at hnone ⊢
      split at hnone
      · rename_i hc
        simp [hc]
      · cases hnone
    · split
      · exact ih _
      · rename_i hstop
        revert hstop
        generalize (turnoSequencia_inicio i s).1 = x
        unfold turnoSequencia_resposta
        split
        · intro _; rfl
        · intro h; simp at h
        · intro _; rfl
        · split <;> (intro h; simp at h)

end Helpbot

namespace Static

theorem lacoSequencia_static_sequenciaAtiva
    (respostas : Nat → Fetch ResultadoProxima × Fetch ResultadoHistorico) :
    ∀ (l : List Nat) (s : State), (lacoSequencia respostas l s).sequenciaAtiva = false := by
  intro l
  induction l with
  | nil => intro s; rfl
  | cons i resto ih =>
    intro s
    simp only [lacoSequencia]
    split
    · rename_i hnone
      simp only [turnoSequencia_inicio] at hnone ⊢
      split at hnone
      · rfl
      · cases hnone
    · split
      · exact ih _
      · rename_i hstop
        revert hstop
        generalize (turnoSequencia_inicio s).1 = x
        unfold turnoSequencia_resposta
        split
        · intro _; rfl
        · intro _; rfl
        · split
          · split
            · intro _; rfl
            · split <;> (intro h; simp at h)
          · intro _; rfl

end Static

theorem range_map_seguinte {β : Type} (f : Nat → β) :
    ∀ (n k : Nat), (List.range' k n).map (fun i => f (i + 1)) = (List.range' (k + 1) n).map f := by
  intro n
  induction n with
  | zero => intro k; rfl
  | succ n ih => intro k; simp [List.range'_succ, ih (k + 1)]

theorem range_flatMap_seguinte {β : Type} (g : Nat → List β) :
    ∀ (n k : Nat),
      (List.range' k n).flatMap (fun i => g (i + 1)) = (List.range' (k + 1) n).flatMap g := by
  intro n
  induction n with
  | zero => intro k; rfl
  | succ n ih => intro k; simp [List.range'_succ, ih (k + 1)]

/-! ### Frame of the transcript routines of the static variant -/

theorem Static.adicionarTodas_static_moldura (lista : List Mensagem) :
    ∀ s : Static.State,
      (Static.adicionarTodas lista s).indicador = s.indicador
      ∧ (Static.adicionarTodas lista s).indicadorNovasMensagens = s.indicadorNovasMensagens
      ∧ (Static.adicionarTodas lista s).modalAberto = s.modalAberto := by
  induction lista with
  | nil => intro s; exact ⟨rfl, rfl, rfl⟩
  | cons m ms ih =>
    intro s
    have h := ih (Static.adicionarMensagemDOM m.mensagem m.remetente m.hora m.id s)
    have k : (Static.adicionarMensagemDOM m.mensagem m.remetente m.hora m.id s).indicador
          = s.indicador
        ∧ (Static.adicionarMensagemDOM m.mensagem m.remetente m.hora m.id s).indicadorNovasMensagens
          = s.indicadorNovasMensagens
        ∧ (Static.adicionarMensagemDOM m.mensagem m.remetente m.hora m.id s).modalAberto
          = s.modalAberto := by
      unfold Static.adicionarMensagemDOM
      split <;> exact ⟨rfl, rfl, rfl⟩
    simp only [Static.adicionarTodas, List.foldl_cons] at h ⊢
    exact ⟨h.1.trans k.1, h.2.1.trans k.2.1, h.2.2.trans k.2.2⟩

theorem Static.atualizarUltimaVisualizacao_static_moldura (s : Static.State) :
    (Static.atualizarUltimaVisualizacao s).indicador = s.indicador
    ∧ (Static.atualizarUltimaVisualizacao s).indicadorNovasMensagens = s.indicadorNovasMensagens
    ∧ (Static.atualizarUltimaVisualizacao s).modalAberto = s.modalAberto := by
  unfold Static.atualizarUltimaVisualizacao
  split
  · split
    · simp only
      split <;> exact ⟨rfl, rfl, rfl⟩
    · exact ⟨rfl, rfl, rfl⟩
  · exact ⟨rfl, rfl, rfl⟩

/-! ### Live intervals and held handles -/

theorem mem_handlesDoTipo {tipo : TipoIntervalo} {l : List (Nat × TipoIntervalo)} {h : Nat} :
    h ∈ handlesDoTipo tipo l ↔ (h, tipo) ∈ l := by
  unfold handlesDoTipo
  simp only [List.mem_map, List.mem_filter, beq_iff_eq]
  constructor
  · rintro ⟨⟨a, b⟩, ⟨hm, hb⟩, ha⟩
    simp only at hb ha
    subst hb; subst ha
    exact hm
  · intro hm
    exact ⟨(h, tipo), ⟨hm, rfl⟩, rfl⟩

theorem handlesDoTipo_filter (tipo : TipoIntervalo) (l : List (Nat × TipoIntervalo))
    (h : Nat) :
    handlesDoTipo tipo (l.filter (fun p => p.1 != h))
      = (handlesDoTipo tipo l).filter (fun x => x != h) := by
  unfold handlesDoTipo
  rw [List.filter_map, List.filter_filter, List.filter_filter]
  congr 1
  apply List.filter_congr
  intro x _
  simp only [Function.comp]
  exact Bool.and_comm _ _

theorem handlesDoTipo_append (tipo tipo2 : TipoIntervalo) (l : List (Nat × TipoIntervalo))
    (h : Nat) :
    handlesDoTipo tipo (l ++ [(h, tipo2)])
      = handlesDoTipo tipo l ++ (if tipo2 = tipo then [h] else []) := by
  unfold handlesDoTipo
  by_cases h2 : tipo2 = tipo <;> simp [List.filter_append, List.filter_cons, h2]

theorem handlesFrescos_filter {l : List (Nat × TipoIntervalo)} {p : Nat}
    (hf : HandlesFrescos l p) (h : Nat) :
    HandlesFrescos (l.filter (fun q => q.1 != h)) p := by
  refine ⟨fun q hq => hf.1 q (List.mem_of_mem_filter hq), ?_⟩
  exact hf.2.sublist ((List.filter_sublist l).map Prod.fst)

theorem handlesFrescos_append {l : List (Nat × TipoIntervalo)} {p : Nat}
    (hf : HandlesFrescos l p) (tipo : TipoIntervalo) :
    HandlesFrescos (l ++ [(p, tipo)]) (p + 1) := by
  refine ⟨?_, ?_⟩
  · intro q hq
    rcases List.mem_append.1 hq with hq | hq
    · exact Nat.lt_succ_of_lt (hf.1 q hq)
    · simp only [List.mem_singleton] at hq
      subst hq
      exact Nat.lt_succ_self _
  · rw [List.map_append, List.nodup_append]
    refine ⟨hf.2, by simp, ?_⟩
    intro a ha hb
    simp only [List.map_cons, List.map_nil, List.mem_singleton] at hb
    subst hb
    obtain ⟨q, hq, rfl⟩ := List.mem_map.1 ha
    exact absurd (hf.1 q hq) (Nat.lt_irrefl _)

/-- Clearing the held handle of one kind removes the interval of that kind and no other. -/
theorem limpar_guardado {l : List (Nat × TipoIntervalo)} {p : Nat} {tipo : TipoIntervalo}
    {h : Nat} (hf : HandlesFrescos l p) (hc : handlesDoTipo tipo l = [h]) :
    HandlesFrescos (l.filter (fun q => q.1 != h)) p
    ∧ handlesDoTipo tipo (l.filter (fun q => q.1 != h)) = []
    ∧ ∀ outro, outro ≠ tipo →
        handlesDoTipo outro (l.filter (fun q => q.1 != h)) = handlesDoTipo outro l := by
  refine ⟨handlesFrescos_filter hf h, ?_, ?_⟩
  · rw [handlesDoTipo_filter, hc]
    simp
  · intro outro hne
    rw [handlesDoTipo_filter]
    apply List.filter_eq_self.2
    intro x hx
    have h1 : (x, outro) ∈ l := mem_handlesDoTipo.1 hx
    have h2 : (h, tipo) ∈ l := mem_handlesDoTipo.1 (by rw [hc]; simp)
    simp only [bne_iff_ne, ne_eq]
    intro hxh
    have := List.inj_on_of_nodup_map hf.2 h1 h2 hxh
    exact hne (Prod.mk.inj this).2

namespace Helpbot

theorem coerentes_de_campos {s t : State} (h : TemporizadoresCoerentes s)
    (h1 : t.intervalos = s.intervalos)
    (h2 : t.proximoHandle = s.proximoHandle)
    (h3 : t.intervaloAtualizacao = s.intervaloAtualizacao)
    (h4 : t.intervaloVerificacaoAutomatica = s.intervaloVerificacaoAutomatica) :
    TemporizadoresCoerentes t :=
  ⟨by rw [h1, h2]; exact h.frescos, by rw [h1, h3]; exact h.refreshDados,
   by rw [h1, h4]; exact h.segundoPlano⟩

theorem coerentes_pararAtualizacaoAutomatica {s : State} (h : TemporizadoresCoerentes s) :
    TemporizadoresCoerentes (pararAtualizacaoAutomatica s)
    ∧ (pararAtualizacaoAutomatica s).intervaloAtualizacao = none := by
  unfold pararAtualizacaoAutomatica
  cases hg : s.intervaloAtualizacao with
  | none => exact ⟨h, hg⟩
  | some g =>
    have hr : handlesDoTipo TipoIntervalo.refreshDados s.intervalos = [g] := by
      have := h.refreshDados
      rw [hg] at this
      exact this
    have k := limpar_guardado h.frescos hr
    exact ⟨⟨k.1, k.2.1,
      (k.2.2 TipoIntervalo.segundoPlano (by decide)).trans h.segundoPlano⟩, rfl⟩

theorem coerentes_pararVerificacoesAutomaticas {s : State} (h : TemporizadoresCoerentes s) :
    TemporizadoresCoerentes (pararVerificacoesAutomaticas s)
    ∧ (pararVerificacoesAutomaticas s).intervaloVerificacaoAutomatica = none := by
  unfold pararVerificacoesAutomaticas
  cases hg : s.intervaloVerificacaoAutomatica with
  | none => exact ⟨h, hg⟩
  | some g =>
    have hr : handlesDoTipo TipoIntervalo.segundoPlano s.intervalos = [g] := by
      have := h.segundoPlano
      rw [hg] at this
      exact this
    have k := limpar_guardado h.frescos hr
    exact ⟨⟨k.1, (k.2.2 TipoIntervalo.refreshDados (by decide)).trans h.refreshDados,
      k.2.1⟩, rfl⟩

theorem coerentes_iniciarAtualizacaoAutomatica {s : State} (h : TemporizadoresCoerentes s) :
    TemporizadoresCoerentes (iniciarAtualizacaoAutomatica s) := by
  obtain ⟨hx, hn⟩ := coerentes_pararAtualizacaoAutomatica h
  unfold iniciarAtualizacaoAutomatica setInterval
  refine ⟨handlesFrescos_append hx.frescos _, ?_, ?_⟩
  · show handlesDoTipo _ (_ ++ [(_, _)]) = _
    rw [handlesDoTipo_append, if_pos rfl]
    have := hx.refreshDados
    rw [hn] at this
    rw [this]
    rfl
  · show handlesDoTipo _ (_ ++ [(_, _)]) = _
    rw [handlesDoTipo_append, if_neg (by decide), List.append_nil]
    exact hx.segundoPlano

theorem coerentes_iniciarVerificacoesAutomaticas {s : State} (h : TemporizadoresCoerentes s) :
    TemporizadoresCoerentes (iniciarVerificacoesAutomaticas s) := by
  obtain ⟨hx, hn⟩ := coerentes_pararVerificacoesAutomaticas h
  unfold iniciarVerificacoesAutomaticas setInterval
  refine ⟨handlesFrescos_append hx.frescos _, ?_, ?_⟩
  · show handlesDoTipo _ (_ ++ [(_, _)]) = _
    rw [handlesDoTipo_append, if_neg (by decide), List.append_nil]
    exact hx.refreshDados
  · show handlesDoTipo _ (_ ++ [(_, _)]) = _
    rw [handlesDoTipo_append, if_pos rfl]
    have := hx.segundoPlano
    rw [hn] at this
    rw [this]
    rfl

theorem coerentes_resetarEstadoSistema {s : State} (h : TemporizadoresCoerentes s) :
    TemporizadoresCoerentes (resetarEstadoSistema s) := by
  unfold resetarEstadoSistema
  refine (coerentes_pararVerificacoesAutomaticas (coerentes_pararAtualizacaoAutomatica ?_).1).1
  exact coerentes_de_campos h rfl rfl rfl rfl

theorem coerentes_carregarEstadoAtual_chamado {s t : State}
    (ht : carregarEstadoAtual_chamado s = some t) (h : TemporizadoresCoerentes s) :
    TemporizadoresCoerentes t := by
  unfold carregarEstadoAtual_chamado at ht
  split at ht <;> cases ht <;>
    first | exact h | exact coerentes_de_campos h rfl rfl rfl rfl

theorem coerentes_carregarEstadoAtual_visualizacao {s t : State}
    (ht : carregarEstadoAtual_visualizacao s = some t) (h : TemporizadoresCoerentes s) :
    TemporizadoresCoerentes t := by
  unfold carregarEstadoAtual_visualizacao at ht
  split at ht <;> cases ht <;>
    first | exact h | exact coerentes_de_campos h rfl rfl rfl rfl

theorem coerentes_carregarEstadoAtual_indicador {s : State} (h : TemporizadoresCoerentes s) :
    TemporizadoresCoerentes (carregarEstadoAtual_indicador s) := by
  unfold carregarEstadoAtual_indicador
  simp only
  split <;> split <;> exact coerentes_de_campos h rfl rfl rfl rfl

theorem coerentes_carregarEstadoAtual {s : State} (h : TemporizadoresCoerentes s) :
    TemporizadoresCoerentes (carregarEstadoAtual s) := by
  rcases carregarEstadoAtual_cases s with ⟨_, e⟩ | ⟨s1, h1, _, e⟩ | ⟨s1, s2, h1, h2, e⟩
  · rw [e]; exact coerentes_resetarEstadoSistema h
  · rw [e]
    exact coerentes_resetarEstadoSistema (coerentes_carregarEstadoAtual_chamado h1 h)
  · rw [e]
    exact coerentes_carregarEstadoAtual_indicador
      (coerentes_carregarEstadoAtual_visualizacao h2
        (coerentes_carregarEstadoAtual_chamado h1 h))

theorem coerentes_reiniciarSistemaAtualizacao {s : State} (h : TemporizadoresCoerentes s) :
    TemporizadoresCoerentes (reiniciarSistemaAtualizacao s) := by
  have h1 := coerentes_carregarEstadoAtual
    (coerentes_pararVerificacoesAutomaticas (coerentes_pararAtualizacaoAutomatica h).1).1
  unfold reiniciarSistemaAtualizacao
  simp only
  split
  · exact coerentes_de_campos
      (coerentes_iniciarVerificacoesAutomaticas (coerentes_iniciarAtualizacaoAutomatica h1))
      rfl rfl rfl rfl
  · exact h1

theorem coerentes_executarTemporizador (op : OperacaoTemporizador) {s : State}
    (h : TemporizadoresCoerentes s) : TemporizadoresCoerentes (executarTemporizador op s) := by
  cases op
  · exact coerentes_iniciarAtualizacaoAutomatica h
  · exact (coerentes_pararAtualizacaoAutomatica h).1
  · exact coerentes_iniciarVerificacoesAutomaticas h
  · exact (coerentes_pararVerificacoesAutomaticas h).1
  · exact coerentes_reiniciarSistemaAtualizacao h

theorem coerentes_executarTemporizadores (ops : List OperacaoTemporizador) :
    ∀ {s : State}, TemporizadoresCoerentes s →
      TemporizadoresCoerentes (executarTemporizadores ops s) := by
  induction ops with
  | nil => intro s h; exact h
  | cons op t ih =>
    intro s h
    simp only [executarTemporizadores, List.foldl_cons]
    exact ih (coerentes_executarTemporizador op h)

end Helpbot

namespace Static

theorem coerentes_static_pararAtualizacaoAutomatica {s : State}
    (h : TemporizadoresCoerentes s) :
    TemporizadoresCoerentes (pararAtualizacaoAutomatica s) := by
  unfold pararAtualizacaoAutomatica
  cases hg : s.intervaloAtualizacao with
  | none => exact h
  | some g =>
    have hr : handlesDoTipo TipoIntervalo.chat25s s.intervalos = [g] := by
      have := h.chat25s
      rw [hg] at this
      exact this
    have k := limpar_guardado h.frescos hr
    exact ⟨k.1, k.2.1⟩

theorem coerentes_static_iniciarAtualizacaoAutomatica {s : State}
    (h : TemporizadoresCoerentes s) :
    TemporizadoresCoerentes (iniciarAtualizacaoAutomatica s) := by
  unfold iniciarAtualizacaoAutomatica
  cases hc : s.chamadoAtual with
  | none => exact h
  | some c =>
    cases hg : s.intervaloAtualizacao with
    | none =>
      have hr : handlesDoTipo TipoIntervalo.chat25s s.intervalos = [] := by
        have := h.chat25s
        rw [hg] at this
        exact this
      refine ⟨handlesFrescos_append h.frescos _, ?_⟩
      show handlesDoTipo _ (_ ++ [(_, _)]) = _
      rw [handlesDoTipo_append, if_pos rfl, hr]
      rfl
    | some g =>
      have hr : handlesDoTipo TipoIntervalo.chat25s s.intervalos = [g] := by
        have := h.chat25s
        rw [hg] at this
        exact this
      have k := limpar_guardado h.frescos hr
      refine ⟨handlesFrescos_append k.1 _, ?_⟩
      show handlesDoTipo _ (_ ++ [(_, _)]) = _
      rw [handlesDoTipo_append, if_pos rfl, k.2.1]
      rfl

theorem coerentes_static_executarTemporizador (op : OperacaoTemporizador) {s : State}
    (h : TemporizadoresCoerentes s) : TemporizadoresCoerentes (executarTemporizador op s) := by
  cases op
  · exact coerentes_static_iniciarAtualizacaoAutomatica h
  · exact coerentes_static_pararAtualizacaoAutomatica h

theorem coerentes_static_executarTemporizadores (ops : List OperacaoTemporizador) :
    ∀ {s : State}, TemporizadoresCoerentes s →
      TemporizadoresCoerentes (executarTemporizadores ops s) := by
  induction ops with
  | nil => intro s h; exact h
  | cons op t ih =>
    intro s h
    simp only [executarTemporizadores, List.foldl_cons]
    exact ih (coerentes_static_executarTemporizador op h)

end Static

theorem toList_length_le_um (o : Option Nat) : o.toList.length ≤ 1 := by
  cases o <;> simp

/-! ## The claims -/

/-- C1, counterexample: two reachable states of the helpbot variant in which the visibility
of the badge differs from `chamadoAtual != null && indicadorNovasMensagens && !modalAberto`.
In the first, a storage event with the flag `true` reaches a page without ticket: the badge
is visible and `chamadoAtual` is null. In the second, the page handler has restored ticket
and flag from storage: ticket, flag and closed modal all hold and the badge is hidden. -/
theorem C1_contraexemplo_indicador :
    Helpbot.Alcancavel Helpbot.aposAvisoDeOutraAba
    ∧ ¬ (Helpbot.indicadorVisivel Helpbot.aposAvisoDeOutraAba = true ↔
          (Helpbot.aposAvisoDeOutraAba.chamadoAtual.isSome = true
            ∧ Helpbot.aposAvisoDeOutraAba.indicadorNovasMensagens = true
            ∧ Helpbot.aposAvisoDeOutraAba.modalAberto = false))
    ∧ Helpbot.Alcancavel Helpbot.aposCarregarComFlag
    ∧ ¬ (Helpbot.indicadorVisivel Helpbot.aposCarregarComFlag = true ↔
          (Helpbot.aposCarregarComFlag.chamadoAtual.isSome = true
            ∧ Helpbot.aposCarregarComFlag.indicadorNovasMensagens = true
            ∧ Helpbot.aposCarregarComFlag.modalAberto = false)) :=
  ⟨⟨_, _, _, _, _, _, _, _, rfl⟩, by decide, ⟨_, _, _, _, _, _, _, _, rfl⟩, by decide⟩

/-- C1, as amended: in every state the helpbot variant reaches from a freshly loaded script
through its operations, the badge is visible only if `modalAberto` is false. -/
theorem C1_helpbot_indicador_so_com_modal_fechado (s : Helpbot.State)
    (h : Helpbot.Alcancavel s) :
    Helpbot.indicadorVisivel s = true → s.modalAberto = false := by
  obtain ⟨ls, i, cm, mi, sb, el, agora, ops, rfl⟩ := h
  exact Helpbot.indicadorSoComModalFechado_executarTodas ops _ (fun _ => rfl)

/-- Witness for C1 as amended: the reachable state `aposAvisoDeOutraAba` shows the badge and
its modal is closed. -/
theorem C1_helpbot_indicador_so_com_modal_fechado_witness :
    Helpbot.Alcancavel Helpbot.aposAvisoDeOutraAba
    ∧ Helpbot.indicadorVisivel Helpbot.aposAvisoDeOutraAba = true
    ∧ Helpbot.aposAvisoDeOutraAba.modalAberto = false :=
  ⟨⟨_, _, _, _, _, _, _, _, rfl⟩, by decide,
   C1_helpbot_indicador_so_com_modal_fechado Helpbot.aposAvisoDeOutraAba
     ⟨_, _, _, _, _, _, _, _, rfl⟩ (by decide)⟩

/-- C2 (static variant): a successful poll body with `total_novas > 0` whose
`ultima_visualizada_id` equals the local marker is treated as not new: the badge element,
the unread flag, the transcript and the marker are untouched (the whole state is). -/
theorem C2_static_mesma_ponta_nao_e_nova (s : Static.State) (r : ResultadoVerificacao)
    (hsucesso : r.success = true) (_hnovas : 0 < r.total_novas)
    (hmesma : r.ultima_visualizada_id = s.ultimaMensagemVisualizadaId) :
    (Static.verificarNovasMensagensInteligente_resposta (.resposta true (some r)) s).indicador
        = s.indicador
    ∧ (Static.verificarNovasMensagensInteligente_resposta (.resposta true (some r)) s).indicadorNovasMensagens
        = s.indicadorNovasMensagens
    ∧ (Static.verificarNovasMensagensInteligente_resposta (.resposta true (some r)) s).chatMessages
        = s.chatMessages
    ∧ (Static.verificarNovasMensagensInteligente_resposta (.resposta true (some r)) s).ultimaMensagemVisualizadaId
        = s.ultimaMensagemVisualizadaId
    ∧ Static.verificarNovasMensagensInteligente_resposta (.resposta true (some r)) s = s := by
  have h : Static.verificarNovasMensagensInteligente_resposta (.resposta true (some r)) s = s := by
    simp [Static.verificarNovasMensagensInteligente_resposta, Static.aplicarVerificacao,
      hsucesso, hmesma]
  simp [h]

/-- Witness for C2: the server reports one new message but repeats the marker `m3`. -/
theorem C2_static_mesma_ponta_witness :
    respostaRepetida.success = true
    ∧ 0 < respostaRepetida.total_novas
    ∧ respostaRepetida.ultima_visualizada_id = Static.paginaComChamado.ultimaMensagemVisualizadaId
    ∧ Static.verificarNovasMensagensInteligente_resposta
        (.resposta true (some respostaRepetida)) Static.paginaComChamado
        = Static.paginaComChamado :=
  ⟨rfl, by decide, rfl,
   (C2_static_mesma_ponta_nao_e_nova Static.paginaComChamado respostaRepetida rfl
      (by decide) rfl).2.2.2.2⟩

/-- C3, counterexample: in the helpbot variant the repeated tip `m3` with the modal closed
does set the unread flag and does show the badge. -/
theorem C3_helpbot_contraexemplo :
    respostaRepetida.success = true
    ∧ respostaRepetida.chamado_status ≠ "resolvido"
    ∧ 0 < respostaRepetida.total_novas
    ∧ respostaRepetida.ultima_visualizada_id = Helpbot.paginaComChamado.ultimaMensagemVisualizadaId
    ∧ Helpbot.paginaComChamado.modalAberto = false
    ∧ Helpbot.paginaComChamado.indicadorNovasMensagens = false
    ∧ Helpbot.indicadorVisivel Helpbot.paginaComChamado = false
    ∧ (Helpbot.verificarNovasMensagensInteligente_resposta
        (.resposta true (some respostaRepetida)) Helpbot.paginaComChamado).indicadorNovasMensagens = true
    ∧ Helpbot.indicadorVisivel (Helpbot.verificarNovasMensagensInteligente_resposta
        (.resposta true (some respostaRepetida)) Helpbot.paginaComChamado) = true := by
  decide

/-- C3, as amended: the helpbot variant has no marker-based dedup. For a successful,
non-resolved body with `total_novas > 0` whose tip equals the local marker, processed with
the modal closed, the unread flag becomes true and the badge (when the page has the
element) is shown; the marker and the transcript stay as they were. -/
theorem C3_helpbot_sem_dedup (s : Helpbot.State) (r : ResultadoVerificacao)
    (hsucesso : r.success = true) (hstatus : r.chamado_status ≠ "resolvido")
    (hnovas : 0 < r.total_novas)
    (hmesma : r.ultima_visualizada_id = s.ultimaMensagemVisualizadaId)
    (hmodal : s.modalAberto = false) :
    (Helpbot.verificarNovasMensagensInteligente_resposta (.resposta true (some r)) s).indicadorNovasMensagens
        = true
    ∧ (s.indicador.isSome = true →
        Helpbot.indicadorVisivel
          (Helpbot.verificarNovasMensagensInteligente_resposta (.resposta true (some r)) s) = true)
    ∧ (Helpbot.verificarNovasMensagensInteligente_resposta (.resposta true (some r)) s).ultimaMensagemVisualizadaId
        = s.ultimaMensagemVisualizadaId
    ∧ (Helpbot.verificarNovasMensagensInteligente_resposta (.resposta true (some r)) s).chatMessages
        = s.chatMessages := by
  cases hi : s.indicador <;>
    simp [Helpbot.verificarNovasMensagensInteligente_resposta, Helpbot.aplicarVerificacao, Helpbot.aplicarVerificacao_resolvido,
      Helpbot.aplicarVerificacao_novas, Helpbot.aplicarVerificacao_fechado,
      Helpbot.aplicarVerificacao_aberto,
      Helpbot.aplicarVerificacao_semNovas,
      Helpbot.mostrarIndicadorNovasMensagens, Helpbot.salvarEstadoSistema,
      Helpbot.indicadorVisivel, hsucesso, hstatus, hnovas, hmesma, hmodal, hi]

/-- Witness for C3 as amended: the repeated tip `m3` on `paginaComChamado`. -/
theorem C3_helpbot_sem_dedup_witness :
    respostaRepetida.success = true
    ∧ respostaRepetida.chamado_status ≠ "resolvido"
    ∧ 0 < respostaRepetida.total_novas
    ∧ respostaRepetida.ultima_visualizada_id
        = Helpbot.paginaComChamado.ultimaMensagemVisualizadaId
    ∧ Helpbot.paginaComChamado.modalAberto = false
    ∧ (Helpbot.verificarNovasMensagensInteligente_resposta
        (.resposta true (some respostaRepetida)) Helpbot.paginaComChamado).indicadorNovasMensagens
        = true :=
  ⟨rfl, by decide, by decide, rfl, rfl,
   (C3_helpbot_sem_dedup Helpbot.paginaComChamado respostaRepetida rfl (by decide)
      (by decide) rfl rfl).1⟩

/-- C4, counterexample: helpbot variant, a page without the badge element, ticket 17 active
and the modal closed. The successful non-resolved body with two new messages sets the
flag, and no badge is shown. -/
theorem C4_contraexemplo_sem_elemento :
    Helpbot.paginaSemElementoIndicador.indicador = none
    ∧ Helpbot.paginaSemElementoIndicador.chamadoAtual = some chamadoA
    ∧ Helpbot.paginaSemElementoIndicador.modalAberto = false
    ∧ respostaDuasNovas.success = true
    ∧ respostaDuasNovas.chamado_status ≠ "resolvido"
    ∧ 0 < respostaDuasNovas.total_novas
    ∧ (Helpbot.verificarNovasMensagensInteligente_resposta
        (.resposta true (some respostaDuasNovas))
        Helpbot.paginaSemElementoIndicador).indicadorNovasMensagens = true
    ∧ Helpbot.indicadorVisivel (Helpbot.verificarNovasMensagensInteligente_resposta
        (.resposta true (some respostaDuasNovas))
        Helpbot.paginaSemElementoIndicador) = false := by
  refine ⟨?_, ?_, ?_, ?_, ?_, ?_, ?_, ?_⟩ <;> decide

/-- C4, as amended: helpbot variant, a successful non-resolved body with `total_novas > 0`,
processed while a ticket is active and the modal is closed: the marker becomes the tip of
the body, the unread flag is true, the stored `indicadorNovasMensagens` entry is `true`, the
stored `ultimaVisualizacao` record carries that marker and the id of the active ticket;
the badge is shown when the page has the badge element, and on a page without it no badge
is shown. -/
theorem C4_helpbot_novas_com_modal_fechado (s : Helpbot.State) (r : ResultadoVerificacao)
    (c : Chamado)
    (hsucesso : r.success = true) (hstatus : r.chamado_status ≠ "resolvido")
    (hnovas : 0 < r.total_novas)
    (hchamado : s.chamadoAtual = some c) (hmodal : s.modalAberto = false) :
    (Helpbot.verificarNovasMensagensInteligente_resposta (.resposta true (some r)) s).ultimaMensagemVisualizadaId
        = r.ultima_visualizada_id
    ∧ (Helpbot.verificarNovasMensagensInteligente_resposta (.resposta true (some r)) s).indicadorNovasMensagens
        = true
    ∧ (Helpbot.verificarNovasMensagensInteligente_resposta (.resposta true (some r)) s).localStorage.indicadorNovasMensagens
        = some "true"
    ∧ (Helpbot.verificarNovasMensagensInteligente_resposta (.resposta true (some r)) s).localStorage.ultimaVisualizacao
        = some (Guardado.valor
            { ultimaMensagemId := r.ultima_visualizada_id, timestamp := s.agora,
              chamadoId := some c.chamado_id })
    ∧ (s.indicador.isSome = true →
        Helpbot.indicadorVisivel
          (Helpbot.verificarNovasMensagensInteligente_resposta (.resposta true (some r)) s) = true)
    ∧ (s.indicador = none →
        Helpbot.indicadorVisivel
          (Helpbot.verificarNovasMensagensInteligente_resposta (.resposta true (some r)) s) = false) := by
  cases hi : s.indicador <;>
    simp [Helpbot.verificarNovasMensagensInteligente_resposta, Helpbot.aplicarVerificacao, Helpbot.aplicarVerificacao_resolvido,
      Helpbot.aplicarVerificacao_novas, Helpbot.aplicarVerificacao_fechado,
      Helpbot.aplicarVerificacao_aberto,
      Helpbot.aplicarVerificacao_semNovas,
      Helpbot.mostrarIndicadorNovasMensagens, Helpbot.salvarEstadoSistema,
      Helpbot.indicadorVisivel, hsucesso, hstatus, hnovas, hchamado, hmodal, hi]

/-- Witness for C4 as amended: two new messages arrive on `paginaComChamado`, which has the
badge element. -/
theorem C4_helpbot_novas_com_modal_fechado_witness :
    respostaDuasNovas.success = true
    ∧ respostaDuasNovas.chamado_status ≠ "resolvido"
    ∧ 0 < respostaDuasNovas.total_novas
    ∧ Helpbot.paginaComChamado.chamadoAtual = some chamadoA
    ∧ Helpbot.paginaComChamado.modalAberto = false
    ∧ (Helpbot.verificarNovasMensagensInteligente_resposta
        (.resposta true (some respostaDuasNovas)) Helpbot.paginaComChamado).ultimaMensagemVisualizadaId
        = some "m5"
    ∧ Helpbot.indicadorVisivel (Helpbot.verificarNovasMensagensInteligente_resposta
        (.resposta true (some respostaDuasNovas)) Helpbot.paginaComChamado) = true :=
  ⟨rfl, by decide, by decide, rfl, rfl,
   (C4_helpbot_novas_com_modal_fechado Helpbot.paginaComChamado respostaDuasNovas chamadoA
      rfl (by decide) (by decide) rfl rfl).1,
   (C4_helpbot_novas_com_modal_fechado Helpbot.paginaComChamado respostaDuasNovas chamadoA
      rfl (by decide) (by decide) rfl rfl).2.2.2.2.1 rfl⟩

/-- C5, counterexample: helpbot variant, modal open, a successful body with two new
messages (non-empty ids) whose `chamado_status` is `resolvido`: nothing is appended to the
transcript and the marker is cleared instead of moving to `m5`. -/
theorem C5_contraexemplo_resolvido :
    respostaResolvidaComNovas.success = true
    ∧ respostaResolvidaComNovas.novas_mensagens ≠ []
    ∧ (∀ m ∈ respostaResolvidaComNovas.novas_mensagens, verdadeiro m.id = true)
    ∧ Helpbot.paginaModalAberto.modalAberto = true
    ∧ (Helpbot.verificarNovasMensagensInteligente_resposta
        (.resposta true (some respostaResolvidaComNovas)) Helpbot.paginaModalAberto).chatMessages
        = Helpbot.paginaModalAberto.chatMessages
    ∧ (Helpbot.verificarNovasMensagensInteligente_resposta
        (.resposta true (some respostaResolvidaComNovas)) Helpbot.paginaModalAberto).ultimaMensagemVisualizadaId
        = none := by
  decide

/-- C5, as amended: with the modal open, an active ticket and the `#chatMessages` element,
a successful body with `total_novas > 0` (helpbot: not resolved; static: tip different from
the marker) whose new messages all carry non-empty ids is appended in response order, the
marker becomes the id of the last appended message, and the unread flag keeps its value. -/
theorem C5_novas_com_modal_aberto
    (sh : Helpbot.State) (rh : ResultadoVerificacao) (ch : Chamado) (filhosH : List Bolha)
    (ss : Static.State) (rs : ResultadoVerificacao) (cs : Chamado) (filhosS : List Bolha)
    (hsucessoH : rh.success = true) (hstatusH : rh.chamado_status ≠ "resolvido")
    (hnovasH : 0 < rh.total_novas) (hneH : rh.novas_mensagens ≠ [])
    (hidsH : ∀ m ∈ rh.novas_mensagens, verdadeiro m.id = true)
    (hmodalH : sh.modalAberto = true) (hchamadoH : sh.chamadoAtual = some ch)
    (hchatH : sh.chatMessages = some filhosH)
    (hsucessoS : rs.success = true) (hnovasS : 0 < rs.total_novas)
    (hdifS : rs.ultima_visualizada_id ≠ ss.ultimaMensagemVisualizadaId)
    (hneS : rs.novas_mensagens ≠ [])
    (hidsS : ∀ m ∈ rs.novas_mensagens, verdadeiro m.id = true)
    (hmodalS : ss.modalAberto = true) (hchamadoS : ss.chamadoAtual = some cs)
    (hchatS : ss.chatMessages = some filhosS) :
    ((Helpbot.verificarNovasMensagensInteligente_resposta (.resposta true (some rh)) sh).chatMessages
        = some (filhosH ++ rh.novas_mensagens.map Mensagem.bolha)
      ∧ (Helpbot.verificarNovasMensagensInteligente_resposta (.resposta true (some rh)) sh).ultimaMensagemVisualizadaId
        = (rh.novas_mensagens.getLast hneH).id
      ∧ (Helpbot.verificarNovasMensagensInteligente_resposta (.resposta true (some rh)) sh).indicadorNovasMensagens
        = sh.indicadorNovasMensagens)
    ∧ ((Static.verificarNovasMensagensInteligente_resposta (.resposta true (some rs)) ss).chatMessages
        = some (filhosS ++ rs.novas_mensagens.map Mensagem.bolha)
      ∧ (Static.verificarNovasMensagensInteligente_resposta (.resposta true (some rs)) ss).ultimaMensagemVisualizadaId
        = (rs.novas_mensagens.getLast hneS).id
      ∧ (Static.verificarNovasMensagensInteligente_resposta (.resposta true (some rs)) ss).indicadorNovasMensagens
        = ss.indicadorNovasMensagens) := by
  constructor
  · obtain ⟨t, ht, htne⟩ := verdadeiro_some (hidsH _ (List.getLast_mem hneH))
    have hult := ultimoIdRenderizado_append_bolhas filhosH rh.novas_mensagens hneH
    rw [ht] at hult
    simp only [Option.getD_some] at hult
    have hadd := Helpbot.adicionarTodas_eq rh.novas_mensagens sh filhosH hchatH hidsH
    by_cases hm : some t = sh.ultimaMensagemVisualizadaId
    · simp [Helpbot.verificarNovasMensagensInteligente_resposta, Helpbot.aplicarVerificacao, Helpbot.aplicarVerificacao_resolvido,
      Helpbot.aplicarVerificacao_novas, Helpbot.aplicarVerificacao_fechado,
      Helpbot.aplicarVerificacao_aberto,
      Helpbot.aplicarVerificacao_semNovas,
        Helpbot.atualizarUltimaVisualizacao, Helpbot.salvarEstadoSistema,
        hsucessoH, hstatusH, hnovasH, hmodalH, hchamadoH, hadd, hult, ht, hm.symm, ← hm]
    · simp [Helpbot.verificarNovasMensagensInteligente_resposta, Helpbot.aplicarVerificacao, Helpbot.aplicarVerificacao_resolvido,
      Helpbot.aplicarVerificacao_novas, Helpbot.aplicarVerificacao_fechado,
      Helpbot.aplicarVerificacao_aberto,
      Helpbot.aplicarVerificacao_semNovas,
        Helpbot.atualizarUltimaVisualizacao, Helpbot.salvarEstadoSistema, verdadeiro,
        hsucessoH, hstatusH, hnovasH, hmodalH, hchamadoH, hadd, hult, ht, hm, htne]
  · obtain ⟨t, ht, htne⟩ := verdadeiro_some (hidsS _ (List.getLast_mem hneS))
    have hadd := Static.adicionarTodas_static_eq rs.novas_mensagens ss filhosS hchatS hidsS
    have hlast : (filhosS ++ rs.novas_mensagens.map Mensagem.bolha).getLast?
        = some (rs.novas_mensagens.getLast hneS).bolha := by
      simp [List.getLast?_eq_getLast _ hneS]
    by_cases hm : some t = ss.ultimaMensagemVisualizadaId
    · have hdif2 : rs.ultima_visualizada_id ≠ some t := by rw [hm]; exact hdifS
      simp [Static.verificarNovasMensagensInteligente_resposta, Static.aplicarVerificacao,
        Static.atualizarUltimaVisualizacao, Static.salvarEstadoVisualizacao,
        hsucessoS, hnovasS, hdif2, hmodalS, hchamadoS, hadd, hlast, ht, ← hm,
        Mensagem.bolha, Bolha.dataMessageId]
    · simp [Static.verificarNovasMensagensInteligente_resposta, Static.aplicarVerificacao,
        Static.atualizarUltimaVisualizacao, Static.salvarEstadoVisualizacao, verdadeiro,
        hsucessoS, hnovasS, hdifS, hmodalS, hchamadoS, hadd, hlast, ht, hm, htne,
        Mensagem.bolha, Bolha.dataMessageId]

/-- Witness for C5 as amended: two new messages arrive while the modal is open. -/
theorem C5_novas_com_modal_aberto_witness :
    Helpbot.paginaModalAberto.modalAberto = true
    ∧ Static.paginaModalAberto.modalAberto = true
    ∧ (Helpbot.verificarNovasMensagensInteligente_resposta
        (.resposta true (some respostaDuasNovas)) Helpbot.paginaModalAberto).ultimaMensagemVisualizadaId
        = some "m5"
    ∧ (Static.verificarNovasMensagensInteligente_resposta
        (.resposta true (some respostaDuasNovas)) Static.paginaModalAberto).ultimaMensagemVisualizadaId
        = some "m5" :=
  ⟨rfl, rfl,
   (C5_novas_com_modal_aberto Helpbot.paginaModalAberto respostaDuasNovas chamadoA _
      Static.paginaModalAberto respostaDuasNovas chamadoA _
      rfl (by decide) (by decide) (by decide) (by decide) rfl rfl rfl
      rfl (by decide) (by decide) (by decide) (by decide) rfl rfl rfl).1.2.1,
   (C5_novas_com_modal_aberto Helpbot.paginaModalAberto respostaDuasNovas chamadoA _
      Static.paginaModalAberto respostaDuasNovas chamadoA _
      rfl (by decide) (by decide) (by decide) (by decide) rfl rfl rfl
      rfl (by decide) (by decide) (by decide) (by decide) rfl rfl rfl).2.2.1⟩

/-- C6, counterexample: helpbot variant, a successful body with `total_novas = 0`, a tip
`m5` different from the marker `m3`, and `chamado_status` equal to `resolvido`: the marker
is cleared instead of becoming `m5`, the unread flag drops and the visible badge is hidden. -/
theorem C6_contraexemplo_resolvido :
    respostaResolvidaSemNovas.success = true
    ∧ respostaResolvidaSemNovas.total_novas = 0
    ∧ verdadeiro respostaResolvidaSemNovas.ultima_visualizada_id = true
    ∧ respostaResolvidaSemNovas.ultima_visualizada_id
        ≠ Helpbot.paginaComIndicador.ultimaMensagemVisualizadaId
    ∧ (Helpbot.verificarNovasMensagensInteligente_resposta
        (.resposta true (some respostaResolvidaSemNovas)) Helpbot.paginaComIndicador).ultimaMensagemVisualizadaId
        = none
    ∧ Helpbot.paginaComIndicador.indicadorNovasMensagens = true
    ∧ (Helpbot.verificarNovasMensagensInteligente_resposta
        (.resposta true (some respostaResolvidaSemNovas)) Helpbot.paginaComIndicador).indicadorNovasMensagens
        = false
    ∧ Helpbot.indicadorVisivel Helpbot.paginaComIndicador = true
    ∧ Helpbot.indicadorVisivel (Helpbot.verificarNovasMensagensInteligente_resposta
        (.resposta true (some respostaResolvidaSemNovas)) Helpbot.paginaComIndicador) = false := by
  decide

/-- C6, as amended: for a successful body with `total_novas = 0` (helpbot: not resolved),
a present tip that differs from the marker becomes the marker and is written to
`ultimaVisualizacao`; otherwise the state is untouched; the unread flag and the badge never
change. -/
theorem C6_sem_novas_adota_ponta
    (sh : Helpbot.State) (rh : ResultadoVerificacao)
    (ss : Static.State) (rs : ResultadoVerificacao)
    (hsucessoH : rh.success = true) (hstatusH : rh.chamado_status ≠ "resolvido")
    (hzeroH : rh.total_novas = 0)
    (hsucessoS : rs.success = true) (hzeroS : rs.total_novas = 0) :
    ((verdadeiro rh.ultima_visualizada_id = true
          ∧ rh.ultima_visualizada_id ≠ sh.ultimaMensagemVisualizadaId →
        (Helpbot.verificarNovasMensagensInteligente_resposta (.resposta true (some rh)) sh).ultimaMensagemVisualizadaId
            = rh.ultima_visualizada_id
        ∧ (Helpbot.verificarNovasMensagensInteligente_resposta (.resposta true (some rh)) sh).localStorage.ultimaVisualizacao
            = some (Guardado.valor
                { ultimaMensagemId := rh.ultima_visualizada_id, timestamp := sh.agora,
                  chamadoId := sh.chamadoAtual.map Chamado.chamado_id }))
      ∧ (¬ (verdadeiro rh.ultima_visualizada_id = true
            ∧ rh.ultima_visualizada_id ≠ sh.ultimaMensagemVisualizadaId) →
          Helpbot.verificarNovasMensagensInteligente_resposta (.resposta true (some rh)) sh = sh)
      ∧ (Helpbot.verificarNovasMensagensInteligente_resposta (.resposta true (some rh)) sh).indicadorNovasMensagens
          = sh.indicadorNovasMensagens
      ∧ (Helpbot.verificarNovasMensagensInteligente_resposta (.resposta true (some rh)) sh).indicador
          = sh.indicador)
    ∧ ((verdadeiro rs.ultima_visualizada_id = true
          ∧ rs.ultima_visualizada_id ≠ ss.ultimaMensagemVisualizadaId →
        (Static.verificarNovasMensagensInteligente_resposta (.resposta true (some rs)) ss).ultimaMensagemVisualizadaId
            = rs.ultima_visualizada_id
        ∧ (Static.verificarNovasMensagensInteligente_resposta (.resposta true (some rs)) ss).localStorage.ultimaVisualizacao
            = some (Guardado.valor
                { ultimaMensagemId := rs.ultima_visualizada_id, timestamp := ss.agora,
                  chamadoId := ss.chamadoAtual.map Chamado.chamado_id }))
      ∧ (¬ (verdadeiro rs.ultima_visualizada_id = true
            ∧ rs.ultima_visualizada_id ≠ ss.ultimaMensagemVisualizadaId) →
          Static.verificarNovasMensagensInteligente_resposta (.resposta true (some rs)) ss = ss)
      ∧ (Static.verificarNovasMensagensInteligente_resposta (.resposta true (some rs)) ss).indicadorNovasMensagens
          = ss.indicadorNovasMensagens
      ∧ (Static.verificarNovasMensagensInteligente_resposta (.resposta true (some rs)) ss).indicador
          = ss.indicador) := by
  refine ⟨⟨?_, ?_, ?_, ?_⟩, ⟨?_, ?_, ?_, ?_⟩⟩
  · rintro ⟨hv, hd⟩
    simp [Helpbot.verificarNovasMensagensInteligente_resposta, Helpbot.aplicarVerificacao, Helpbot.aplicarVerificacao_resolvido,
      Helpbot.aplicarVerificacao_novas, Helpbot.aplicarVerificacao_fechado,
      Helpbot.aplicarVerificacao_aberto,
      Helpbot.aplicarVerificacao_semNovas,
      Helpbot.salvarEstadoSistema, hsucessoH, hstatusH, hzeroH, hv, hd]
  · intro hn
    simp only [not_and_or, not_not] at hn
    rcases hn with hn | hn <;>
      simp [Helpbot.verificarNovasMensagensInteligente_resposta, Helpbot.aplicarVerificacao, Helpbot.aplicarVerificacao_resolvido,
      Helpbot.aplicarVerificacao_novas, Helpbot.aplicarVerificacao_fechado,
      Helpbot.aplicarVerificacao_aberto,
      Helpbot.aplicarVerificacao_semNovas,
        hsucessoH, hstatusH, hzeroH, hn]
  · by_cases hc : verdadeiro rh.ultima_visualizada_id = true
        ∧ rh.ultima_visualizada_id ≠ sh.ultimaMensagemVisualizadaId <;>
      simp [Helpbot.verificarNovasMensagensInteligente_resposta, Helpbot.aplicarVerificacao, Helpbot.aplicarVerificacao_resolvido,
      Helpbot.aplicarVerificacao_novas, Helpbot.aplicarVerificacao_fechado,
      Helpbot.aplicarVerificacao_aberto,
      Helpbot.aplicarVerificacao_semNovas,
        Helpbot.salvarEstadoSistema, hsucessoH, hstatusH, hzeroH, hc]
  · by_cases hc : verdadeiro rh.ultima_visualizada_id = true
        ∧ rh.ultima_visualizada_id ≠ sh.ultimaMensagemVisualizadaId <;>
      simp [Helpbot.verificarNovasMensagensInteligente_resposta, Helpbot.aplicarVerificacao, Helpbot.aplicarVerificacao_resolvido,
      Helpbot.aplicarVerificacao_novas, Helpbot.aplicarVerificacao_fechado,
      Helpbot.aplicarVerificacao_aberto,
      Helpbot.aplicarVerificacao_semNovas,
        Helpbot.salvarEstadoSistema, hsucessoH, hstatusH, hzeroH, hc]
  · rintro ⟨hv, hd⟩
    simp [Static.verificarNovasMensagensInteligente_resposta, Static.aplicarVerificacao,
      Static.salvarEstadoVisualizacao, hsucessoS, hzeroS, hv, hd]
  · intro hn
    simp only [not_and_or, not_not] at hn
    rcases hn with hn | hn <;>
      simp [Static.verificarNovasMensagensInteligente_resposta, Static.aplicarVerificacao,
        hsucessoS, hzeroS, hn]
  · by_cases hc : verdadeiro rs.ultima_visualizada_id = true
        ∧ rs.ultima_visualizada_id ≠ ss.ultimaMensagemVisualizadaId <;>
      simp [Static.verificarNovasMensagensInteligente_resposta, Static.aplicarVerificacao,
        Static.salvarEstadoVisualizacao, hsucessoS, hzeroS, hc]
  · by_cases hc : verdadeiro rs.ultima_visualizada_id = true
        ∧ rs.ultima_visualizada_id ≠ ss.ultimaMensagemVisualizadaId <;>
      simp [Static.verificarNovasMensagensInteligente_resposta, Static.aplicarVerificacao,
        Static.salvarEstadoVisualizacao, hsucessoS, hzeroS, hc]

/-- Witness for C6 as amended: the tip `m5` is adopted on both pages without new messages. -/
theorem C6_sem_novas_adota_ponta_witness :
    respostaSemNovas.success = true
    ∧ respostaSemNovas.chamado_status ≠ "resolvido"
    ∧ respostaSemNovas.total_novas = 0
    ∧ (Helpbot.verificarNovasMensagensInteligente_resposta
        (.resposta true (some respostaSemNovas)) Helpbot.paginaComIndicador).ultimaMensagemVisualizadaId
        = some "m5"
    ∧ (Helpbot.verificarNovasMensagensInteligente_resposta
        (.resposta true (some respostaSemNovas)) Helpbot.paginaComIndicador).indicador
        = Helpbot.paginaComIndicador.indicador
    ∧ (Static.verificarNovasMensagensInteligente_resposta
        (.resposta true (some respostaSemNovas)) Static.paginaComChamado).ultimaMensagemVisualizadaId
        = some "m5" :=
  ⟨rfl, by decide, rfl,
   ((C6_sem_novas_adota_ponta Helpbot.paginaComIndicador respostaSemNovas
      Static.paginaComChamado respostaSemNovas rfl (by decide) rfl rfl rfl).1.1
        ⟨by decide, by decide⟩).1,
   (C6_sem_novas_adota_ponta Helpbot.paginaComIndicador respostaSemNovas
      Static.paginaComChamado respostaSemNovas rfl (by decide) rfl rfl rfl).1.2.2.2,
   ((C6_sem_novas_adota_ponta Helpbot.paginaComIndicador respostaSemNovas
      Static.paginaComChamado respostaSemNovas rfl (by decide) rfl rfl rfl).2.1
        ⟨by decide, by decide⟩).1⟩

/-- C7: helpbot variant, a successful body whose `chamado_status` is `resolvido`, from any
prior state: ticket, marker and user type are null, the unread flag is false, the four
storage keys are absent, both interval handles are null, the badge is not visible, input and
send button (whenever the page has them) are disabled, and the transcript is untouched. -/
theorem C7_helpbot_resolvido_encerra (s : Helpbot.State) (r : ResultadoVerificacao)
    (hsucesso : r.success = true) (hstatus : r.chamado_status = "resolvido") :
    (Helpbot.verificarNovasMensagensInteligente_resposta (.resposta true (some r)) s).chamadoAtual = none
    ∧ (Helpbot.verificarNovasMensagensInteligente_resposta (.resposta true (some r)) s).ultimaMensagemVisualizadaId = none
    ∧ (Helpbot.verificarNovasMensagensInteligente_resposta (.resposta true (some r)) s).tipoUsuario = none
    ∧ (Helpbot.verificarNovasMensagensInteligente_resposta (.resposta true (some r)) s).indicadorNovasMensagens = false
    ∧ (Helpbot.verificarNovasMensagensInteligente_resposta (.resposta true (some r)) s).localStorage.chamadoAtual = none
    ∧ (Helpbot.verificarNovasMensagensInteligente_resposta (.resposta true (some r)) s).localStorage.ultimaVisualizacao = none
    ∧ (Helpbot.verificarNovasMensagensInteligente_resposta (.resposta true (some r)) s).localStorage.indicadorNovasMensagens = none
    ∧ (Helpbot.verificarNovasMensagensInteligente_resposta (.resposta true (some r)) s).localStorage.tipoUsuario = none
    ∧ (Helpbot.verificarNovasMensagensInteligente_resposta (.resposta true (some r)) s).intervaloAtualizacao = none
    ∧ (Helpbot.verificarNovasMensagensInteligente_resposta (.resposta true (some r)) s).intervaloVerificacaoAutomatica = none
    ∧ Helpbot.indicadorVisivel
        (Helpbot.verificarNovasMensagensInteligente_resposta (.resposta true (some r)) s) = false
    ∧ (Helpbot.verificarNovasMensagensInteligente_resposta (.resposta true (some r)) s).messageInput.map
          Helpbot.CampoMensagem.disabled = s.messageInput.map (fun _ => true)
    ∧ (Helpbot.verificarNovasMensagensInteligente_resposta (.resposta true (some r)) s).sendBtn.map
          Helpbot.BotaoEnviar.disabled = s.sendBtn.map (fun _ => true)
    ∧ (Helpbot.verificarNovasMensagensInteligente_resposta (.resposta true (some r)) s).chatMessages
        = s.chatMessages := by
  have h : Helpbot.verificarNovasMensagensInteligente_resposta (.resposta true (some r)) s
      = Helpbot.resetarEstadoSistema (Helpbot.desativarChat (Helpbot.ocultarIndicadorResolvido s)) := by
    simp [Helpbot.verificarNovasMensagensInteligente_resposta, Helpbot.aplicarVerificacao,
      Helpbot.aplicarVerificacao_resolvido, hsucesso, hstatus]
  rw [h]
  rcases hi : s.indicador with _ | ⟨_ | _, p⟩ <;>
  rcases ha : s.intervaloAtualizacao with _ | a <;>
  rcases hv : s.intervaloVerificacaoAutomatica with _ | b <;>
  rcases hm : s.messageInput with _ | m <;>
  rcases hb : s.sendBtn with _ | bt <;>
  simp [Helpbot.resetarEstadoSistema, Helpbot.desativarChat, Helpbot.ocultarIndicadorResolvido,
    Helpbot.pararAtualizacaoAutomatica, Helpbot.pararVerificacoesAutomaticas,
    Helpbot.clearInterval, Helpbot.indicadorVisivel, Armazenamento.vazio, hi, ha, hv, hm, hb]



/-- Witness for C7: the resolved body with two new messages on a page that shows the badge. -/
theorem C7_helpbot_resolvido_encerra_witness :
    respostaResolvidaComNovas.success = true
    ∧ respostaResolvidaComNovas.chamado_status = "resolvido"
    ∧ (Helpbot.verificarNovasMensagensInteligente_resposta
        (.resposta true (some respostaResolvidaComNovas)) Helpbot.paginaComIndicador).chamadoAtual
        = none
    ∧ Helpbot.indicadorVisivel (Helpbot.verificarNovasMensagensInteligente_resposta
        (.resposta true (some respostaResolvidaComNovas)) Helpbot.paginaComIndicador) = false :=
  ⟨rfl, rfl,
   (C7_helpbot_resolvido_encerra Helpbot.paginaComIndicador respostaResolvidaComNovas
      rfl rfl).1,
   (C7_helpbot_resolvido_encerra Helpbot.paginaComIndicador respostaResolvidaComNovas
      rfl rfl).2.2.2.2.2.2.2.2.2.2.1⟩

/-- C8, counterexample: helpbot variant. The page-load validation `carregarChamadoSalvo` and
a poll are both in flight; the poll is answered first, with a resolved body, and the session
is torn down (`chamadoAtual` null). When the outcome of the validation arrives afterwards
with an open status, it installs the ticket it had read before its request: the next tick of
the 30 s interval, the next tick of the 2 min interval and the next call of
`verificarNovasMensagensInteligente` each issue a request. -/
theorem C8_contraexemplo_validacao_tardia :
    Helpbot.comValidacaoPendente.pedidos
      = [Pedido.carregarMensagens "17", Pedido.verificarMensagensInteligente "17" ""]
    ∧ Helpbot.resolvidoComValidacaoPendente.chamadoAtual = none
    ∧ Helpbot.resolvidoComValidacaoPendente.localStorage.chamadoAtual = none
    ∧ (Helpbot.executar Helpbot.validacaoTardia
        Helpbot.resolvidoComValidacaoPendente).chamadoAtual = some chamadoA
    ∧ (Helpbot.tickVerificacaoMensagens (Helpbot.executar Helpbot.validacaoTardia
        Helpbot.resolvidoComValidacaoPendente)).2
      = some (Pedido.verificarMensagensInteligente "17" "")
    ∧ (Helpbot.tickSegundoPlano (Helpbot.executar Helpbot.validacaoTardia
        Helpbot.resolvidoComValidacaoPendente)).2
      = some Pedido.verificarNotificacoes
    ∧ (Helpbot.verificarNovasMensagensInteligente_inicio (Helpbot.executar
        Helpbot.validacaoTardia Helpbot.resolvidoComValidacaoPendente)).2
      = some (Pedido.verificarMensagensInteligente "17" "") := by
  refine ⟨?_, ?_, ?_, ?_, ?_, ?_, ?_⟩ <;> decide

/-- C8, as amended: helpbot variant. Once a successful body with `chamado_status` equal to
`resolvido` has been processed, then after any sequence of later operations (timer ticks,
calls of the two polls and their late responses, modal open and close, load, save, reset,
a new run of the page-load validation), none of which is a storage event of another tab,
the late outcome of a validation requested before, or a ticket creation, the fetch log is
unchanged, and a further tick of the 2 min interval, a further tick of the 30 s interval, a
further call of `verificarNovasMensagensInteligente` and a further call of
`verificarNotificacoesAutomaticas` each issue no request. -/
theorem C8_helpbot_inerte_apos_resolvido (s : Helpbot.State) (r : ResultadoVerificacao)
    (ops : List Helpbot.Operacao)
    (hsucesso : r.success = true) (hstatus : r.chamado_status = "resolvido")
    (hlocal : ∀ op ∈ ops, op.local = true) :
    (Helpbot.executarTodas ops
        (Helpbot.verificarNovasMensagensInteligente_resposta (.resposta true (some r)) s)).pedidos
      = (Helpbot.verificarNovasMensagensInteligente_resposta (.resposta true (some r)) s).pedidos
    ∧ (Helpbot.tickSegundoPlano (Helpbot.executarTodas ops
        (Helpbot.verificarNovasMensagensInteligente_resposta (.resposta true (some r)) s))).2
      = none
    ∧ (Helpbot.tickVerificacaoMensagens (Helpbot.executarTodas ops
        (Helpbot.verificarNovasMensagensInteligente_resposta (.resposta true (some r)) s))).2
      = none
    ∧ (Helpbot.verificarNovasMensagensInteligente_inicio (Helpbot.executarTodas ops
        (Helpbot.verificarNovasMensagensInteligente_resposta (.resposta true (some r)) s))).2
      = none
    ∧ (Helpbot.verificarNotificacoesAutomaticas_inicio (Helpbot.executarTodas ops
        (Helpbot.verificarNovasMensagensInteligente_resposta (.resposta true (some r)) s))).2
      = none := by
  have h0 : Helpbot.SemChamado
      (Helpbot.verificarNovasMensagensInteligente_resposta (.resposta true (some r)) s) := by
    have e : Helpbot.verificarNovasMensagensInteligente_resposta (.resposta true (some r)) s
        = Helpbot.resetarEstadoSistema
            (Helpbot.desativarChat (Helpbot.ocultarIndicadorResolvido s)) := by
      simp [Helpbot.verificarNovasMensagensInteligente_resposta, Helpbot.aplicarVerificacao,
        Helpbot.aplicarVerificacao_resolvido, hsucesso, hstatus]
    rw [e]
    exact Helpbot.semChamado_resetarEstadoSistema _
  have hq := Helpbot.quieto_executarTodas ops _ hlocal h0
  generalize Helpbot.executarTodas ops
    (Helpbot.verificarNovasMensagensInteligente_resposta (.resposta true (some r)) s) = sF at hq
  obtain ⟨hsem, hped⟩ := hq
  refine ⟨hped, ?_, ?_, ?_, ?_⟩
  · simp [Helpbot.tickSegundoPlano, hsem.1]
  · simp [Helpbot.tickVerificacaoMensagens, hsem.1]
  · rw [Helpbot.verificarNovasMensagensInteligente_inicio_semChamado hsem]
  · rw [Helpbot.verificarNotificacoesAutomaticas_inicio_semChamado hsem]

/-- Witness for C8 as amended: after the resolved body on `paginaComIndicador`, timers fire, both polls
are called, the modal is opened and closed and a late body arrives; no request is issued. -/
theorem C8_helpbot_inerte_apos_resolvido_witness :
    respostaResolvidaComNovas.success = true
    ∧ respostaResolvidaComNovas.chamado_status = "resolvido"
    ∧ (∀ op ∈ Helpbot.eventosPosteriores, op.local = true)
    ∧ (Helpbot.executarTodas Helpbot.eventosPosteriores
        (Helpbot.verificarNovasMensagensInteligente_resposta
          (.resposta true (some respostaResolvidaComNovas)) Helpbot.paginaComIndicador)).pedidos
      = [] :=
  ⟨rfl, rfl, by decide,
   (C8_helpbot_inerte_apos_resolvido Helpbot.paginaComIndicador respostaResolvidaComNovas
      Helpbot.eventosPosteriores rfl rfl (by decide)).1⟩

/-- C9, counterexample: on a page without the badge element whose storage holds the unread
flag `true`, the `shown.bs.modal` listener leaves `indicadorNovasMensagens` true and the
stored entry `true`. -/
theorem C9_contraexemplo_sem_elemento :
    Helpbot.paginaSemIndicador.indicador = none
    ∧ (Helpbot.aoAbrirModal Helpbot.paginaSemIndicador).modalAberto = true
    ∧ (Helpbot.aoAbrirModal Helpbot.paginaSemIndicador).indicadorNovasMensagens = true
    ∧ (Helpbot.aoAbrirModal Helpbot.paginaSemIndicador).localStorage.indicadorNovasMensagens
        = some "true" := by
  decide

/-- C9, as amended: after the `shown.bs.modal` listener, from any prior state, `modalAberto`
is true and the badge is not visible; when the page has the badge element, the unread flag
is false and the stored `indicadorNovasMensagens` entry is `false`. -/
theorem C9_helpbot_abrir_modal (s : Helpbot.State) :
    (Helpbot.aoAbrirModal s).modalAberto = true
    ∧ Helpbot.indicadorVisivel (Helpbot.aoAbrirModal s) = false
    ∧ (s.indicador.isSome = true →
        (Helpbot.aoAbrirModal s).indicadorNovasMensagens = false
        ∧ (Helpbot.aoAbrirModal s).localStorage.indicadorNovasMensagens = some "false") :=
  ⟨(Helpbot.aoAbrirModal_spec s).1, (Helpbot.aoAbrirModal_spec s).2.1,
   fun h => (Helpbot.aoAbrirModal_spec s).2.2 h⟩

/-- Witness for C9 as amended: the modal is opened on a page that shows the badge. -/
theorem C9_helpbot_abrir_modal_witness :
    Helpbot.paginaComIndicador.indicador.isSome = true
    ∧ (Helpbot.aoAbrirModal Helpbot.paginaComIndicador).indicadorNovasMensagens = false
    ∧ (Helpbot.aoAbrirModal Helpbot.paginaComIndicador).localStorage.indicadorNovasMensagens
        = some "false" :=
  ⟨rfl, (C9_helpbot_abrir_modal Helpbot.paginaComIndicador).2.2 rfl⟩

/-- C10, counterexample: static variant, a successful history body whose status contains
`resolvido`: the in-memory `chamadoAtual` still holds the ticket afterwards. -/
theorem C10_contraexemplo_chamado_em_memoria :
    historicoResolvido.success = true
    ∧ statusResolvido historicoResolvido.status = true
    ∧ (Static.carregarMensagensChamado_resposta (.resposta true (some historicoResolvido))
        Static.paginaComChamado).chamadoAtual = some chamadoA := by
  decide

/-- C10, as amended: after `carregarMensagensChamado` has processed a successful history body
whose status contains `resolvido`, composition is disabled (static: the input carries
`chat-disabled`; helpbot: input and send button, when present, are disabled), the interval
handles held by the controller are null and their intervals cleared, and the stored
`chamadoAtual` entry is absent; the static variant leaves the in-memory `chamadoAtual` as it
was. -/
theorem C10_historico_resolvido_bloqueia
    (sh : Helpbot.State) (ss : Static.State) (rh rs : ResultadoHistorico) (okh oks : Bool)
    (hsucessoH : rh.success = true) (hresH : statusResolvido rh.status = true)
    (hsucessoS : rs.success = true) (hresS : statusResolvido rs.status = true) :
    ((Helpbot.carregarMensagensChamado_resposta (.resposta okh (some rh)) sh).messageInput.map
          Helpbot.CampoMensagem.disabled = sh.messageInput.map (fun _ => true)
      ∧ (Helpbot.carregarMensagensChamado_resposta (.resposta okh (some rh)) sh).sendBtn.map
          Helpbot.BotaoEnviar.disabled = sh.sendBtn.map (fun _ => true)
      ∧ (Helpbot.carregarMensagensChamado_resposta (.resposta okh (some rh)) sh).intervaloAtualizacao
          = none
      ∧ (Helpbot.carregarMensagensChamado_resposta (.resposta okh (some rh)) sh).intervaloVerificacaoAutomatica
          = none
      ∧ (∀ h, sh.intervaloAtualizacao = some h ∨ sh.intervaloVerificacaoAutomatica = some h →
          ∀ p ∈ (Helpbot.carregarMensagensChamado_resposta (.resposta okh (some rh)) sh).intervalos,
            p.1 ≠ h)
      ∧ (Helpbot.carregarMensagensChamado_resposta (.resposta okh (some rh)) sh).localStorage.chamadoAtual
          = none)
    ∧ (Static.composicaoBloqueada
          (Static.carregarMensagensChamado_resposta (.resposta oks (some rs)) ss) = true
      ∧ (Static.carregarMensagensChamado_resposta (.resposta oks (some rs)) ss).intervaloAtualizacao
          = none
      ∧ (∀ h, ss.intervaloAtualizacao = some h →
          ∀ p ∈ (Static.carregarMensagensChamado_resposta (.resposta oks (some rs)) ss).intervalos,
            p.1 ≠ h)
      ∧ (Static.carregarMensagensChamado_resposta (.resposta oks (some rs)) ss).localStorage.chamadoAtual
          = none
      ∧ (Static.carregarMensagensChamado_resposta (.resposta oks (some rs)) ss).chamadoAtual
          = ss.chamadoAtual) := by
  constructor
  · obtain ⟨cm, m, ls, u, h⟩ := Helpbot.aplicarHistorico_mensagens_eq rh sh
    have hf : (Helpbot.aplicarHistorico_mensagens rh sh).messageInput = sh.messageInput
        ∧ (Helpbot.aplicarHistorico_mensagens rh sh).sendBtn = sh.sendBtn
        ∧ (Helpbot.aplicarHistorico_mensagens rh sh).intervaloAtualizacao = sh.intervaloAtualizacao
        ∧ (Helpbot.aplicarHistorico_mensagens rh sh).intervaloVerificacaoAutomatica
            = sh.intervaloVerificacaoAutomatica := by
      rw [h]; exact ⟨rfl, rfl, rfl, rfl⟩
    obtain ⟨f1, f2, f3, f4⟩ := hf
    have hs := Helpbot.aplicarHistorico_resolvido_spec (Helpbot.aplicarHistorico_mensagens rh sh)
    rw [f1, f2, f3, f4] at hs
    have hrw : Helpbot.carregarMensagensChamado_resposta (.resposta okh (some rh)) sh
        = { Helpbot.aplicarHistorico_resolvido (Helpbot.aplicarHistorico_mensagens rh sh) with
            carregandoMensagens := false } := by
      simp [Helpbot.carregarMensagensChamado_resposta, Helpbot.aplicarHistorico, hsucessoH, hresH]
    rw [hrw]
    dsimp only
    obtain ⟨h1, h2, h3, h4, h5, h6⟩ := hs
    refine ⟨h1, h2, h3, h4, h5, ?_⟩
    rw [h6]; rfl
  · obtain ⟨cm, m, ls, u, h⟩ := Static.aplicarHistorico_mensagens_static_eq rs ss
    have hf : (Static.aplicarHistorico_mensagens rs ss).intervaloAtualizacao = ss.intervaloAtualizacao
        ∧ (Static.aplicarHistorico_mensagens rs ss).chamadoAtual = ss.chamadoAtual := by
      rw [h]; exact ⟨rfl, rfl⟩
    obtain ⟨f1, f2⟩ := hf
    have hs := Static.aplicarHistorico_resolvido_static_spec (Static.aplicarHistorico_mensagens rs ss)
    rw [f1, f2] at hs
    have hrw : Static.carregarMensagensChamado_resposta (.resposta oks (some rs)) ss
        = { Static.aplicarHistorico_resolvido (Static.aplicarHistorico_mensagens rs ss) with
            carregandoMensagens := false } := by
      simp [Static.carregarMensagensChamado_resposta, Static.aplicarHistorico, hsucessoS, hresS]
    rw [hrw]
    exact hs

/-- Witness for C10 as amended: the resolved history arrives on both example pages. -/
theorem C10_historico_resolvido_bloqueia_witness :
    historicoResolvido.success = true
    ∧ statusResolvido historicoResolvido.status = true
    ∧ (Helpbot.carregarMensagensChamado_resposta (.resposta true (some historicoResolvido))
        Helpbot.paginaComChamado).localStorage.chamadoAtual = none
    ∧ Static.composicaoBloqueada
        (Static.carregarMensagensChamado_resposta (.resposta true (some historicoResolvido))
          Static.paginaComChamado) = true :=
  ⟨rfl, by decide,
   (C10_historico_resolvido_bloqueia Helpbot.paginaComChamado Static.paginaComChamado
      historicoResolvido historicoResolvido true true rfl (by decide) rfl (by decide)).1.2.2.2.2.2,
   (C10_historico_resolvido_bloqueia Helpbot.paginaComChamado Static.paginaComChamado
      historicoResolvido historicoResolvido true true rfl (by decide) rfl (by decide)).2.1⟩

/-- C11, the code at the failing input: the tab holds ticket 17 with marker `m3`, and the
stored marker record is the one of ticket 17. Another tab stores ticket 18 and the
`storage` event for `chamadoAtual` is handled: the in-memory ticket is 18, the marker is
still `m3`, and the next poll asks for ticket 18 with `ultima_visualizada_id=m3`. -/
theorem C11_helpbot_troca_de_chamado_mantem_marcador :
    Helpbot.paginaComChamado.chamadoAtual = some chamadoA
    ∧ Helpbot.paginaComChamado.ultimaMensagemVisualizadaId = some "m3"
    ∧ Helpbot.paginaComChamado.localStorage.ultimaVisualizacao
        = some (Guardado.valor registoDoChamadoA)
    ∧ registoDoChamadoA.chamadoId = some chamadoA.chamado_id
    ∧ chamadoB.chamado_id ≠ chamadoA.chamado_id
    ∧ Helpbot.aposTrocaDeChamado.chamadoAtual = some chamadoB
    ∧ Helpbot.aposTrocaDeChamado.ultimaMensagemVisualizadaId = some "m3"
    ∧ (Helpbot.verificarNovasMensagensInteligente_inicio Helpbot.aposTrocaDeChamado).2
        = some (Pedido.verificarMensagensInteligente "18" "m3") := by
  refine ⟨?_, ?_, ?_, ?_, ?_, ?_, ?_, ?_⟩ <;> decide

/-- C12: helpbot variant. The stored ticket is accepted by the server as unresolved and
the entry `ultimaVisualizacao` holds a record. After `carregarChamadoSalvo` the ticket is
the stored one; when the `chamadoId` of the record equals the `chamado_id` of the ticket the
marker is the `ultimaMensagemId` of the record; otherwise the marker is null and the stored
record has `ultimaMensagemId` null and `chamadoId` equal to the id of the active ticket. -/
theorem C12_helpbot_chamado_salvo_marcador (s : Helpbot.State) (c : Chamado)
    (e : EstadoVisualizacao) (r : ResultadoHistorico)
    (hc : s.localStorage.chamadoAtual = some (Guardado.valor c))
    (he : s.localStorage.ultimaVisualizacao = some (Guardado.valor e))
    (hsucesso : r.success = true) (haberto : statusResolvido r.status = false) :
    (Helpbot.carregarChamadoSalvo (.resposta true (some r)) s).chamadoAtual = some c
    ∧ (e.chamadoId = some c.chamado_id →
        (Helpbot.carregarChamadoSalvo (.resposta true (some r)) s).ultimaMensagemVisualizadaId
          = e.ultimaMensagemId)
    ∧ (e.chamadoId ≠ some c.chamado_id →
        (Helpbot.carregarChamadoSalvo (.resposta true (some r)) s).ultimaMensagemVisualizadaId
          = none
        ∧ (Helpbot.carregarChamadoSalvo (.resposta true (some r)) s).localStorage.ultimaVisualizacao
          = some (Guardado.valor
              { ultimaMensagemId := none, timestamp := s.agora,
                chamadoId := some c.chamado_id })) := by
  have e1 : Helpbot.carregarChamadoSalvo (.resposta true (some r)) s
      = Helpbot.carregarChamadoSalvo_resposta c (.resposta true (some r))
          (Helpbot.fetch (Pedido.carregarMensagens c.chamado_id) s) := by
    simp [Helpbot.carregarChamadoSalvo, Helpbot.carregarChamadoSalvo_inicio, hc]
  rw [e1]
  by_cases hid : e.chamadoId = some c.chamado_id
  · simp [Helpbot.carregarChamadoSalvo_resposta, Helpbot.carregarChamadoSalvo_visualizacao,
      Helpbot.fetch, Helpbot.setTimeout, hsucesso, haberto, he, hid]
  · simp [Helpbot.carregarChamadoSalvo_resposta, Helpbot.carregarChamadoSalvo_visualizacao,
      Helpbot.fetch, Helpbot.setTimeout, Helpbot.salvarEstadoSistema, hsucesso, haberto, he, hid]

/-- Witness for C12: storage holds ticket 17 and a record written for ticket 18; the
server answers with an open status. -/
theorem C12_helpbot_chamado_salvo_marcador_witness :
    Helpbot.paginaComRegistoAlheio.localStorage.chamadoAtual = some (Guardado.valor chamadoA)
    ∧ registoDoChamadoB.chamadoId ≠ some chamadoA.chamado_id
    ∧ (Helpbot.carregarChamadoSalvo (.resposta true (some historicoAberto))
        Helpbot.paginaComRegistoAlheio).ultimaMensagemVisualizadaId = none
    ∧ (Helpbot.carregarChamadoSalvo (.resposta true (some historicoAberto))
        Helpbot.paginaComRegistoAlheio).localStorage.ultimaVisualizacao
      = some (Guardado.valor
          { ultimaMensagemId := none, timestamp := 700, chamadoId := some "17" }) :=
  ⟨rfl, by decide,
   ((C12_helpbot_chamado_salvo_marcador Helpbot.paginaComRegistoAlheio chamadoA
      registoDoChamadoB historicoAberto rfl rfl rfl (by decide)).2.2 (by decide)).1,
   ((C12_helpbot_chamado_salvo_marcador Helpbot.paginaComRegistoAlheio chamadoA
      registoDoChamadoB historicoAberto rfl rfl rfl (by decide)).2.2 (by decide)).2⟩

/-- C13: both variants. `enviarChamado` receives a body with `success`. In the state in
which the history load is then called no request has been issued since the response, the
ticket is the new one, the marker is null and the stored record `ultimaVisualizacao` has
`ultimaMensagemId` null and `chamadoId` equal to the `chamado_id` of the new ticket; the
only request the continuation issues at that point is the history load. -/
theorem C13_novo_chamado_zera_marcador (sh : Helpbot.State) (ss : Static.State)
    (result : ResultadoCriacao) (ok : Bool) (hsucesso : result.success = true) :
    (Helpbot.enviarChamado_resposta (.resposta ok (some result)) sh
        = Helpbot.carregarMensagensChamado_inicio result.chamado.chamado_id
            (Helpbot.enviarChamado_sucesso result.chamado sh)
      ∧ (Helpbot.enviarChamado_sucesso result.chamado sh).pedidos = sh.pedidos
      ∧ (Helpbot.enviarChamado_sucesso result.chamado sh).chamadoAtual = some result.chamado
      ∧ (Helpbot.enviarChamado_sucesso result.chamado sh).ultimaMensagemVisualizadaId = none
      ∧ (Helpbot.enviarChamado_sucesso result.chamado sh).localStorage.ultimaVisualizacao
          = some (Guardado.valor
              { ultimaMensagemId := none, timestamp := sh.agora,
                chamadoId := some result.chamado.chamado_id }))
    ∧ (Static.enviarChamado_resposta (.resposta ok (some result)) ss
        = Static.carregarMensagensChamado_inicio result.chamado.chamado_id
            (Static.enviarChamado_sucesso result.chamado ss)
      ∧ (Static.enviarChamado_sucesso result.chamado ss).pedidos = ss.pedidos
      ∧ (Static.enviarChamado_sucesso result.chamado ss).chamadoAtual = some result.chamado
      ∧ (Static.enviarChamado_sucesso result.chamado ss).ultimaMensagemVisualizadaId = none
      ∧ (Static.enviarChamado_sucesso result.chamado ss).localStorage.ultimaVisualizacao
          = some (Guardado.valor
              { ultimaMensagemId := none, timestamp := ss.agora,
                chamadoId := some result.chamado.chamado_id })) := by
  refine ⟨⟨?_, ?_, ?_, ?_, ?_⟩, ⟨?_, ?_, ?_, ?_, ?_⟩⟩
  · simp [Helpbot.enviarChamado_resposta, hsucesso]
  · simp only [Helpbot.enviarChamado_sucesso, Helpbot.enviarChamado_tipoUsuario]
    split <;> rfl
  · simp only [Helpbot.enviarChamado_sucesso, Helpbot.enviarChamado_tipoUsuario]
    split <;> rfl
  · simp only [Helpbot.enviarChamado_sucesso, Helpbot.enviarChamado_tipoUsuario]
    split <;> rfl
  · simp only [Helpbot.enviarChamado_sucesso, Helpbot.enviarChamado_tipoUsuario]
    split <;> rfl
  · simp [Static.enviarChamado_resposta, hsucesso]
  · rfl
  · rfl
  · rfl
  · rfl

/-- Witness for C13: the creation body of ticket 18 arrives on the pages of ticket 17,
whose marker was `m3`. -/
theorem C13_novo_chamado_zera_marcador_witness :
    criacaoDoChamadoB.success = true
    ∧ Helpbot.paginaComChamado.ultimaMensagemVisualizadaId = some "m3"
    ∧ (Helpbot.enviarChamado_sucesso chamadoB Helpbot.paginaComChamado).ultimaMensagemVisualizadaId
        = none
    ∧ (Static.enviarChamado_sucesso chamadoB Static.paginaComChamado).localStorage.ultimaVisualizacao
        = some (Guardado.valor
            { ultimaMensagemId := none, timestamp := 2000, chamadoId := some "18" }) :=
  ⟨rfl, rfl,
   (C13_novo_chamado_zera_marcador Helpbot.paginaComChamado Static.paginaComChamado
      criacaoDoChamadoB true rfl).1.2.2.2.1,
   (C13_novo_chamado_zera_marcador Helpbot.paginaComChamado Static.paginaComChamado
      criacaoDoChamadoB true rfl).2.2.2.2.2⟩

/-- C14: helpbot variant. Another tab has written the ticket `T` under `chamadoAtual` and a
record with marker `M` under `ultimaVisualizacao`; this tab has no ticket in memory. Once
the listener has handled the two `storage` events, in the order of the writes or in the
other order, the in-memory ticket is `T` and the marker is `M`; the listener takes both
from the event and from storage and issues no request. -/
theorem C14_helpbot_convergencia_entre_abas (s : Helpbot.State) (T : Chamado)
    (registo : EstadoVisualizacao) (hsem : s.chamadoAtual = none) :
    ((Helpbot.aoEventoStorage (.ultimaVisualizacao (some (.valor registo)))
        (Helpbot.aoEventoStorage (.chamadoAtual (some (.valor T)))
          (Helpbot.outraAbaGuarda T registo s))).chamadoAtual = some T
      ∧ (Helpbot.aoEventoStorage (.ultimaVisualizacao (some (.valor registo)))
        (Helpbot.aoEventoStorage (.chamadoAtual (some (.valor T)))
          (Helpbot.outraAbaGuarda T registo s))).ultimaMensagemVisualizadaId
          = registo.ultimaMensagemId
      ∧ (Helpbot.aoEventoStorage (.ultimaVisualizacao (some (.valor registo)))
        (Helpbot.aoEventoStorage (.chamadoAtual (some (.valor T)))
          (Helpbot.outraAbaGuarda T registo s))).pedidos = s.pedidos)
    ∧ ((Helpbot.aoEventoStorage (.chamadoAtual (some (.valor T)))
        (Helpbot.aoEventoStorage (.ultimaVisualizacao (some (.valor registo)))
          (Helpbot.outraAbaGuarda T registo s))).chamadoAtual = some T
      ∧ (Helpbot.aoEventoStorage (.chamadoAtual (some (.valor T)))
        (Helpbot.aoEventoStorage (.ultimaVisualizacao (some (.valor registo)))
          (Helpbot.outraAbaGuarda T registo s))).ultimaMensagemVisualizadaId
          = registo.ultimaMensagemId
      ∧ (Helpbot.aoEventoStorage (.chamadoAtual (some (.valor T)))
        (Helpbot.aoEventoStorage (.ultimaVisualizacao (some (.valor registo)))
          (Helpbot.outraAbaGuarda T registo s))).pedidos = s.pedidos) := by
  -- the handler of the ticket event on a tab without ticket
  have hchamado : ∀ x : Helpbot.State, x.chamadoAtual = none →
      x.localStorage.chamadoAtual = some (Guardado.valor T) →
      x.localStorage.ultimaVisualizacao = some (Guardado.valor registo) →
      (Helpbot.aoEventoStorage (.chamadoAtual (some (.valor T))) x).chamadoAtual = some T
      ∧ (Helpbot.aoEventoStorage (.chamadoAtual (some (.valor T))) x).ultimaMensagemVisualizadaId
          = registo.ultimaMensagemId
      ∧ (Helpbot.aoEventoStorage (.chamadoAtual (some (.valor T))) x).pedidos = x.pedidos := by
    intro x hx hc he
    have e1 : Helpbot.aoEventoStorage (.chamadoAtual (some (.valor T))) x
        = Helpbot.reiniciarSistemaAtualizacao { x with chamadoAtual := some T } := by
      simp [Helpbot.aoEventoStorage, hx]
    rw [e1]
    have h := Helpbot.reiniciarSistemaAtualizacao_guardado
      (show ({ x with chamadoAtual := some T } : Helpbot.State).localStorage.chamadoAtual
        = some (Guardado.valor T) from hc)
      (show ({ x with chamadoAtual := some T } : Helpbot.State).localStorage.ultimaVisualizacao
        = some (Guardado.valor registo) from he)
    exact ⟨h.1, h.2.1, h.2.2.2⟩
  -- the handler of the marker event
  have hmarcador : ∀ x : Helpbot.State,
      (Helpbot.aoEventoStorage (.ultimaVisualizacao (some (.valor registo))) x).ultimaMensagemVisualizadaId
          = registo.ultimaMensagemId
      ∧ (Helpbot.aoEventoStorage (.ultimaVisualizacao (some (.valor registo))) x).chamadoAtual
          = x.chamadoAtual
      ∧ (Helpbot.aoEventoStorage (.ultimaVisualizacao (some (.valor registo))) x).pedidos
          = x.pedidos
      ∧ (Helpbot.aoEventoStorage (.ultimaVisualizacao (some (.valor registo))) x).localStorage
          = x.localStorage := by
    intro x
    by_cases hx : registo.ultimaMensagemId = x.ultimaMensagemVisualizadaId
    · simp [Helpbot.aoEventoStorage, hx]
    · simp [Helpbot.aoEventoStorage, hx]
  constructor
  · have h1 := hchamado (Helpbot.outraAbaGuarda T registo s) hsem rfl rfl
    have h2 := hmarcador (Helpbot.aoEventoStorage (.chamadoAtual (some (.valor T)))
      (Helpbot.outraAbaGuarda T registo s))
    exact ⟨h2.2.1.trans h1.1, h2.1, h2.2.2.1.trans h1.2.2⟩
  · have h2 := hmarcador (Helpbot.outraAbaGuarda T registo s)
    have h1 := hchamado (Helpbot.aoEventoStorage (.ultimaVisualizacao (some (.valor registo)))
      (Helpbot.outraAbaGuarda T registo s)) (h2.2.1.trans hsem)
      (by rw [h2.2.2.2]; rfl) (by rw [h2.2.2.2]; rfl)
    exact ⟨h1.1, h1.2.1, h1.2.2.trans h2.2.2.1⟩

/-- Witness for C14: a freshly loaded tab without ticket; the other tab has written
ticket 17 and its record with marker `m3`. -/
theorem C14_helpbot_convergencia_entre_abas_witness :
    Helpbot.paginaNova.chamadoAtual = none
    ∧ (Helpbot.aoEventoStorage (.ultimaVisualizacao (some (.valor registoDoChamadoA)))
        (Helpbot.aoEventoStorage (.chamadoAtual (some (.valor chamadoA)))
          (Helpbot.outraAbaGuarda chamadoA registoDoChamadoA Helpbot.paginaNova))).chamadoAtual
        = some chamadoA
    ∧ (Helpbot.aoEventoStorage (.ultimaVisualizacao (some (.valor registoDoChamadoA)))
        (Helpbot.aoEventoStorage (.chamadoAtual (some (.valor chamadoA)))
          (Helpbot.outraAbaGuarda chamadoA registoDoChamadoA
            Helpbot.paginaNova))).ultimaMensagemVisualizadaId
        = some "m3" :=
  ⟨rfl,
   (C14_helpbot_convergencia_entre_abas Helpbot.paginaNova chamadoA registoDoChamadoA rfl).1.1,
   (C14_helpbot_convergencia_entre_abas Helpbot.paginaNova chamadoA registoDoChamadoA
      rfl).1.2.1⟩

/-- C15, counterexample: helpbot variant, a page without the badge element, flag false and
modal closed. The `storage` event for `indicadorNovasMensagens` with new value `true`
shows no badge and leaves the flag false. -/
theorem C15_contraexemplo_sem_elemento :
    Helpbot.paginaSemElementoIndicador.indicador = none
    ∧ Helpbot.paginaSemElementoIndicador.indicadorNovasMensagens = false
    ∧ Helpbot.paginaSemElementoIndicador.modalAberto = false
    ∧ Helpbot.indicadorVisivel
        (Helpbot.aoEventoStorage (.indicadorNovasMensagens (some "true"))
          Helpbot.paginaSemElementoIndicador) = false
    ∧ (Helpbot.aoEventoStorage (.indicadorNovasMensagens (some "true"))
          Helpbot.paginaSemElementoIndicador).indicadorNovasMensagens = false := by
  refine ⟨?_, ?_, ?_, ?_, ?_⟩ <;> decide

/-- C15, as amended: helpbot variant, the listener on a `storage` event for
`indicadorNovasMensagens` with new value `v`. When `v` is `true`, the flag of this tab is
false and its modal is closed, then on a page that has the badge element the badge is
shown and the flag becomes true, and on a page without it nothing changes. When the modal
is open nothing changes: the flag keeps its value and a hidden badge stays hidden. In
every case the ticket and the marker are as before. -/
theorem C15_helpbot_evento_indicador (s : Helpbot.State) (v : Option String) :
    (v = some "true" → s.indicadorNovasMensagens = false → s.modalAberto = false →
        s.indicador.isSome = true →
        Helpbot.indicadorVisivel (Helpbot.aoEventoStorage (.indicadorNovasMensagens v) s) = true
        ∧ (Helpbot.aoEventoStorage (.indicadorNovasMensagens v) s).indicadorNovasMensagens
            = true)
    ∧ (s.indicador = none →
        Helpbot.aoEventoStorage (.indicadorNovasMensagens v) s = s)
    ∧ (s.modalAberto = true →
        Helpbot.aoEventoStorage (.indicadorNovasMensagens v) s = s)
    ∧ (s.modalAberto = true → Helpbot.indicadorVisivel s = false →
        Helpbot.indicadorVisivel (Helpbot.aoEventoStorage (.indicadorNovasMensagens v) s)
          = false)
    ∧ (Helpbot.aoEventoStorage (.indicadorNovasMensagens v) s).chamadoAtual = s.chamadoAtual
    ∧ (Helpbot.aoEventoStorage (.indicadorNovasMensagens v) s).ultimaMensagemVisualizadaId
        = s.ultimaMensagemVisualizadaId := by
  have hopen : s.modalAberto = true →
      Helpbot.aoEventoStorage (.indicadorNovasMensagens v) s = s := by
    intro hm
    simp [Helpbot.aoEventoStorage, hm]
  refine ⟨?_, ?_, hopen, ?_, ?_, ?_⟩
  · intro hv hflag hmodal hind
    obtain ⟨b, hb⟩ := Option.isSome_iff_exists.mp hind
    simp [Helpbot.aoEventoStorage, Helpbot.mostrarIndicadorNovasMensagens,
      Helpbot.indicadorVisivel, hv, hflag, hmodal, hb]
  · intro hnone
    simp [Helpbot.aoEventoStorage, Helpbot.mostrarIndicadorNovasMensagens, hnone]
  · intro hm hvis
    rw [hopen hm]; exact hvis
  · simp only [Helpbot.aoEventoStorage, Helpbot.mostrarIndicadorNovasMensagens]
    repeat' split
    all_goals rfl
  · simp only [Helpbot.aoEventoStorage, Helpbot.mostrarIndicadorNovasMensagens]
    repeat' split
    all_goals rfl

/-- Witness for C15 as amended: on `paginaComChamado` (flag false, modal closed, badge
element present and hidden) the event with value `true` shows the badge and sets the
flag. -/
theorem C15_helpbot_evento_indicador_witness :
    Helpbot.indicadorVisivel Helpbot.paginaComChamado = false
    ∧ Helpbot.indicadorVisivel
        (Helpbot.aoEventoStorage (.indicadorNovasMensagens (some "true"))
          Helpbot.paginaComChamado) = true
    ∧ (Helpbot.aoEventoStorage (.indicadorNovasMensagens (some "true"))
          Helpbot.paginaComChamado).indicadorNovasMensagens = true :=
  ⟨rfl,
   ((C15_helpbot_evento_indicador Helpbot.paginaComChamado (some "true")).1
      rfl rfl rfl rfl).1,
   ((C15_helpbot_evento_indicador Helpbot.paginaComChamado (some "true")).1
      rfl rfl rfl rfl).2⟩

/-- C16: helpbot variant. When the stored `chamadoAtual` or the stored `ultimaVisualizacao`
is a text on which `JSON.parse` throws, the exception is raised inside the `try` of
`carregarEstadoAtual`, the function returns what `resetarEstadoSistema` leaves, and in that
state the ticket, the marker and the user type are null, the unread flag is false and the
four storage keys are absent. -/
theorem C16_helpbot_estado_ilegivel (s : Helpbot.State)
    (h : s.localStorage.chamadoAtual = some Guardado.invalido
         ∨ s.localStorage.ultimaVisualizacao = some Guardado.invalido) :
    (∃ s1, Helpbot.carregarEstadoAtual s = Helpbot.resetarEstadoSistema s1)
    ∧ (Helpbot.carregarEstadoAtual s).chamadoAtual = none
    ∧ (Helpbot.carregarEstadoAtual s).ultimaMensagemVisualizadaId = none
    ∧ (Helpbot.carregarEstadoAtual s).tipoUsuario = none
    ∧ (Helpbot.carregarEstadoAtual s).indicadorNovasMensagens = false
    ∧ (Helpbot.carregarEstadoAtual s).localStorage = Armazenamento.vazio := by
  have hreset : ∀ x : Helpbot.State,
      (Helpbot.resetarEstadoSistema x).chamadoAtual = none
      ∧ (Helpbot.resetarEstadoSistema x).ultimaMensagemVisualizadaId = none
      ∧ (Helpbot.resetarEstadoSistema x).tipoUsuario = none
      ∧ (Helpbot.resetarEstadoSistema x).indicadorNovasMensagens = false
      ∧ (Helpbot.resetarEstadoSistema x).localStorage = Armazenamento.vazio := by
    intro x
    unfold Helpbot.resetarEstadoSistema
    rw [Helpbot.pararVerificacoesAutomaticas_eq, Helpbot.pararAtualizacaoAutomatica_eq]
    exact ⟨rfl, rfl, rfl, rfl, rfl⟩
  have hex : ∃ s1, Helpbot.carregarEstadoAtual s = Helpbot.resetarEstadoSistema s1 := by
    rcases Helpbot.carregarEstadoAtual_cases s with ⟨_, hr⟩ | ⟨s1, _, _, hr⟩ | ⟨s1, s2, h1, h2, _⟩
    · exact ⟨s, hr⟩
    · exact ⟨s1, hr⟩
    · exfalso
      rcases h with hc | hv
      · simp [Helpbot.carregarEstadoAtual_chamado, hc] at h1
      · have hls : s1.localStorage = s.localStorage := by
          unfold Helpbot.carregarEstadoAtual_chamado at h1
          split at h1 <;> first
            | (cases h1; rfl)
            | cases h1
        simp [Helpbot.carregarEstadoAtual_visualizacao, hls, hv] at h2
  obtain ⟨s1, hs1⟩ := hex
  refine ⟨⟨s1, hs1⟩, ?_⟩
  rw [hs1]
  exact hreset s1

/-- Witness for C16: the page of ticket 17 with badge and flag set, whose stored ticket
has become unreadable. -/
theorem C16_helpbot_estado_ilegivel_witness :
    Helpbot.paginaComArmazenamentoIlegivel.localStorage.chamadoAtual = some Guardado.invalido
    ∧ Helpbot.paginaComArmazenamentoIlegivel.chamadoAtual = some chamadoA
    ∧ (Helpbot.carregarEstadoAtual Helpbot.paginaComArmazenamentoIlegivel).chamadoAtual = none
    ∧ (Helpbot.carregarEstadoAtual Helpbot.paginaComArmazenamentoIlegivel).localStorage
        = Armazenamento.vazio :=
  ⟨rfl, rfl,
   (C16_helpbot_estado_ilegivel Helpbot.paginaComArmazenamentoIlegivel (Or.inl rfl)).2.1,
   (C16_helpbot_estado_ilegivel Helpbot.paginaComArmazenamentoIlegivel
      (Or.inl rfl)).2.2.2.2.2⟩

/-- C17, the code at the failing input: static variant, ticket 17, modal open, marker `m3`.
The user sends a text, which is rendered under `temp_user_2000`; the request fails and the
apology is rendered under `error_2000`; the user closes the modal. The marker is then
`error_2000`, in memory and in storage. Had the user scrolled to the end while the
request was pending, the marker would have become `temp_user_2000`. -/
theorem C17_static_marcador_gerado_no_cliente :
    Static.paginaComTexto.ultimaMensagemVisualizadaId = some "m3"
    ∧ (Static.enviarMensagemChat_inicio "10:07" Static.paginaComTexto).2
        = some (Pedido.enviarMensagem "17" "Oi")
    ∧ (Static.aoFecharModal Static.aposEnvioFalhado).ultimaMensagemVisualizadaId
        = some "error_2000"
    ∧ (Static.aoFecharModal Static.aposEnvioFalhado).localStorage.ultimaVisualizacao
        = some (Guardado.valor
            { ultimaMensagemId := some "error_2000", timestamp := 2000,
              chamadoId := some "17" })
    ∧ (Static.aoRolar true
        (Static.enviarMensagemChat_inicio "10:07" Static.paginaComTexto).1).ultimaMensagemVisualizadaId
        = some "temp_user_2000" := by
  refine ⟨?_, ?_, ?_, ?_, ?_⟩ <;> decide

/-- C18: helpbot variant, a run of `iniciarSequenciaBot` with no other handler in
between. The call passes its guard, the history body has
`success`, an unresolved status and `k` messages of the bot, and no request for a scripted
message ends in an exception (each is answered by a non-OK status or by a readable body,
with or without `success`). Then the requests of the call are the history load followed by
the scripted messages `k+1, ..., 7` in increasing order, `7 - k` of them and none when
`k >= 7`; and before each of these requests the composing indicator is shown, kept for
0.8 s and removed, after a wait of 1.5 s from the second one on. -/
theorem C18_helpbot_sequencia_indices (s : Helpbot.State) (c : Chamado)
    (r : ResultadoHistorico) (ok : Bool) (respostas : Nat → Fetch ResultadoMensagemBot)
    (hc : s.chamadoAtual = some c) (hseq : s.sequenciaAtiva = false)
    (hsucesso : r.success = true) (haberto : statusResolvido r.status = false)
    (hleg : ∀ n, (respostas n).legivel = true) :
    (Helpbot.iniciarSequenciaBot (.resposta ok (some r)) respostas s).1.pedidos
      = s.pedidos ++ Pedido.carregarMensagens c.chamado_id ::
          (List.range' (mensagensBotExistentes r + 1) (7 - mensagensBotExistentes r)).map
            (Pedido.enviarMensagemBot c.chamado_id)
    ∧ (Helpbot.iniciarSequenciaBot (.resposta ok (some r)) respostas s).2
      = Passo.pedido (Pedido.carregarMensagens c.chamado_id) ::
          (List.range' (mensagensBotExistentes r + 1) (7 - mensagensBotExistentes r)).flatMap
            (fun n =>
              (if n > mensagensBotExistentes r + 1 then [Passo.espera 1500] else [])
              ++ [Passo.mostrarIndicadorDigitacao, Passo.espera 800,
                  Passo.removerIndicadorDigitacao,
                  Passo.pedido (Pedido.enviarMensagemBot c.chamado_id n)])
    ∧ (7 ≤ mensagensBotExistentes r →
        (Helpbot.iniciarSequenciaBot (.resposta ok (some r)) respostas s).1.pedidos
          = s.pedidos ++ [Pedido.carregarMensagens c.chamado_id]) := by
  have hini : Helpbot.iniciarSequenciaBot_inicio s
      = (Helpbot.fetch (Pedido.carregarMensagens c.chamado_id) { s with sequenciaAtiva := true },
         some (Pedido.carregarMensagens c.chamado_id)) := by
    simp [Helpbot.iniciarSequenciaBot_inicio, hc, hseq]
  by_cases hk : 7 ≤ mensagensBotExistentes r
  · have hhist : Helpbot.iniciarSequenciaBot_historico (.resposta ok (some r))
          (Helpbot.fetch (Pedido.carregarMensagens c.chamado_id)
            { s with sequenciaAtiva := true })
        = ({ Helpbot.fetch (Pedido.carregarMensagens c.chamado_id)
              { s with sequenciaAtiva := true } with sequenciaAtiva := false }, none) := by
      simp [Helpbot.iniciarSequenciaBot_historico, hsucesso, haberto, Helpbot.maxMensagensBot, hk]
    have hzero : 7 - mensagensBotExistentes r = 0 := by omega
    simp only [Helpbot.iniciarSequenciaBot, hini, hhist, hzero]
    simp [Helpbot.fetch]
  · have hhist : Helpbot.iniciarSequenciaBot_historico (.resposta ok (some r))
          (Helpbot.fetch (Pedido.carregarMensagens c.chamado_id)
            { s with sequenciaAtiva := true })
        = (Helpbot.fetch (Pedido.carregarMensagens c.chamado_id)
            { s with sequenciaAtiva := true }, some (mensagensBotExistentes r)) := by
      simp [Helpbot.iniciarSequenciaBot_historico, hsucesso, haberto, Helpbot.maxMensagensBot, hk]
    have hlaco := Helpbot.lacoSequencia_legivel respostas (mensagensBotExistentes r) c hleg
      (List.range' (mensagensBotExistentes r) (7 - mensagensBotExistentes r))
      (Helpbot.fetch (Pedido.carregarMensagens c.chamado_id) { s with sequenciaAtiva := true })
      hc
    simp only [Helpbot.iniciarSequenciaBot, hini, hhist, Helpbot.maxMensagensBot]
    refine ⟨?_, ?_, fun h => absurd h hk⟩
    · rw [hlaco.2, range_map_seguinte (Pedido.enviarMensagemBot c.chamado_id)]
      simp [Helpbot.fetch]
    · rw [hlaco.1]
      have hshift := range_flatMap_seguinte
        (fun n =>
          (if n > mensagensBotExistentes r + 1 then [Passo.espera 1500] else [])
          ++ [Passo.mostrarIndicadorDigitacao, Passo.espera 800,
              Passo.removerIndicadorDigitacao,
              Passo.pedido (Pedido.enviarMensagemBot c.chamado_id n)])
        (7 - mensagensBotExistentes r) (mensagensBotExistentes r)
      rw [← hshift]
      congr 1
      apply List.flatMap_congr
      intro i _
      simp [Helpbot.turnoSequencia_passos]

/-- Witness for C18, the example of the specification: three messages of the bot in the
history give exactly the four requests 4, 5, 6, 7. -/
theorem C18_helpbot_sequencia_indices_witness :
    mensagensBotExistentes historicoTresDoBot = 3
    ∧ (∀ n, (respostasComRecusaNa4 n).legivel = true)
    ∧ (Helpbot.iniciarSequenciaBot (.resposta true (some historicoTresDoBot))
        respostasComRecusaNa4 Helpbot.paginaModalAberto).1.pedidos
      = [] ++ Pedido.carregarMensagens "17" ::
          (List.range' (3 + 1) (7 - 3)).map (Pedido.enviarMensagemBot "17") :=
  ⟨by decide, fun n => by unfold respostasComRecusaNa4; split <;> rfl,
   (C18_helpbot_sequencia_indices Helpbot.paginaModalAberto chamadoA historicoTresDoBot true
      respostasComRecusaNa4 rfl rfl rfl (by decide)
      (fun n => by unfold respostasComRecusaNa4; split <;> rfl)).1⟩

/-- C19, counterexample: helpbot variant, three messages of the bot in the history. The
request for scripted message 4 is answered with a report that the ticket is resolved, once
as a body without `success` and once as a non-OK status. In both runs the driver goes on
and requests the scripted messages 5, 6 and 7. -/
theorem C19_contraexemplo_sequencia_continua :
    avisoResolvido.success = false
    ∧ avisoResolvido.message = some "Chamado resolvido"
    ∧ respostasComAvisoNa4 4 = Fetch.resposta true (some avisoResolvido)
    ∧ (Helpbot.iniciarSequenciaBot (.resposta true (some historicoTresDoBot))
        respostasComAvisoNa4 Helpbot.paginaModalAberto).1.pedidos
      = [Pedido.carregarMensagens "17", Pedido.enviarMensagemBot "17" 4,
         Pedido.enviarMensagemBot "17" 5, Pedido.enviarMensagemBot "17" 6,
         Pedido.enviarMensagemBot "17" 7]
    ∧ respostasComRecusaNa4 4 = Fetch.resposta false (some avisoResolvido)
    ∧ (Helpbot.iniciarSequenciaBot (.resposta true (some historicoTresDoBot))
        respostasComRecusaNa4 Helpbot.paginaModalAberto).1.pedidos
      = [Pedido.carregarMensagens "17", Pedido.enviarMensagemBot "17" 4,
         Pedido.enviarMensagemBot "17" 5, Pedido.enviarMensagemBot "17" 6,
         Pedido.enviarMensagemBot "17" 7] := by
  refine ⟨?_, ?_, ?_, ?_, ?_, ?_⟩ <;> decide

/-- C19, as amended: helpbot variant, the three ways in which a running
`iniciarSequenciaBot` stops asking for scripted messages. When the history body at its
start reports the ticket resolved, the only request of the call is that history load.
When a poll body reports the ticket resolved while the call is running, the next turn of
the loop issues no request and ends the call. When the request for scripted message `j` is
rejected or its OK body cannot be read, no scripted message with an index above `j` is
requested. -/
theorem C19_helpbot_sequencia_paragens (s x : Helpbot.State) (c : Chamado)
    (r : ResultadoHistorico) (ok : Bool) (respostas : Nat → Fetch ResultadoMensagemBot)
    (rv : ResultadoVerificacao) (i j : Nat)
    (hc : s.chamadoAtual = some c) (hseq : s.sequenciaAtiva = false)
    (hsucesso : r.success = true) :
    (statusResolvido r.status = true →
        (Helpbot.iniciarSequenciaBot (.resposta ok (some r)) respostas s).2
          = [Passo.pedido (Pedido.carregarMensagens c.chamado_id)]
        ∧ (Helpbot.iniciarSequenciaBot (.resposta ok (some r)) respostas s).1.pedidos
          = s.pedidos ++ [Pedido.carregarMensagens c.chamado_id])
    ∧ (rv.success = true → rv.chamado_status = "resolvido" →
        (Helpbot.turnoSequencia_inicio i
          (Helpbot.verificarNovasMensagensInteligente_resposta
            (.resposta true (some rv)) x)).2 = none
        ∧ (Helpbot.turnoSequencia_inicio i
          (Helpbot.verificarNovasMensagensInteligente_resposta
            (.resposta true (some rv)) x)).1.sequenciaAtiva = false
        ∧ (Helpbot.turnoSequencia_inicio i
          (Helpbot.verificarNovasMensagensInteligente_resposta
            (.resposta true (some rv)) x)).1.pedidos = x.pedidos)
    ∧ (mensagensBotExistentes r < j → (respostas j).legivel = false →
        ∀ (id : String) (m : Nat),
          Passo.pedido (Pedido.enviarMensagemBot id m)
            ∈ (Helpbot.iniciarSequenciaBot (.resposta ok (some r)) respostas s).2 →
          m ≤ j) := by
  have hini : Helpbot.iniciarSequenciaBot_inicio s
      = (Helpbot.fetch (Pedido.carregarMensagens c.chamado_id) { s with sequenciaAtiva := true },
         some (Pedido.carregarMensagens c.chamado_id)) := by
    simp [Helpbot.iniciarSequenciaBot_inicio, hc, hseq]
  refine ⟨?_, ?_, ?_⟩
  · intro hres
    have hhist : (Helpbot.iniciarSequenciaBot_historico (.resposta ok (some r))
          (Helpbot.fetch (Pedido.carregarMensagens c.chamado_id)
            { s with sequenciaAtiva := true }))
        = ({ Helpbot.desativarChat (Helpbot.fetch (Pedido.carregarMensagens c.chamado_id)
              { s with sequenciaAtiva := true }) with sequenciaAtiva := false }, none) := by
      simp [Helpbot.iniciarSequenciaBot_historico, hsucesso, hres]
    have hrun : Helpbot.iniciarSequenciaBot (.resposta ok (some r)) respostas s
        = ({ Helpbot.desativarChat (Helpbot.fetch (Pedido.carregarMensagens c.chamado_id)
              { s with sequenciaAtiva := true }) with sequenciaAtiva := false },
           [Passo.pedido (Pedido.carregarMensagens c.chamado_id)]) := by
      simp only [Helpbot.iniciarSequenciaBot, hini, hhist]
    rw [hrun]
    refine ⟨rfl, ?_⟩
    show (Helpbot.desativarChat (Helpbot.fetch (Pedido.carregarMensagens c.chamado_id)
      { s with sequenciaAtiva := true })).pedidos = _
    rw [Helpbot.desativarChat_eq]
    rfl
  · intro hvs hvr
    have e : Helpbot.verificarNovasMensagensInteligente_resposta (.resposta true (some rv)) x
        = Helpbot.resetarEstadoSistema
            (Helpbot.desativarChat (Helpbot.ocultarIndicadorResolvido x)) := by
      simp [Helpbot.verificarNovasMensagensInteligente_resposta, Helpbot.aplicarVerificacao,
        Helpbot.aplicarVerificacao_resolvido, hvs, hvr]
    have hsem := Helpbot.semChamado_resetarEstadoSistema
      (Helpbot.desativarChat (Helpbot.ocultarIndicadorResolvido x))
    have hped : (Helpbot.resetarEstadoSistema
        (Helpbot.desativarChat (Helpbot.ocultarIndicadorResolvido x))).pedidos = x.pedidos := by
      obtain ⟨i0, ho⟩ := Helpbot.ocultarIndicadorResolvido_eq x
      rw [(Helpbot.mesmaTela_resetarEstadoSistema
        (Helpbot.desativarChat (Helpbot.ocultarIndicadorResolvido x))).pedidos,
        Helpbot.desativarChat_eq, ho]
    rw [e]
    have h0 := Helpbot.turnoSequencia_inicio_none hsem.1 i
    exact ⟨h0.1, h0.2.1, h0.2.2.trans hped⟩
  · intro hj hex id m hm
    by_cases hres : statusResolvido r.status = true
    · have hhist : (Helpbot.iniciarSequenciaBot_historico (.resposta ok (some r))
            (Helpbot.fetch (Pedido.carregarMensagens c.chamado_id)
              { s with sequenciaAtiva := true }))
          = ({ Helpbot.desativarChat (Helpbot.fetch (Pedido.carregarMensagens c.chamado_id)
                { s with sequenciaAtiva := true }) with sequenciaAtiva := false }, none) := by
        simp [Helpbot.iniciarSequenciaBot_historico, hsucesso, hres]
      simp [Helpbot.iniciarSequenciaBot, hini, hhist] at hm
    · by_cases hk : 7 ≤ mensagensBotExistentes r
      · have hhist : Helpbot.iniciarSequenciaBot_historico (.resposta ok (some r))
              (Helpbot.fetch (Pedido.carregarMensagens c.chamado_id)
                { s with sequenciaAtiva := true })
            = ({ Helpbot.fetch (Pedido.carregarMensagens c.chamado_id)
                  { s with sequenciaAtiva := true } with sequenciaAtiva := false }, none) := by
          simp [Helpbot.iniciarSequenciaBot_historico, hsucesso, hres,
            Helpbot.maxMensagensBot, hk]
        simp [Helpbot.iniciarSequenciaBot, hini, hhist] at hm
      · have hhist : Helpbot.iniciarSequenciaBot_historico (.resposta ok (some r))
              (Helpbot.fetch (Pedido.carregarMensagens c.chamado_id)
                { s with sequenciaAtiva := true })
            = (Helpbot.fetch (Pedido.carregarMensagens c.chamado_id)
                { s with sequenciaAtiva := true }, some (mensagensBotExistentes r)) := by
          simp [Helpbot.iniciarSequenciaBot_historico, hsucesso, hres,
            Helpbot.maxMensagensBot, hk]
        simp only [Helpbot.iniciarSequenciaBot, hini, hhist, List.mem_cons] at hm
        rcases hm with hm | hm
        · cases hm
        · exact Helpbot.lacoSequencia_para respostas (mensagensBotExistentes r) j hex _ _ _ hj
            id m hm

/-- Witness for C19 as amended: with three messages of the bot in the history and the
request for scripted message 5 rejected, the scripted messages requested are 4 and 5. -/
theorem C19_helpbot_sequencia_paragens_witness :
    mensagensBotExistentes historicoTresDoBot < 5
    ∧ (respostasComFalhaNa5 5).legivel = false
    ∧ (Helpbot.iniciarSequenciaBot (.resposta true (some historicoTresDoBot))
        respostasComFalhaNa5 Helpbot.paginaModalAberto).1.pedidos
      = [Pedido.carregarMensagens "17", Pedido.enviarMensagemBot "17" 4,
         Pedido.enviarMensagemBot "17" 5]
    ∧ (∀ (id : String) (m : Nat),
        Passo.pedido (Pedido.enviarMensagemBot id m)
          ∈ (Helpbot.iniciarSequenciaBot (.resposta true (some historicoTresDoBot))
              respostasComFalhaNa5 Helpbot.paginaModalAberto).2 →
        m ≤ 5) :=
  ⟨by decide, by decide, by decide,
   (C19_helpbot_sequencia_paragens Helpbot.paginaModalAberto Helpbot.paginaModalAberto
      chamadoA historicoTresDoBot true respostasComFalhaNa5 respostaResolvidaSemNovas 0 5
      rfl rfl rfl).2.2 (by decide) (by decide)⟩

/-- C20: both variants. A call of `iniciarSequenciaBot` without ticket or while
`sequenciaAtiva` is true returns at once: it issues no request and the state, transcript
included, is the one before the call. A call that passes the guard ends, whatever the
outcomes of its requests (normal end of the loop, resolved ticket, cap reached, thrown
error), with `sequenciaAtiva` false. -/
theorem C20_sequencia_reentrante (sh : Helpbot.State) (ss : Static.State)
    (historicoH : Fetch ResultadoHistorico) (respostasH : Nat → Fetch ResultadoMensagemBot)
    (historicoS : Fetch ResultadoHistorico)
    (respostasS : Nat → Fetch ResultadoProxima × Fetch ResultadoHistorico) :
    ((sh.chamadoAtual = none ∨ sh.sequenciaAtiva = true) →
        Helpbot.iniciarSequenciaBot_inicio sh = (sh, none)
        ∧ Helpbot.iniciarSequenciaBot historicoH respostasH sh = (sh, []))
    ∧ ((ss.chamadoAtual = none ∨ ss.sequenciaAtiva = true) →
        Static.iniciarSequenciaBot_inicio ss = (ss, none)
        ∧ Static.iniciarSequenciaBot historicoS respostasS ss = ss)
    ∧ (sh.chamadoAtual.isSome = true → sh.sequenciaAtiva = false →
        (Helpbot.iniciarSequenciaBot_inicio sh).1.sequenciaAtiva = true
        ∧ (Helpbot.iniciarSequenciaBot historicoH respostasH sh).1.sequenciaAtiva = false)
    ∧ (ss.chamadoAtual.isSome = true → ss.sequenciaAtiva = false →
        (Static.iniciarSequenciaBot_inicio ss).1.sequenciaAtiva = true
        ∧ (Static.iniciarSequenciaBot historicoS respostasS ss).sequenciaAtiva = false) := by
  refine ⟨?_, ?_, ?_, ?_⟩
  · intro h
    have e : Helpbot.iniciarSequenciaBot_inicio sh = (sh, none) := by
      unfold Helpbot.iniciarSequenciaBot_inicio
      rcases h with h | h
      · simp [h]
      · cases hc : sh.chamadoAtual <;> simp [h]
    exact ⟨e, by simp [Helpbot.iniciarSequenciaBot, e]⟩
  · intro h
    have e : Static.iniciarSequenciaBot_inicio ss = (ss, none) := by
      unfold Static.iniciarSequenciaBot_inicio
      rcases h with h | h
      · simp [h]
      · cases hc : ss.chamadoAtual <;> simp [h]
    exact ⟨e, by simp [Static.iniciarSequenciaBot, e]⟩
  · intro hc hseq
    obtain ⟨c, hc⟩ := Option.isSome_iff_exists.mp hc
    have hini : Helpbot.iniciarSequenciaBot_inicio sh
        = (Helpbot.fetch (Pedido.carregarMensagens c.chamado_id)
            { sh with sequenciaAtiva := true },
           some (Pedido.carregarMensagens c.chamado_id)) := by
      simp [Helpbot.iniciarSequenciaBot_inicio, hc, hseq]
    refine ⟨by rw [hini]; rfl, ?_⟩
    simp only [Helpbot.iniciarSequenciaBot, hini]
    generalize Helpbot.fetch (Pedido.carregarMensagens c.chamado_id)
      { sh with sequenciaAtiva := true } = y
    split
    · rename_i hnone
      revert hnone
      unfold Helpbot.iniciarSequenciaBot_historico
      repeat' split
      all_goals first
        | (intro _; rfl)
        | (intro h; simp at h)
    · exact Helpbot.lacoSequencia_sequenciaAtiva respostasH _ _ _
  · intro hc hseq
    obtain ⟨c, hc⟩ := Option.isSome_iff_exists.mp hc
    have hini : Static.iniciarSequenciaBot_inicio ss
        = ({ ss with sequenciaAtiva := true,
                     pedidos := ss.pedidos ++ [Pedido.carregarMensagens c.chamado_id] },
           some (Pedido.carregarMensagens c.chamado_id)) := by
      simp [Static.iniciarSequenciaBot_inicio, hc, hseq]
    refine ⟨by rw [hini], ?_⟩
    obtain ⟨y, hy⟩ : ∃ y, Static.iniciarSequenciaBot_inicio ss
        = (y, some (Pedido.carregarMensagens c.chamado_id)) := ⟨_, hini⟩
    simp only [Static.iniciarSequenciaBot, hy]
    split
    · rename_i hnone
      revert hnone
      unfold Static.iniciarSequenciaBot_historico
      repeat' split
      all_goals first
        | (intro _; rfl)
        | (intro h; simp at h)
    · exact Static.lacoSequencia_static_sequenciaAtiva respostasS _ _

/-- Witness for C20: on the pages where a sequence is already running a further call
changes nothing; on the pages with ticket 17 and no running sequence the call ends with
`sequenciaAtiva` false. -/
theorem C20_sequencia_reentrante_witness :
    Helpbot.paginaComSequenciaAtiva.sequenciaAtiva = true
    ∧ Helpbot.iniciarSequenciaBot (.resposta true (some historicoTresDoBot))
        respostasDisponiveis Helpbot.paginaComSequenciaAtiva
      = (Helpbot.paginaComSequenciaAtiva, [])
    ∧ Static.iniciarSequenciaBot (.resposta true (some historicoTresDoBot))
        Static.respostasProxima Static.paginaComSequenciaAtiva
      = Static.paginaComSequenciaAtiva
    ∧ (Helpbot.iniciarSequenciaBot (.resposta true (some historicoTresDoBot))
        respostasComFalhaNa5 Helpbot.paginaModalAberto).1.sequenciaAtiva = false
    ∧ (Static.iniciarSequenciaBot (.resposta true (some historicoTresDoBot))
        Static.respostasProxima Static.paginaModalAberto).sequenciaAtiva = false :=
  ⟨rfl,
   ((C20_sequencia_reentrante Helpbot.paginaComSequenciaAtiva Static.paginaComSequenciaAtiva
      (.resposta true (some historicoTresDoBot)) respostasDisponiveis
      (.resposta true (some historicoTresDoBot)) Static.respostasProxima).1 (Or.inr rfl)).2,
   ((C20_sequencia_reentrante Helpbot.paginaComSequenciaAtiva Static.paginaComSequenciaAtiva
      (.resposta true (some historicoTresDoBot)) respostasDisponiveis
      (.resposta true (some historicoTresDoBot)) Static.respostasProxima).2.1 (Or.inr rfl)).2,
   ((C20_sequencia_reentrante Helpbot.paginaModalAberto Static.paginaModalAberto
      (.resposta true (some historicoTresDoBot)) respostasComFalhaNa5
      (.resposta true (some historicoTresDoBot)) Static.respostasProxima).2.2.1 rfl rfl).2,
   ((C20_sequencia_reentrante Helpbot.paginaModalAberto Static.paginaModalAberto
      (.resposta true (some historicoTresDoBot)) respostasComFalhaNa5
      (.resposta true (some historicoTresDoBot)) Static.respostasProxima).2.2.2 rfl rfl).2⟩

/-- C21, counterexample: helpbot variant, ticket 17 active and the modal open. A tick of
the 30 s interval and a tick of the 2 min interval each issue no request and leave the
state as it is. -/
theorem C21_contraexemplo_modal_aberto :
    Helpbot.paginaModalAberto.chamadoAtual = some chamadoA
    ∧ Helpbot.paginaModalAberto.modalAberto = true
    ∧ Helpbot.tickVerificacaoMensagens Helpbot.paginaModalAberto
        = (Helpbot.paginaModalAberto, none)
    ∧ Helpbot.tickSegundoPlano Helpbot.paginaModalAberto
        = (Helpbot.paginaModalAberto, none) := by
  refine ⟨?_, ?_, ?_, ?_⟩ <;> decide

/-- C21, as amended: helpbot variant. While the modal is open a tick of the 30 s interval
and a tick of the 2 min interval issue no request and change nothing. While a ticket is
active and the modal is closed, a tick of the 30 s interval is a call of
`verificarNovasMensagensInteligente`, which issues the poll for the stored ticket with the
stored marker when both stored entries can be read; a tick of the 2 min interval issues
the notification request, and the call of `verificarNovasMensagensInteligente` follows on
its outcome. -/
theorem C21_helpbot_ticks_e_modal (s : Helpbot.State) (c : Chamado)
    (e : EstadoVisualizacao) (f : Fetch ResultadoNotificacoes) :
    (s.modalAberto = true →
        Helpbot.tickVerificacaoMensagens s = (s, none)
        ∧ Helpbot.tickSegundoPlano s = (s, none))
    ∧ (s.modalAberto = false → s.chamadoAtual.isSome = true →
        Helpbot.tickVerificacaoMensagens s = Helpbot.verificarNovasMensagensInteligente_inicio s
        ∧ (Helpbot.tickSegundoPlano s).2 = some Pedido.verificarNotificacoes
        ∧ Helpbot.tickSegundoPlano_continuacao f (Helpbot.tickSegundoPlano s).1
            = Helpbot.verificarNovasMensagensInteligente_inicio
                (Helpbot.verificarNotificacoesAutomaticas_resposta f (Helpbot.tickSegundoPlano s).1))
    ∧ (s.modalAberto = false → s.chamadoAtual.isSome = true →
        s.localStorage.chamadoAtual = some (Guardado.valor c) →
        s.localStorage.ultimaVisualizacao = some (Guardado.valor e) →
        (Helpbot.tickVerificacaoMensagens s).2
          = some (Pedido.verificarMensagensInteligente c.chamado_id
              (if verdadeiro e.ultimaMensagemId then e.ultimaMensagemId.getD "" else ""))) := by
  refine ⟨?_, ?_, ?_⟩
  · intro hm
    simp [Helpbot.tickVerificacaoMensagens, Helpbot.tickSegundoPlano, hm]
  · intro hm hc
    obtain ⟨c0, hc0⟩ := Option.isSome_iff_exists.mp hc
    refine ⟨?_, ?_, ?_⟩
    · simp [Helpbot.tickVerificacaoMensagens, hm, hc]
    · simp [Helpbot.tickSegundoPlano, Helpbot.verificarNotificacoesAutomaticas_inicio, hm, hc0]
    · rfl
  · intro hm hc hsc hse
    have h := Helpbot.carregarEstadoAtual_guardado hsc hse
    have e1 : Helpbot.tickVerificacaoMensagens s
        = Helpbot.verificarNovasMensagensInteligente_inicio s := by
      simp [Helpbot.tickVerificacaoMensagens, hm, hc]
    rw [e1]
    simp only [Helpbot.verificarNovasMensagensInteligente_inicio, h.1, h.2.1]

/-- Witness for C21 as amended: on `paginaComChamado` (modal closed, ticket 17 and marker
`m3` stored) the tick of the 30 s interval issues the poll for ticket 17 with marker `m3`. -/
theorem C21_helpbot_ticks_e_modal_witness :
    Helpbot.paginaComChamado.modalAberto = false
    ∧ (Helpbot.tickVerificacaoMensagens Helpbot.paginaComChamado).2
        = some (Pedido.verificarMensagensInteligente "17" "m3")
    ∧ Helpbot.tickVerificacaoMensagens Helpbot.paginaModalAberto
        = (Helpbot.paginaModalAberto, none) :=
  ⟨rfl,
   (C21_helpbot_ticks_e_modal Helpbot.paginaComChamado chamadoA registoDoChamadoA
      Fetch.rejeitado).2.2 rfl rfl rfl rfl,
   ((C21_helpbot_ticks_e_modal Helpbot.paginaModalAberto chamadoA registoDoChamadoA
      Fetch.rejeitado).1 rfl).1⟩

/-- C22, the code at the failing input: helpbot variant, ticket 17, modal open, a text in
the input. The text is sent and the body has `success` and `chamado_resolvido`. Once
`enviarMensagemChat` has completed, the input and the send button are both enabled and the
button shows its former content; of `desativarChat` only the placeholder of the input and
the stopped intervals remain. -/
theorem C22_helpbot_envio_resolvido_reativa_campo :
    (Helpbot.enviarMensagemChat_inicio Helpbot.paginaComTexto).2
        = some (Pedido.enviarMensagem "17" "Resolvido, obrigado")
    ∧ envioQueResolve.success = true
    ∧ envioQueResolve.chamado_resolvido = true
    ∧ (Helpbot.enviarMensagemChat (.resposta true (some envioQueResolve))
        Helpbot.paginaComTexto).messageInput
        = some { value := "", placeholder := "Chat finalizado - chamado resolvido",
                 disabled := false }
    ∧ (Helpbot.enviarMensagemChat (.resposta true (some envioQueResolve))
        Helpbot.paginaComTexto).sendBtn
        = some { innerHTML := "bi-send", disabled := false }
    ∧ (Helpbot.enviarMensagemChat (.resposta true (some envioQueResolve))
        Helpbot.paginaComTexto).intervalos
        = [(1, TipoIntervalo.verificacaoMensagens)] := by
  refine ⟨?_, ?_, ?_, ?_, ?_, ?_⟩ <;> decide

/-- C23: both variants. When the request of `verificarNovasMensagensInteligente` is
rejected, is answered with a non-OK status, with a body that cannot be read or with a body
without `success`, the part of the function that runs on the outcome returns the state
unchanged, so that the whole call ends in the state in which the request was issued:
ticket, marker, flag, badge, storage and intervals included. -/
theorem C23_falha_da_verificacao_nao_altera (sh : Helpbot.State) (ss : Static.State)
    (f : Fetch ResultadoVerificacao)
    (hf : ∀ r, f = Fetch.resposta true (some r) → r.success = false) :
    Helpbot.verificarNovasMensagensInteligente_resposta f sh = sh
    ∧ Helpbot.verificarNovasMensagensInteligente f sh
        = (Helpbot.verificarNovasMensagensInteligente_inicio sh).1
    ∧ Static.verificarNovasMensagensInteligente_resposta f ss = ss
    ∧ Static.verificarNovasMensagensInteligente f ss
        = (Static.verificarNovasMensagensInteligente_inicio ss).1 := by
  have hH : ∀ x : Helpbot.State, Helpbot.verificarNovasMensagensInteligente_resposta f x = x := by
    intro x
    unfold Helpbot.verificarNovasMensagensInteligente_resposta
    split
    · rfl
    · rfl
    · rfl
    · rename_i r
      simp [hf r rfl]
  have hS : ∀ x : Static.State, Static.verificarNovasMensagensInteligente_resposta f x = x := by
    intro x
    unfold Static.verificarNovasMensagensInteligente_resposta
    split
    · rfl
    · rfl
    · rfl
    · rename_i r
      simp [hf r rfl]
  refine ⟨hH sh, ?_, hS ss, ?_⟩
  · unfold Helpbot.verificarNovasMensagensInteligente
    split
    · exact hH _
    · rfl
  · unfold Static.verificarNovasMensagensInteligente
    split
    · rename_i s1 _ heq
      rw [hS s1, heq]
    · rename_i s1 heq
      rw [heq]

/-- Witness for C23: a rejected request on the pages of ticket 17 that show the state of
a pending poll. -/
theorem C23_falha_da_verificacao_nao_altera_witness :
    Helpbot.verificarNovasMensagensInteligente_resposta Fetch.rejeitado
        Helpbot.paginaComIndicador = Helpbot.paginaComIndicador
    ∧ Static.verificarNovasMensagensInteligente_resposta Fetch.rejeitado
        Static.paginaComChamado = Static.paginaComChamado :=
  ⟨(C23_falha_da_verificacao_nao_altera Helpbot.paginaComIndicador Static.paginaComChamado
      Fetch.rejeitado (fun _ h => by cases h)).1,
   (C23_falha_da_verificacao_nao_altera Helpbot.paginaComIndicador Static.paginaComChamado
      Fetch.rejeitado (fun _ h => by cases h)).2.2.1⟩

/-- C24, counterexample: storage holds ticket 17, its marker record and the unread flag,
and the request with which `carregarChamadoSalvo` validates the ticket is rejected. In
the helpbot variant the four storage keys are absent afterwards; in the static variant the
stored ticket and the stored marker record are absent. -/
theorem C24_contraexemplo_sessao_apagada :
    Helpbot.paginaComSessaoGuardada.localStorage.chamadoAtual = some (Guardado.valor chamadoA)
    ∧ (Helpbot.carregarChamadoSalvo Fetch.rejeitado Helpbot.paginaComSessaoGuardada).localStorage
        = Armazenamento.vazio
    ∧ (Helpbot.carregarChamadoSalvo (Fetch.resposta false none)
        Helpbot.paginaComSessaoGuardada).localStorage = Armazenamento.vazio
    ∧ Static.paginaComChamadoGuardado.localStorage.chamadoAtual
        = some (Guardado.valor chamadoA)
    ∧ (Static.carregarChamadoSalvo_inicio Static.paginaComChamadoGuardado).2
        = some (Pedido.carregarMensagens "17")
    ∧ (Static.carregarChamadoSalvo_resposta chamadoA Fetch.rejeitado
        (Static.carregarChamadoSalvo_inicio Static.paginaComChamadoGuardado).1).1.localStorage
        = { chamadoAtual := none, ultimaVisualizacao := none,
            indicadorNovasMensagens := some "true", tipoUsuario := some "colaborador" } := by
  refine ⟨?_, ?_, ?_, ?_, ?_, ?_⟩ <;> decide

/-- C24, as amended: a transport failure while `carregarChamadoSalvo` validates the stored
ticket is caught and the stored ticket is forgotten. In the helpbot variant (request
rejected or non-OK status) the function returns what `resetarEstadoSistema` leaves: ticket,
marker and user type null, flag false, the four storage keys absent. In the static variant
(request rejected) the stored ticket and the stored marker record are removed, no request
follows, and the two other keys and everything in memory stay as they were. -/
theorem C24_falha_na_validacao_apaga_sessao (sh : Helpbot.State) (ss : Static.State)
    (c : Chamado) (f : Fetch ResultadoHistorico)
    (hf : f = Fetch.rejeitado ∨ ∃ corpo, f = Fetch.resposta false corpo) :
    Helpbot.carregarChamadoSalvo_resposta c f sh = Helpbot.resetarEstadoSistema sh
    ∧ (Helpbot.carregarChamadoSalvo_resposta c f sh).chamadoAtual = none
    ∧ (Helpbot.carregarChamadoSalvo_resposta c f sh).ultimaMensagemVisualizadaId = none
    ∧ (Helpbot.carregarChamadoSalvo_resposta c f sh).tipoUsuario = none
    ∧ (Helpbot.carregarChamadoSalvo_resposta c f sh).indicadorNovasMensagens = false
    ∧ (Helpbot.carregarChamadoSalvo_resposta c f sh).localStorage = Armazenamento.vazio
    ∧ Static.carregarChamadoSalvo_resposta c Fetch.rejeitado ss
        = ({ ss with localStorage :=
              { ss.localStorage with chamadoAtual := none, ultimaVisualizacao := none } },
           none) := by
  have e : Helpbot.carregarChamadoSalvo_resposta c f sh = Helpbot.resetarEstadoSistema sh := by
    rcases hf with hf | ⟨corpo, hf⟩
    · rw [hf]; rfl
    · rw [hf]; rfl
  rw [e]
  refine ⟨rfl, ?_, ?_, ?_, ?_, ?_, rfl⟩
  all_goals
    unfold Helpbot.resetarEstadoSistema
    rw [Helpbot.pararVerificacoesAutomaticas_eq, Helpbot.pararAtualizacaoAutomatica_eq]

/-- Witness for C24 as amended: the rejected validation on the helpbot page whose storage
holds the session of ticket 17. -/
theorem C24_falha_na_validacao_apaga_sessao_witness :
    Helpbot.paginaComSessaoGuardada.localStorage.indicadorNovasMensagens = some "true"
    ∧ (Helpbot.carregarChamadoSalvo_resposta chamadoA Fetch.rejeitado
        Helpbot.paginaComSessaoGuardada).localStorage = Armazenamento.vazio :=
  ⟨rfl,
   (C24_falha_na_validacao_apaga_sessao Helpbot.paginaComSessaoGuardada
      Static.paginaComChamadoGuardado chamadoA Fetch.rejeitado (Or.inl rfl)).2.2.2.2.2.1⟩

/-- C25, counterexample: on the pages of ticket 17 (modal closed) a poll is sent, ticket 18
is created before its outcome arrives, and the body, written for ticket 17, reports two
new messages with tip `m5`. In both variants the marker of the new ticket, null until then,
becomes `m5`, the record is stored against ticket 18, and the badge is shown and the flag
set. -/
theorem C25_contraexemplo_resposta_tardia :
    (Helpbot.verificarNovasMensagensInteligente_inicio Helpbot.paginaComChamado).2
        = some (Pedido.verificarMensagensInteligente "17" "m3")
    ∧ Helpbot.chamadoTrocadoEmVoo.chamadoAtual = some chamadoB
    ∧ Helpbot.chamadoTrocadoEmVoo.ultimaMensagemVisualizadaId = none
    ∧ Helpbot.chamadoTrocadoEmVoo.indicadorNovasMensagens = false
    ∧ (Helpbot.verificarNovasMensagensInteligente_resposta
        (.resposta true (some respostaDuasNovas))
        Helpbot.chamadoTrocadoEmVoo).ultimaMensagemVisualizadaId = some "m5"
    ∧ (Helpbot.verificarNovasMensagensInteligente_resposta
        (.resposta true (some respostaDuasNovas))
        Helpbot.chamadoTrocadoEmVoo).indicadorNovasMensagens = true
    ∧ Helpbot.indicadorVisivel (Helpbot.verificarNovasMensagensInteligente_resposta
        (.resposta true (some respostaDuasNovas)) Helpbot.chamadoTrocadoEmVoo) = true
    ∧ (Static.verificarNovasMensagensInteligente_inicio Static.paginaComChamado).2
        = some (Pedido.verificarMensagensInteligente "17" "m3")
    ∧ Static.chamadoTrocadoEmVoo.chamadoAtual = some chamadoB
    ∧ Static.chamadoTrocadoEmVoo.ultimaMensagemVisualizadaId = none
    ∧ (Static.verificarNovasMensagensInteligente_resposta
        (.resposta true (some respostaDuasNovas))
        Static.chamadoTrocadoEmVoo).ultimaMensagemVisualizadaId = some "m5"
    ∧ (Static.verificarNovasMensagensInteligente_resposta
        (.resposta true (some respostaDuasNovas))
        Static.chamadoTrocadoEmVoo).indicador = true := by
  refine ⟨?_, ?_, ?_, ?_, ?_, ?_, ?_, ?_, ?_, ?_, ?_, ?_⟩ <;> decide

/-- C25, as amended: neither variant compares the ticket of the request with the active
ticket, so the outcome of a poll is applied to the ticket that is active when it arrives.
Let ticket `b` be created while a poll is in flight (modal closed) and let the body be
successful, not resolved, with new messages. In the helpbot variant the marker becomes the
reported tip, the flag true, and the record is stored against ticket `b`; in the static
variant, when the reported tip is not null, the marker becomes the tip, the record is
stored against ticket `b`, and with a badge container the badge is shown and the flag
set. -/
theorem C25_resposta_aplicada_ao_chamado_ativo (sh : Helpbot.State) (ss : Static.State)
    (b : Chamado) (r : ResultadoVerificacao)
    (hs : r.success = true) (hn : r.chamado_status ≠ "resolvido") (ht : r.total_novas > 0)
    (htip : r.ultima_visualizada_id ≠ none)
    (hmh : sh.modalAberto = false) (hms : ss.modalAberto = false) :
    (Helpbot.verificarNovasMensagensInteligente_resposta (.resposta true (some r))
        (Helpbot.enviarChamado_sucesso b sh)).chamadoAtual = some b
    ∧ (Helpbot.verificarNovasMensagensInteligente_resposta (.resposta true (some r))
        (Helpbot.enviarChamado_sucesso b sh)).ultimaMensagemVisualizadaId
        = r.ultima_visualizada_id
    ∧ (Helpbot.verificarNovasMensagensInteligente_resposta (.resposta true (some r))
        (Helpbot.enviarChamado_sucesso b sh)).indicadorNovasMensagens = true
    ∧ (Helpbot.verificarNovasMensagensInteligente_resposta (.resposta true (some r))
        (Helpbot.enviarChamado_sucesso b sh)).localStorage.ultimaVisualizacao
        = some (Guardado.valor { ultimaMensagemId := r.ultima_visualizada_id,
                                 timestamp := sh.agora, chamadoId := some b.chamado_id })
    ∧ (Static.verificarNovasMensagensInteligente_resposta (.resposta true (some r))
        (Static.enviarChamado_sucesso b ss)).chamadoAtual = some b
    ∧ (Static.verificarNovasMensagensInteligente_resposta (.resposta true (some r))
        (Static.enviarChamado_sucesso b ss)).ultimaMensagemVisualizadaId
        = r.ultima_visualizada_id
    ∧ (Static.verificarNovasMensagensInteligente_resposta (.resposta true (some r))
        (Static.enviarChamado_sucesso b ss)).localStorage.ultimaVisualizacao
        = some (Guardado.valor { ultimaMensagemId := r.ultima_visualizada_id,
                                 timestamp := ss.agora, chamadoId := some b.chamado_id })
    ∧ (ss.containerIndicador = true →
        (Static.verificarNovasMensagensInteligente_resposta (.resposta true (some r))
          (Static.enviarChamado_sucesso b ss)).indicador = true
        ∧ (Static.verificarNovasMensagensInteligente_resposta (.resposta true (some r))
          (Static.enviarChamado_sucesso b ss)).indicadorNovasMensagens = true) := by
  have eh : Helpbot.verificarNovasMensagensInteligente_resposta (.resposta true (some r))
        (Helpbot.enviarChamado_sucesso b sh)
      = Helpbot.mostrarIndicadorNovasMensagens (Helpbot.salvarEstadoSistema
          { Helpbot.enviarChamado_sucesso b sh with
            ultimaMensagemVisualizadaId := r.ultima_visualizada_id,
            indicadorNovasMensagens := true }) := by
    have hm : (Helpbot.enviarChamado_sucesso b sh).modalAberto = false := by
      simp only [Helpbot.enviarChamado_sucesso, Helpbot.enviarChamado_tipoUsuario,
        Helpbot.salvarChamadoNoStorage, Helpbot.salvarEstadoSistema]
      split <;> exact hmh
    have hm2 : (Helpbot.aplicarVerificacao_fechado r
        (Helpbot.enviarChamado_sucesso b sh)).modalAberto = false :=
      (Helpbot.discreto_aplicarVerificacao_fechado r _).1.trans hm
    have e1 : Helpbot.aplicarVerificacao_novas r (Helpbot.enviarChamado_sucesso b sh)
        = Helpbot.aplicarVerificacao_fechado r (Helpbot.enviarChamado_sucesso b sh) := by
      unfold Helpbot.aplicarVerificacao_novas
      simp only [hm, Bool.not_false, if_true, hm2, Bool.false_eq_true, if_false]
    have e2 : Helpbot.aplicarVerificacao r (Helpbot.enviarChamado_sucesso b sh)
        = Helpbot.aplicarVerificacao_novas r (Helpbot.enviarChamado_sucesso b sh) := by
      unfold Helpbot.aplicarVerificacao
      simp only [beq_iff_eq, hn, if_false, ht, if_true]
    simp only [Helpbot.verificarNovasMensagensInteligente_resposta, hs, if_true, e2, e1]
    rfl
  have hc : (Helpbot.enviarChamado_sucesso b sh).chamadoAtual = some b := by
    simp only [Helpbot.enviarChamado_sucesso, Helpbot.enviarChamado_tipoUsuario,
      Helpbot.salvarChamadoNoStorage, Helpbot.salvarEstadoSistema]
    split <;> rfl
  have ha : (Helpbot.enviarChamado_sucesso b sh).agora = sh.agora := by
    simp only [Helpbot.enviarChamado_sucesso, Helpbot.enviarChamado_tipoUsuario,
      Helpbot.salvarChamadoNoStorage, Helpbot.salvarEstadoSistema]
    split <;> rfl
  have hmm : (Helpbot.enviarChamado_sucesso b sh).modalAberto = false := by
    simp only [Helpbot.enviarChamado_sucesso, Helpbot.enviarChamado_tipoUsuario,
      Helpbot.salvarChamadoNoStorage, Helpbot.salvarEstadoSistema]
    split <;> exact hmh
  have es : Static.verificarNovasMensagensInteligente_resposta (.resposta true (some r))
        (Static.enviarChamado_sucesso b ss)
      = Static.mostrarIndicadorNovasMensagens (Static.salvarEstadoVisualizacao
          { Static.enviarChamado_sucesso b ss with
            ultimaMensagemVisualizadaId := r.ultima_visualizada_id }) := by
    have hm : (Static.enviarChamado_sucesso b ss).modalAberto = false := hms
    have hk : (Static.enviarChamado_sucesso b ss).ultimaMensagemVisualizadaId = none := rfl
    simp [Static.verificarNovasMensagensInteligente_resposta, hs,
      Static.aplicarVerificacao, ht, hm, hk, htip, Static.salvarEstadoVisualizacao]
  rw [eh, es]
  refine ⟨?_, ?_, ?_, ?_, ?_, ?_, ?_, ?_⟩
  · unfold Helpbot.mostrarIndicadorNovasMensagens
    split
    · split <;> simp [Helpbot.salvarEstadoSistema, hc]
    · simp [Helpbot.salvarEstadoSistema, hc]
  · unfold Helpbot.mostrarIndicadorNovasMensagens
    split
    · split <;> simp [Helpbot.salvarEstadoSistema]
    · simp [Helpbot.salvarEstadoSistema]
  · unfold Helpbot.mostrarIndicadorNovasMensagens
    split
    · split <;> simp [Helpbot.salvarEstadoSistema]
    · simp [Helpbot.salvarEstadoSistema]
  · unfold Helpbot.mostrarIndicadorNovasMensagens
    split
    · split <;> simp [Helpbot.salvarEstadoSistema, hc, ha]
    · simp [Helpbot.salvarEstadoSistema, hc, ha]
  · unfold Static.mostrarIndicadorNovasMensagens
    simp only
    split <;> rfl
  · unfold Static.mostrarIndicadorNovasMensagens
    simp only
    split <;> rfl
  · unfold Static.mostrarIndicadorNovasMensagens
    simp only
    split <;> rfl
  · intro hcont
    have hk : (Static.removerIndicadorNovasMensagens (Static.salvarEstadoVisualizacao
          { Static.enviarChamado_sucesso b ss with
            ultimaMensagemVisualizadaId := r.ultima_visualizada_id })).containerIndicador
        = true := hcont
    unfold Static.mostrarIndicadorNovasMensagens
    simp only [hk, if_true, and_self]

/-- Witness for C25 as amended: the pages of ticket 17 once their poll has been sent,
ticket 18 and the body with two new messages. -/
theorem C25_resposta_aplicada_ao_chamado_ativo_witness :
    (Helpbot.verificarNovasMensagensInteligente_resposta (.resposta true (some respostaDuasNovas))
        (Helpbot.enviarChamado_sucesso chamadoB
          (Helpbot.verificarNovasMensagensInteligente_inicio
            Helpbot.paginaComChamado).1)).localStorage.ultimaVisualizacao
      = some (Guardado.valor { ultimaMensagemId := some "m5",
                               timestamp := Helpbot.paginaComChamado.agora,
                               chamadoId := some "18" }) :=
  (C25_resposta_aplicada_ao_chamado_ativo
    (Helpbot.verificarNovasMensagensInteligente_inicio Helpbot.paginaComChamado).1
    (Static.verificarNovasMensagensInteligente_inicio Static.paginaComChamado).1
    chamadoB respostaDuasNovas (by decide) (by decide) (by decide) (by decide)
    (by decide) (by decide)).2.2.2.1

/-- C26, counterexample: helpbot variant, a page without the badge element, ticket 17
active and the modal closed. The successful notifications body with three unread items
shows no badge and leaves the flag false. -/
theorem C26_contraexemplo_sem_elemento :
    Helpbot.paginaSemElementoIndicador.indicador = none
    ∧ Helpbot.paginaSemElementoIndicador.modalAberto = false
    ∧ notificacoesTresNaoLidas.success = true
    ∧ notificacoesTresNaoLidas.total_nao_lidas > 0
    ∧ (Helpbot.verificarNotificacoesAutomaticas_inicio Helpbot.paginaSemElementoIndicador).2
        = some Pedido.verificarNotificacoes
    ∧ Helpbot.indicadorVisivel (Helpbot.verificarNotificacoesAutomaticas_resposta
        (Fetch.resposta true (some notificacoesTresNaoLidas))
        Helpbot.paginaSemElementoIndicador) = false
    ∧ (Helpbot.verificarNotificacoesAutomaticas_resposta
        (Fetch.resposta true (some notificacoesTresNaoLidas))
        Helpbot.paginaSemElementoIndicador).indicadorNovasMensagens = false := by
  refine ⟨?_, ?_, ?_, ?_, ?_, ?_, ?_⟩ <;> decide

/-- C26, as amended: in the helpbot variant `verificarNotificacoesAutomaticas` without
active ticket issues no request and changes nothing, and with a ticket it issues the
notifications request; on a successful body with `total_nao_lidas > 0` received while the
modal is closed, on a page that has the badge element the badge is shown and the flag
becomes true, and on a page without it nothing changes; on every other outcome (no unread
items, modal open, `success` false, non-OK status, unreadable body, rejected request) the
state as a whole, flag and badge included, is unchanged. -/
theorem C26_helpbot_notificacoes (s : Helpbot.State) (f : Fetch ResultadoNotificacoes) :
    (s.chamadoAtual = none → Helpbot.verificarNotificacoesAutomaticas_inicio s = (s, none))
    ∧ (s.chamadoAtual.isSome = true →
        (Helpbot.verificarNotificacoesAutomaticas_inicio s).2
          = some Pedido.verificarNotificacoes)
    ∧ (∀ r, f = Fetch.resposta true (some r) → r.success = true → r.total_nao_lidas > 0 →
        s.modalAberto = false → s.indicador.isSome = true →
        Helpbot.indicadorVisivel (Helpbot.verificarNotificacoesAutomaticas_resposta f s) = true
        ∧ (Helpbot.verificarNotificacoesAutomaticas_resposta f s).indicadorNovasMensagens
            = true)
    ∧ (s.indicador = none → Helpbot.verificarNotificacoesAutomaticas_resposta f s = s)
    ∧ ((∀ r, f = Fetch.resposta true (some r) → r.success = true → r.total_nao_lidas > 0 →
          s.modalAberto = true) →
        Helpbot.verificarNotificacoesAutomaticas_resposta f s = s) := by
  refine ⟨?_, ?_, ?_, ?_, ?_⟩
  · intro h
    simp [Helpbot.verificarNotificacoesAutomaticas_inicio, h]
  · intro h
    cases hc : s.chamadoAtual with
    | none => simp [hc] at h
    | some c => simp [Helpbot.verificarNotificacoesAutomaticas_inicio, hc]
  · intro r hf hs ht hm hi
    cases hind : s.indicador with
    | none => simp [hind] at hi
    | some i =>
      simp [hf, Helpbot.verificarNotificacoesAutomaticas_resposta, hs, ht, hm,
        Helpbot.mostrarIndicadorNovasMensagens, hind, Helpbot.indicadorVisivel]
  · intro hnone
    unfold Helpbot.verificarNotificacoesAutomaticas_resposta
    split
    · split
      · split
        · simp [Helpbot.mostrarIndicadorNovasMensagens, hnone]
        · rfl
      · rfl
    · rfl
  · intro h
    cases f with
    | rejeitado => rfl
    | resposta ok corpo =>
      cases ok with
      | false => rfl
      | true =>
        cases corpo with
        | none => rfl
        | some r =>
          cases hs : r.success with
          | false => simp [Helpbot.verificarNotificacoesAutomaticas_resposta, hs]
          | true =>
            by_cases ht : r.total_nao_lidas > 0
            · have hm := h r rfl hs ht
              simp [Helpbot.verificarNotificacoesAutomaticas_resposta, hs, hm]
            · simp [Helpbot.verificarNotificacoesAutomaticas_resposta, hs, ht]

/-- Witness for C26 as amended: on the helpbot page of ticket 17 (modal closed, badge
element present and hidden) the body with three unread items shows the badge and sets the
flag. -/
theorem C26_helpbot_notificacoes_witness :
    Helpbot.indicadorVisivel Helpbot.paginaComChamado = false
    ∧ Helpbot.indicadorVisivel (Helpbot.verificarNotificacoesAutomaticas_resposta
        (Fetch.resposta true (some notificacoesTresNaoLidas)) Helpbot.paginaComChamado) = true
    ∧ (Helpbot.verificarNotificacoesAutomaticas_resposta
        (Fetch.resposta true (some notificacoesTresNaoLidas))
        Helpbot.paginaComChamado).indicadorNovasMensagens = true :=
  ⟨by decide,
   (C26_helpbot_notificacoes Helpbot.paginaComChamado
      (Fetch.resposta true (some notificacoesTresNaoLidas))).2.2.1
      notificacoesTresNaoLidas rfl (by decide) (by decide) (by decide) (by decide)⟩

/-- C27: in the helpbot variant, after the `hidden.bs.modal` listener has run with an
active ticket and a transcript whose last `data-message-id` is a non-empty text,
`modalAberto` is false, the marker is that id, the stored record carries that id with the id
of the active ticket, and the two held interval handles and the live intervals are the
same as before. -/
theorem C27_helpbot_fechar_modal (s : Helpbot.State) (c : Chamado) (filhos : List Bolha)
    (messageId : String)
    (hc : s.chamadoAtual = some c) (hf : s.chatMessages = some filhos)
    (hu : ultimoIdRenderizado filhos = some messageId) (hid : messageId ≠ "") :
    (Helpbot.aoFecharModal s).modalAberto = false
    ∧ (Helpbot.aoFecharModal s).ultimaMensagemVisualizadaId = some messageId
    ∧ (Helpbot.aoFecharModal s).localStorage.ultimaVisualizacao
        = some (Guardado.valor { ultimaMensagemId := some messageId, timestamp := s.agora,
                                 chamadoId := some c.chamado_id })
    ∧ (Helpbot.aoFecharModal s).chamadoAtual = some c
    ∧ (Helpbot.aoFecharModal s).intervaloAtualizacao = s.intervaloAtualizacao
    ∧ (Helpbot.aoFecharModal s).intervaloVerificacaoAutomatica
        = s.intervaloVerificacaoAutomatica
    ∧ (Helpbot.aoFecharModal s).intervalos = s.intervalos := by
  have hv : verdadeiro (some messageId) = true := by
    simp [verdadeiro, hid]
  by_cases hm : some messageId = s.ultimaMensagemVisualizadaId
  · have e : Helpbot.atualizarUltimaVisualizacao { s with modalAberto := false }
        = { s with modalAberto := false } := by
      simp [Helpbot.atualizarUltimaVisualizacao, hc, hf, hu, hm.symm]
    simp only [Helpbot.aoFecharModal, e]
    simp [Helpbot.salvarEstadoSistema, Helpbot.setTimeout, hc, hm.symm]
  · have e : Helpbot.atualizarUltimaVisualizacao { s with modalAberto := false }
        = Helpbot.salvarEstadoSistema
            { s with modalAberto := false, ultimaMensagemVisualizadaId := some messageId } := by
      simp [Helpbot.atualizarUltimaVisualizacao, hc, hf, hu, hv, hm]
    simp only [Helpbot.aoFecharModal, e]
    simp [Helpbot.salvarEstadoSistema, Helpbot.setTimeout, hc]

/-- Witness for C27: the helpbot page of ticket 17 with the modal open and three rendered
messages, the last with id `m3`. -/
theorem C27_helpbot_fechar_modal_witness :
    (Helpbot.aoFecharModal Helpbot.paginaModalAberto).modalAberto = false
    ∧ (Helpbot.aoFecharModal Helpbot.paginaModalAberto).ultimaMensagemVisualizadaId
        = some "m3"
    ∧ (Helpbot.aoFecharModal Helpbot.paginaModalAberto).localStorage.ultimaVisualizacao
        = some (Guardado.valor { ultimaMensagemId := some "m3",
                                 timestamp := Helpbot.paginaModalAberto.agora,
                                 chamadoId := some chamadoA.chamado_id })
    ∧ (Helpbot.aoFecharModal Helpbot.paginaModalAberto).chamadoAtual = some chamadoA
    ∧ (Helpbot.aoFecharModal Helpbot.paginaModalAberto).intervaloAtualizacao
        = Helpbot.paginaModalAberto.intervaloAtualizacao
    ∧ (Helpbot.aoFecharModal Helpbot.paginaModalAberto).intervaloVerificacaoAutomatica
        = Helpbot.paginaModalAberto.intervaloVerificacaoAutomatica
    ∧ (Helpbot.aoFecharModal Helpbot.paginaModalAberto).intervalos
        = Helpbot.paginaModalAberto.intervalos :=
  C27_helpbot_fechar_modal Helpbot.paginaModalAberto chamadoA
    [Bolha.mensagem "m1" "Ola" "bot" "10:00",
     Bolha.mensagem "m2" "Preciso de ajuda" "usuario" "10:01",
     Bolha.mensagem "m3" "Certo" "bot" "10:02"] "m3" rfl rfl (by decide) (by decide)

/-- C28, counterexample: on the static page of ticket 17 with the modal open, no badge
and the flag false, `mostrarIndicadorNovasMensagens` adds the badge and sets the flag. -/
theorem C28_contraexemplo_indicador_com_modal_aberto :
    Static.paginaModalAberto.modalAberto = true
    ∧ Static.paginaModalAberto.indicador = false
    ∧ Static.paginaModalAberto.indicadorNovasMensagens = false
    ∧ (Static.mostrarIndicadorNovasMensagens Static.paginaModalAberto).indicador = true
    ∧ (Static.mostrarIndicadorNovasMensagens Static.paginaModalAberto).indicadorNovasMensagens
        = true := by
  refine ⟨?_, ?_, ?_, ?_, ?_⟩ <;> decide

/-- C28, as amended: `mostrarIndicadorNovasMensagens` of the static variant does not look
at `modalAberto`. With the badge container on the page it ends with the badge in place and
the flag true; without the container it creates the container and ends without badge and
with the flag false; `modalAberto` keeps its value either way. The guard is in the caller:
the outcome of a poll received while the modal is open leaves badge and flag as they
were. -/
theorem C28_static_indicador_ignora_modal (s : Static.State)
    (f : Fetch ResultadoVerificacao) :
    (s.containerIndicador = true →
        (Static.mostrarIndicadorNovasMensagens s).indicador = true
        ∧ (Static.mostrarIndicadorNovasMensagens s).indicadorNovasMensagens = true)
    ∧ (s.containerIndicador = false →
        (Static.mostrarIndicadorNovasMensagens s).containerIndicador = true
        ∧ (Static.mostrarIndicadorNovasMensagens s).indicador = false
        ∧ (Static.mostrarIndicadorNovasMensagens s).indicadorNovasMensagens = false)
    ∧ (Static.mostrarIndicadorNovasMensagens s).modalAberto = s.modalAberto
    ∧ (s.modalAberto = true →
        (Static.verificarNovasMensagensInteligente_resposta f s).indicador = s.indicador
        ∧ (Static.verificarNovasMensagensInteligente_resposta f s).indicadorNovasMensagens
            = s.indicadorNovasMensagens) := by
  refine ⟨?_, ?_, ?_, ?_⟩
  · intro h
    simp [Static.mostrarIndicadorNovasMensagens, Static.removerIndicadorNovasMensagens, h]
  · intro h
    simp [Static.mostrarIndicadorNovasMensagens, Static.removerIndicadorNovasMensagens, h,
      Static.criarContainerIndicador]
  · unfold Static.mostrarIndicadorNovasMensagens
    simp only
    split <;> rfl
  · intro hm
    have key : ∀ r : ResultadoVerificacao,
        (Static.aplicarVerificacao r s).indicador = s.indicador
        ∧ (Static.aplicarVerificacao r s).indicadorNovasMensagens
            = s.indicadorNovasMensagens := by
      intro r
      have h1 := Static.adicionarTodas_static_moldura r.novas_mensagens s
      have h2 := Static.atualizarUltimaVisualizacao_static_moldura
        (Static.adicionarTodas r.novas_mensagens s)
      have h3 : (Static.atualizarUltimaVisualizacao
          (Static.adicionarTodas r.novas_mensagens s)).modalAberto = true :=
        (h2.2.2.trans h1.2.2).trans hm
      unfold Static.aplicarVerificacao
      simp only [hm, Bool.not_true, Bool.false_eq_true, if_false, if_true, h3,
        Bool.false_and]
      split
      · exact ⟨h2.1.trans h1.1, h2.2.1.trans h1.2.1⟩
      · split <;> exact ⟨rfl, rfl⟩
    cases f with
    | rejeitado => exact ⟨rfl, rfl⟩
    | resposta ok corpo =>
      cases ok with
      | false => exact ⟨rfl, rfl⟩
      | true =>
        cases corpo with
        | none => exact ⟨rfl, rfl⟩
        | some r =>
          simp only [Static.verificarNovasMensagensInteligente_resposta]
          split
          · exact key r
          · exact ⟨rfl, rfl⟩

/-- Witness for C28 as amended: the static page of ticket 17 with the modal open and the
body with two new messages. -/
theorem C28_static_indicador_ignora_modal_witness :
    Static.paginaModalAberto.modalAberto = true
    ∧ (Static.verificarNovasMensagensInteligente_resposta
        (Fetch.resposta true (some respostaDuasNovas)) Static.paginaModalAberto).indicador
        = Static.paginaModalAberto.indicador
    ∧ (Static.verificarNovasMensagensInteligente_resposta
        (Fetch.resposta true (some respostaDuasNovas))
        Static.paginaModalAberto).indicadorNovasMensagens
        = Static.paginaModalAberto.indicadorNovasMensagens :=
  ⟨rfl,
   (C28_static_indicador_ignora_modal Static.paginaModalAberto
      (Fetch.resposta true (some respostaDuasNovas))).2.2.2 rfl⟩

/-- C29: in the helpbot variant, for every state with an active ticket and a non-empty
`tipoUsuario`, `salvarEstadoSistema` writes the ticket, the marker record, the flag and
the user type each under its own key, and `carregarEstadoAtual` run on the saved state
ends with `chamadoAtual`, `ultimaMensagemVisualizadaId`, `indicadorNovasMensagens` and
`tipoUsuario` equal to their values before the save. -/
theorem C29_helpbot_guardar_e_carregar (s : Helpbot.State) (c : Chamado)
    (hc : s.chamadoAtual = some c) (ht : verdadeiro s.tipoUsuario = true) :
    (Helpbot.salvarEstadoSistema s).localStorage
        = { chamadoAtual := some (Guardado.valor c),
            ultimaVisualizacao := some (Guardado.valor
              { ultimaMensagemId := s.ultimaMensagemVisualizadaId, timestamp := s.agora,
                chamadoId := some c.chamado_id }),
            indicadorNovasMensagens :=
              some (if s.indicadorNovasMensagens then "true" else "false"),
            tipoUsuario := s.tipoUsuario }
    ∧ (Helpbot.carregarEstadoAtual (Helpbot.salvarEstadoSistema s)).chamadoAtual
        = s.chamadoAtual
    ∧ (Helpbot.carregarEstadoAtual (Helpbot.salvarEstadoSistema s)).ultimaMensagemVisualizadaId
        = s.ultimaMensagemVisualizadaId
    ∧ (Helpbot.carregarEstadoAtual (Helpbot.salvarEstadoSistema s)).indicadorNovasMensagens
        = s.indicadorNovasMensagens
    ∧ (Helpbot.carregarEstadoAtual (Helpbot.salvarEstadoSistema s)).tipoUsuario
        = s.tipoUsuario
    ∧ (Helpbot.carregarEstadoAtual (Helpbot.salvarEstadoSistema s)).localStorage
        = (Helpbot.salvarEstadoSistema s).localStorage := by
  have hls : (Helpbot.salvarEstadoSistema s).localStorage
        = { chamadoAtual := some (Guardado.valor c),
            ultimaVisualizacao := some (Guardado.valor
              { ultimaMensagemId := s.ultimaMensagemVisualizadaId, timestamp := s.agora,
                chamadoId := some c.chamado_id }),
            indicadorNovasMensagens :=
              some (if s.indicadorNovasMensagens then "true" else "false"),
            tipoUsuario := s.tipoUsuario } := by
    unfold Helpbot.salvarEstadoSistema
    simp only [hc, Option.map_some']
    rw [if_pos ht]
  have e1 : Helpbot.carregarEstadoAtual (Helpbot.salvarEstadoSistema s)
      = Helpbot.carregarEstadoAtual_indicador
          { Helpbot.salvarEstadoSistema s with
            chamadoAtual := some c,
            ultimaMensagemVisualizadaId := s.ultimaMensagemVisualizadaId } := by
    simp only [Helpbot.carregarEstadoAtual, Helpbot.carregarEstadoAtual_chamado,
      Helpbot.carregarEstadoAtual_visualizacao, hls]
  refine ⟨hls, ?_⟩
  rw [e1]
  unfold Helpbot.carregarEstadoAtual_indicador
  simp only [hls, ht, if_true]
  cases hfl : s.indicadorNovasMensagens <;>
    cases hmo : (Helpbot.salvarEstadoSistema s).modalAberto <;>
    simp [Helpbot.setTimeout, hc, hfl, hmo, hls]

/-- Witness for C29: the helpbot page of ticket 17 with marker `m3`, flag false and user
type `colaborador`. -/
theorem C29_helpbot_guardar_e_carregar_witness :
    (Helpbot.carregarEstadoAtual
        (Helpbot.salvarEstadoSistema Helpbot.paginaComChamado)).ultimaMensagemVisualizadaId
      = some "m3"
    ∧ (Helpbot.carregarEstadoAtual
        (Helpbot.salvarEstadoSistema Helpbot.paginaComChamado)).tipoUsuario
      = some "colaborador" :=
  ⟨(C29_helpbot_guardar_e_carregar Helpbot.paginaComChamado chamadoA rfl
      (by decide)).2.2.1,
   (C29_helpbot_guardar_e_carregar Helpbot.paginaComChamado chamadoA rfl
      (by decide)).2.2.2.2.1⟩

/-- C30: in both variants, starting from a state in which the held handles account for the
live intervals of their kinds (the state of a freshly loaded script is such a state), after
any sequence of start and stop calls the live intervals of each kind are exactly the held
handle of that kind, none when the variable is null, so at most one interval of each kind
is registered. -/
theorem C30_um_intervalo_por_tipo (sh : Helpbot.State) (ss : Static.State)
    (opsh : List Helpbot.OperacaoTemporizador) (opss : List Static.OperacaoTemporizador)
    (hh : Helpbot.TemporizadoresCoerentes sh) (hs : Static.TemporizadoresCoerentes ss) :
    handlesDoTipo TipoIntervalo.refreshDados (Helpbot.executarTemporizadores opsh sh).intervalos
        = (Helpbot.executarTemporizadores opsh sh).intervaloAtualizacao.toList
    ∧ handlesDoTipo TipoIntervalo.segundoPlano
          (Helpbot.executarTemporizadores opsh sh).intervalos
        = (Helpbot.executarTemporizadores opsh sh).intervaloVerificacaoAutomatica.toList
    ∧ (handlesDoTipo TipoIntervalo.refreshDados
          (Helpbot.executarTemporizadores opsh sh).intervalos).length ≤ 1
    ∧ (handlesDoTipo TipoIntervalo.segundoPlano
          (Helpbot.executarTemporizadores opsh sh).intervalos).length ≤ 1
    ∧ handlesDoTipo TipoIntervalo.chat25s (Static.executarTemporizadores opss ss).intervalos
        = (Static.executarTemporizadores opss ss).intervaloAtualizacao.toList
    ∧ (handlesDoTipo TipoIntervalo.chat25s
          (Static.executarTemporizadores opss ss).intervalos).length ≤ 1
    ∧ (∀ ls indicador chatMessages messageInput sendBtn chatModalEl agora,
        Helpbot.TemporizadoresCoerentes
          (Helpbot.estadoInicial ls indicador chatMessages messageInput sendBtn chatModalEl
            agora))
    ∧ (∀ ls chatMessages containerIndicador floatingBtn messageInput sendBtnChatDisabled
          chatStatus agora,
        Static.TemporizadoresCoerentes
          (Static.estadoInicial ls chatMessages containerIndicador floatingBtn messageInput
            sendBtnChatDisabled chatStatus agora)) := by
  have kh := Helpbot.coerentes_executarTemporizadores opsh hh
  have ks := Static.coerentes_static_executarTemporizadores opss hs
  have e1 : handlesDoTipo TipoIntervalo.refreshDados
        (Helpbot.executarTemporizadores opsh sh).intervalos
      = (Helpbot.executarTemporizadores opsh sh).intervaloAtualizacao.toList := kh.refreshDados
  have e2 : handlesDoTipo TipoIntervalo.segundoPlano
        (Helpbot.executarTemporizadores opsh sh).intervalos
      = (Helpbot.executarTemporizadores opsh sh).intervaloVerificacaoAutomatica.toList :=
    kh.segundoPlano
  have e3 : handlesDoTipo TipoIntervalo.chat25s
        (Static.executarTemporizadores opss ss).intervalos
      = (Static.executarTemporizadores opss ss).intervaloAtualizacao.toList := ks.chat25s
  refine ⟨e1, e2, ?_, ?_, e3, ?_, ?_, ?_⟩
  · rw [e1]; exact toList_length_le_um _
  · rw [e2]; exact toList_length_le_um _
  · rw [e3]; exact toList_length_le_um _
  · intro ls indicador chatMessages messageInput sendBtn chatModalEl agora
    exact ⟨⟨fun p hp => absurd hp (List.not_mem_nil p), List.nodup_nil⟩, rfl, rfl⟩
  · intro ls chatMessages containerIndicador floatingBtn messageInput sendBtnChatDisabled
      chatStatus agora
    exact ⟨⟨fun p hp => absurd hp (List.not_mem_nil p), List.nodup_nil⟩, rfl⟩

/-- Witness for C30: the pages of ticket 17, whose held handles account for their live
intervals, and the two sequences of calls; afterwards the helpbot page has the 5 min interval
10 and the 2 min interval 9, the static page the 25 s interval 4. -/
theorem C30_um_intervalo_por_tipo_witness :
    handlesDoTipo TipoIntervalo.refreshDados
        (Helpbot.executarTemporizadores Helpbot.chamadasDeTemporizador
          Helpbot.paginaComChamado).intervalos = [10]
    ∧ (Helpbot.executarTemporizadores Helpbot.chamadasDeTemporizador
          Helpbot.paginaComChamado).intervaloAtualizacao = some 10
    ∧ handlesDoTipo TipoIntervalo.refreshDados
        (Helpbot.executarTemporizadores Helpbot.chamadasDeTemporizador
          Helpbot.paginaComChamado).intervalos
        = (Helpbot.executarTemporizadores Helpbot.chamadasDeTemporizador
          Helpbot.paginaComChamado).intervaloAtualizacao.toList
    ∧ handlesDoTipo TipoIntervalo.chat25s
        (Static.executarTemporizadores Static.chamadasDeTemporizador
          Static.paginaComChamado).intervalos
        = (Static.executarTemporizadores Static.chamadasDeTemporizador
          Static.paginaComChamado).intervaloAtualizacao.toList :=
  ⟨by decide, by decide,
   (C30_um_intervalo_por_tipo Helpbot.paginaComChamado Static.paginaComChamado
      Helpbot.chamadasDeTemporizador Static.chamadasDeTemporizador
      ⟨⟨by decide, by decide⟩, by unfold TemporizadorCoerente; decide,
        by unfold TemporizadorCoerente; decide⟩
      ⟨⟨by decide, by decide⟩, by unfold TemporizadorCoerente; decide⟩).1,
   (C30_um_intervalo_por_tipo Helpbot.paginaComChamado Static.paginaComChamado
      Helpbot.chamadasDeTemporizador Static.chamadasDeTemporizador
      ⟨⟨by decide, by decide⟩, by unfold TemporizadorCoerente; decide,
        by unfold TemporizadorCoerente; decide⟩
      ⟨⟨by decide, by decide⟩, by unfold TemporizadorCoerente; decide⟩).2.2.2.2.1⟩

end ChatBot
